import Mathlib

/-! The ACL request/response protocol: `acl_lib/acl_rpc.cc` over `acl_lib/acl.h`.

A shallow embedding of the client dispatch (`acl_client_dispatch::rpc_*`) and of the
server dispatch (`acl_server_dispatch::service_request`).

* C++ `std::string` values that carry text are `String`; those that carry bytes are `Bytes`.
* `int` and protobuf `int32` are `Int`; the one narrowing conversion in the file
  (`size_t` to a 32-bit integer) is `int32_t`.
* The protobuf library, the transport and the channel guard are not part of these two
  files. They are parameters: `codec`, `channel` and `guard_ops`.
* Reading a repeated field at an index is `xs[i]?`: a read past the end is undefined in
  C++. It makes `service_request` return `none`, and a client method return a record
  whose `ret` is `none`.
* Every embedded function also returns the guard methods it invoked and the
  `channel_read` and `channel_write` calls it made, in order.
* The simulated channel of a build with `TEST_SIMULATED_CHANNEL` is embedded from the
  source (`simulated_channel`), and instantiates `channel`.
* The tables and the session state are the data members of `acl.h`. The methods of the
  guard and of the tables are defined in `acl.cc`, which is not part of these files;
  `spec_guard` instantiates `guard_ops` with them as the specification describes them.
-/

namespace certifier.acl_lib

/-- Byte strings (`std::string` used as a buffer, protobuf `bytes`). -/
abbrev Bytes := List UInt8

/-- The cast `(::int32_t)x`, and the implicit conversion of a `size_t` to `int`:
reduction modulo 2^32 into the range [-2^31, 2^31). -/
def int32_t (x : Int) : Int := (x + 2147483648) % 4294967296 - 2147483648

/-! ## Messages -/

/-- Modelled from the spec: the principal record of `acl.pb.h` (spec section 3,
"Principal": name, authentication_algorithm, credential); the generated header is
not among the sources. -/
structure principal_message where
  name : String := ""
  authentication_algorithm : String := ""
  credential : Bytes := []
deriving DecidableEq, Repr

/-- Modelled from the spec: the resource record of `acl.pb.h` (spec section 3,
"Resource": identifier, type, location, two time stamps and the four access lists);
the generated header is not among the sources. -/
structure resource_message where
  resource_identifier : String := ""
  resource_type : String := ""
  resource_location : String := ""
  time_created : String := ""
  time_last_written : String := ""
  readers : List String := []
  writers : List String := []
  deleters : List String := []
  owners : List String := []
deriving DecidableEq, Repr

/-- The call envelope `rpc_call` of `acl.pb.h`, with the fields `acl_rpc.cc` reads and
writes (and `str_outputs`, spec section 4.5). `function_name` and `status` are optional
fields: `acl_rpc.cc` calls `has_function_name()`. -/
structure rpc_call where
  opt_function_name : Option String := none
  str_inputs : List String := []
  buf_inputs : List Bytes := []
  int_inputs : List Int := []
  opt_status : Option Bool := none
  str_outputs : List String := []
  buf_outputs : List Bytes := []
  int_outputs : List Int := []
deriving DecidableEq, Repr

namespace rpc_call

/-- A freshly constructed message (`rpc_call output_call_struct;`). -/
def fresh : rpc_call := {}

/-- The accessor `function_name()`: the empty string when the field is absent. -/
def function_name (c : rpc_call) : String := c.opt_function_name.getD ""

/-- The accessor `has_function_name()`. -/
def has_function_name (c : rpc_call) : Bool := c.opt_function_name.isSome

/-- The accessor `status()`: false when the field is absent. -/
def status (c : rpc_call) : Bool := c.opt_status.getD false

/-- The mutator `set_function_name(tag)`. -/
def set_function_name (c : rpc_call) (tag : String) : rpc_call :=
  { c with opt_function_name := some tag }

/-- The mutator `set_status(b)`. -/
def set_status (c : rpc_call) (b : Bool) : rpc_call :=
  { c with opt_status := some b }

/-- The mutator `add_str_inputs()` followed by the assignment through the pointer. -/
def add_str_inputs (c : rpc_call) (s : String) : rpc_call :=
  { c with str_inputs := c.str_inputs ++ [s] }

/-- The mutator `add_buf_inputs()` followed by the assignment through the pointer. -/
def add_buf_inputs (c : rpc_call) (b : Bytes) : rpc_call :=
  { c with buf_inputs := c.buf_inputs ++ [b] }

/-- The mutator `add_int_inputs(v)`. -/
def add_int_inputs (c : rpc_call) (v : Int) : rpc_call :=
  { c with int_inputs := c.int_inputs ++ [v] }

/-- The mutator `add_buf_outputs()` followed by the assignment through the pointer. -/
def add_buf_outputs (c : rpc_call) (b : Bytes) : rpc_call :=
  { c with buf_outputs := c.buf_outputs ++ [b] }

/-- The mutator `add_int_outputs(v)`. -/
def add_int_outputs (c : rpc_call) (v : Int) : rpc_call :=
  { c with int_outputs := c.int_outputs ++ [v] }

end rpc_call

/-! ## Function tags (`acl_rpc.cc` lines 78-88) -/

def authenticate_me_tag : String := "authenticate_me"
def verify_me_tag : String := "verify_me"
def open_resource_tag : String := "open_resource"
def close_resource_tag : String := "close_resource"
def read_resource_tag : String := "read_resource"
def write_resource_tag : String := "write_resource"
def add_access_right_tag : String := "add_access_right"
def add_principal_tag : String := "add_principal"
def delete_principal_tag : String := "delete_principal"
def create_resource_tag : String := "create_resource"
def delete_resource_tag : String := "delete_resource"

/-- The eleven tags `service_request` compares the request's tag with. -/
def known_tags : List String :=
  [authenticate_me_tag, verify_me_tag, open_resource_tag, close_resource_tag,
   read_resource_tag, write_resource_tag, add_access_right_tag, delete_resource_tag,
   create_resource_tag, delete_principal_tag, add_principal_tag]

/-! ## The collaborators, as parameters -/

/-- The protobuf library: `SerializeToString` and `ParseFromString` of the three message
types. `none` is the call returning false. -/
structure codec where
  serialize_call : rpc_call → Option Bytes
  parse_call : Bytes → Option rpc_call
  serialize_resource : resource_message → Option Bytes
  parse_resource : Bytes → Option resource_message
  serialize_principal : principal_message → Option Bytes
  parse_principal : Bytes → Option principal_message

/-- What `channel_read(channel, &out)` leaves behind: its return value, the string
`out`, and the transport. -/
structure channel_read_result (χ : Type) where
  bytes_read : Int
  out : Bytes
  channel : χ

/-- What `channel_write(channel, n, buf)` leaves behind: its return value and the
transport. -/
structure channel_write_result (χ : Type) where
  bytes_written : Int
  channel : χ

/-- The transport behind `channel_read` and `channel_write` (lines 56-75), either
`sized_ssl_read`/`sized_ssl_write` or the simulated buffer, and `SSL_shutdown`. -/
structure channel (χ : Type) where
  channel_read : χ → channel_read_result χ
  channel_write : χ → Int → Bytes → channel_write_result χ
  shutdown : χ → χ

/-- A guard method that returns only its boolean. -/
structure guard_status (γ : Type) where
  ret : Bool
  guard : γ

/-- A guard method with an out-parameter: `out` is the content of the out-parameter
when the method returns. -/
structure guard_output (γ α : Type) where
  ret : Bool
  out : α
  guard : γ

/-- The methods of `channel_guard` (acl.h lines 201-237) that `service_request` calls,
each as a function of the guard (and table) state before the call. For the three
methods with an out-parameter the caller passes an empty string, or -1 for the
descriptor, as `service_request` does. -/
structure guard_ops (γ : Type) where
  authenticate_me : γ → String → Bytes → guard_output γ Bytes
  verify_me : γ → String → Bytes → guard_status γ
  open_resource : γ → String → String → guard_output γ Int
  read_resource : γ → String → Int → Int → guard_output γ Bytes
  write_resource : γ → String → Int → Int → Bytes → guard_status γ
  close_resource : γ → String → Int → guard_status γ
  add_access_rights : γ → String → String → String → guard_status γ
  delete_resource : γ → String → String → guard_status γ
  create_resource : γ → resource_message → guard_status γ
  add_principal : γ → principal_message → guard_status γ
  delete_principal : γ → String → guard_status γ

/-- One invocation of a guard method, with its arguments in the order of the
declaration in acl.h. -/
inductive guard_call where
  | authenticate_me (name : String) (serialized_credentials : Bytes)
  | verify_me (name : String) (signed_nonce : Bytes)
  | open_resource (resource_name access_mode : String)
  | read_resource (resource_name : String) (local_descriptor n : Int)
  | write_resource (resource_name : String) (local_descriptor n : Int) (inp : Bytes)
  | close_resource (resource_name : String) (local_descriptor : Int)
  | add_access_rights (resource_name right new_prin : String)
  | delete_resource (resource_name type : String)
  | create_resource (rm : resource_message)
  | add_principal (pm : principal_message)
  | delete_principal (name : String)
deriving DecidableEq, Repr

/-- The boolean a guard method returns when invoked as `c` on guard state `g`. -/
def guard_ops.returns {γ : Type} (G : guard_ops γ) (g : γ) : guard_call → Bool
  | .authenticate_me a b => (G.authenticate_me g a b).ret
  | .verify_me a b => (G.verify_me g a b).ret
  | .open_resource a b => (G.open_resource g a b).ret
  | .read_resource a d n => (G.read_resource g a d n).ret
  | .write_resource a d n b => (G.write_resource g a d n b).ret
  | .close_resource a d => (G.close_resource g a d).ret
  | .add_access_rights a b c => (G.add_access_rights g a b c).ret
  | .delete_resource a b => (G.delete_resource g a b).ret
  | .create_resource rm => (G.create_resource g rm).ret
  | .add_principal pm => (G.add_principal g pm).ret
  | .delete_principal a => (G.delete_principal g a).ret

/-- The guard state a guard method leaves when invoked as `c` on guard state `g`. -/
def guard_ops.state_after {γ : Type} (G : guard_ops γ) (g : γ) : guard_call → γ
  | .authenticate_me a b => (G.authenticate_me g a b).guard
  | .verify_me a b => (G.verify_me g a b).guard
  | .open_resource a b => (G.open_resource g a b).guard
  | .read_resource a d n => (G.read_resource g a d n).guard
  | .write_resource a d n b => (G.write_resource g a d n b).guard
  | .close_resource a d => (G.close_resource g a d).guard
  | .add_access_rights a b c => (G.add_access_rights g a b c).guard
  | .delete_resource a b => (G.delete_resource g a b).guard
  | .create_resource rm => (G.create_resource g rm).guard
  | .add_principal pm => (G.add_principal g pm).guard
  | .delete_principal a => (G.delete_principal g a).guard

/-- One call of `channel_write`: the message whose serialization was passed, the
arguments `n` and `buf`, and the value the call returned. -/
structure channel_write_record where
  message : rpc_call
  n : Int
  buf : Bytes
  bytes_written : Int
deriving DecidableEq, Repr

/-! ## Server dispatch (`acl_rpc.cc` lines 726-1177) -/

/-- The object `acl_server_dispatch`: its flag, its transport and its guard. -/
structure acl_server_dispatch (χ γ : Type) where
  initialized_ : Bool
  channel_descriptor_ : χ
  guard_ : γ

/-- What one call of `service_request` leaves behind: the returned boolean, the
transport, the guard, the guard methods invoked and the `channel_write` calls made. -/
structure service_result (χ γ : Type) where
  ret : Bool
  channel : χ
  guard : γ
  calls : List guard_call
  writes : List channel_write_record

variable {χ γ : Type}

/-- The statement `return true;` taken before any guard method or `channel_write`
was reached. -/
def return_true (ch : χ) (g : γ) : service_result χ γ :=
  { ret := true, channel := ch, guard := g, calls := [], writes := [] }

/-- The tail shared by the eleven branches (for instance lines 788-805): serialize
`output_call_struct`, write it to the channel, and return true in all three outcomes. -/
def write_reply (P : codec) (C : channel χ) (ch : χ) (g : γ) (calls : List guard_call)
    (output_call_struct : rpc_call) : service_result χ γ :=
  match P.serialize_call output_call_struct with
  | none =>
    -- "and the caller never knows"
    { ret := true, channel := ch, guard := g, calls := calls, writes := [] }
  | some encode_parameters_str =>
    let w := C.channel_write ch (int32_t encode_parameters_str.length) encode_parameters_str
    let record : channel_write_record :=
      { message := output_call_struct, n := int32_t encode_parameters_str.length,
        buf := encode_parameters_str, bytes_written := w.bytes_written }
    if w.bytes_written < 0 then
      { ret := true, channel := w.channel, guard := g, calls := calls, writes := [record] }
    else
      { ret := true, channel := w.channel, guard := g, calls := calls, writes := [record] }

/-- The branch for `authenticate_me_tag`, lines 767-805. -/
def service_authenticate_me (P : codec) (C : channel χ) (G : guard_ops γ) (ch : χ) (g : γ)
    (input_call_struct : rpc_call) : Option (service_result χ γ) :=
  if input_call_struct.str_inputs.length < 1 ∨ input_call_struct.buf_inputs.length < 1 then
    some (return_true ch g)
  else
    match input_call_struct.str_inputs[0]?, input_call_struct.buf_inputs[0]? with
    | some s0, some b0 =>
      let r := G.authenticate_me g s0 b0
      let output_call_struct :=
        if r.ret then (rpc_call.fresh.set_status true).add_buf_outputs r.out
        else rpc_call.fresh.set_status false
      let output_call_struct := output_call_struct.set_function_name authenticate_me_tag
      some (write_reply P C ch r.guard [guard_call.authenticate_me s0 b0] output_call_struct)
    | _, _ => none

/-- The branch for `verify_me_tag`, lines 806-845. -/
def service_verify_me (P : codec) (C : channel χ) (G : guard_ops γ) (ch : χ) (g : γ)
    (input_call_struct : rpc_call) : Option (service_result χ γ) :=
  if input_call_struct.str_inputs.length < 1 then
    some (return_true ch g)
  else if input_call_struct.buf_inputs.length < 1 then
    some (return_true ch g)
  else
    match input_call_struct.str_inputs[0]?, input_call_struct.buf_inputs[0]? with
    | some s0, some b0 =>
      let r := G.verify_me g s0 b0
      let output_call_struct :=
        if r.ret then rpc_call.fresh.set_status true else rpc_call.fresh.set_status false
      let output_call_struct := output_call_struct.set_function_name verify_me_tag
      some (write_reply P C ch r.guard [guard_call.verify_me s0 b0] output_call_struct)
    | _, _ => none

/-- The branch for `open_resource_tag`, lines 846-880. -/
def service_open_resource (P : codec) (C : channel χ) (G : guard_ops γ) (ch : χ) (g : γ)
    (input_call_struct : rpc_call) : Option (service_result χ γ) :=
  if input_call_struct.str_inputs.length < 2 then
    some (return_true ch g)
  else
    let output_call_struct := rpc_call.fresh.set_function_name open_resource_tag
    match input_call_struct.str_inputs[0]?, input_call_struct.str_inputs[1]? with
    | some s0, some s1 =>
      let r := G.open_resource g s0 s1
      let output_call_struct :=
        if r.ret then (output_call_struct.set_status true).add_int_outputs r.out
        else output_call_struct.set_status false
      some (write_reply P C ch r.guard [guard_call.open_resource s0 s1] output_call_struct)
    | _, _ => none

/-- The branch for `close_resource_tag`, lines 881-916. -/
def service_close_resource (P : codec) (C : channel χ) (G : guard_ops γ) (ch : χ) (g : γ)
    (input_call_struct : rpc_call) : Option (service_result χ γ) :=
  if input_call_struct.str_inputs.length < 1 then
    some (return_true ch g)
  else if input_call_struct.int_inputs.length < 1 then
    some (return_true ch g)
  else
    match input_call_struct.str_inputs[0]?, input_call_struct.int_inputs[0]? with
    | some s0, some i0 =>
      let r := G.close_resource g s0 i0
      let output_call_struct :=
        if r.ret then rpc_call.fresh.set_status true else rpc_call.fresh.set_status false
      let output_call_struct := output_call_struct.set_function_name close_resource_tag
      some (write_reply P C ch r.guard [guard_call.close_resource s0 i0] output_call_struct)
    | _, _ => none

/-- The branch for `read_resource_tag`, lines 917-959. -/
def service_read_resource (P : codec) (C : channel χ) (G : guard_ops γ) (ch : χ) (g : γ)
    (input_call_struct : rpc_call) : Option (service_result χ γ) :=
  if input_call_struct.str_inputs.length < 1 then
    some (return_true ch g)
  else if input_call_struct.int_inputs.length < 2 then
    some (return_true ch g)
  else
    let output_call_struct := rpc_call.fresh.set_function_name read_resource_tag
    match input_call_struct.str_inputs[0]?, input_call_struct.int_inputs[0]?,
        input_call_struct.int_inputs[1]? with
    | some s0, some i0, some i1 =>
      let r := G.read_resource g s0 i0 i1
      let output_call_struct :=
        if r.ret then (output_call_struct.set_status true).add_buf_outputs r.out
        else output_call_struct.set_status false
      some (write_reply P C ch r.guard [guard_call.read_resource s0 i0 i1] output_call_struct)
    | _, _, _ => none

/-- The branch for `write_resource_tag`, lines 960-1001. -/
def service_write_resource (P : codec) (C : channel χ) (G : guard_ops γ) (ch : χ) (g : γ)
    (input_call_struct : rpc_call) : Option (service_result χ γ) :=
  if input_call_struct.str_inputs.length < 1 then
    some (return_true ch g)
  else if input_call_struct.int_inputs.length < 2 then
    some (return_true ch g)
  else if input_call_struct.buf_inputs.length < 1 then
    some (return_true ch g)
  else
    match input_call_struct.str_inputs[0]?, input_call_struct.int_inputs[0]?,
        input_call_struct.int_inputs[1]?, input_call_struct.buf_inputs[0]? with
    | some s0, some i0, some i1, some b0 =>
      let r := G.write_resource g s0 i0 i1 b0
      let output_call_struct :=
        if r.ret then rpc_call.fresh.set_status true else rpc_call.fresh.set_status false
      let output_call_struct := output_call_struct.set_function_name write_resource_tag
      some (write_reply P C ch r.guard [guard_call.write_resource s0 i0 i1 b0]
        output_call_struct)
    | _, _, _, _ => none

/-- The branch for `add_access_right_tag`, lines 1002-1035. -/
def service_add_access_right (P : codec) (C : channel χ) (G : guard_ops γ) (ch : χ) (g : γ)
    (input_call_struct : rpc_call) : Option (service_result χ γ) :=
  -- resource_name, right, new_prin
  if input_call_struct.str_inputs.length < 3 then
    some (return_true ch g)
  else
    match input_call_struct.str_inputs[0]?, input_call_struct.str_inputs[1]?,
        input_call_struct.str_inputs[2]? with
    | some s0, some s1, some s2 =>
      let r := G.add_access_rights g s0 s1 s2
      let output_call_struct :=
        if r.ret then rpc_call.fresh.set_status true else rpc_call.fresh.set_status false
      let output_call_struct := output_call_struct.set_function_name add_access_right_tag
      some (write_reply P C ch r.guard [guard_call.add_access_rights s0 s1 s2]
        output_call_struct)
    | _, _, _ => none

/-- The branch for `delete_resource_tag`, lines 1036-1066. -/
def service_delete_resource (P : codec) (C : channel χ) (G : guard_ops γ) (ch : χ) (g : γ)
    (input_call_struct : rpc_call) : Option (service_result χ γ) :=
  if input_call_struct.str_inputs.length < 2 then
    some (return_true ch g)
  else
    match input_call_struct.str_inputs[0]?, input_call_struct.str_inputs[1]? with
    | some s0, some s1 =>
      let r := G.delete_resource g s0 s1
      let output_call_struct :=
        if r.ret then rpc_call.fresh.set_status true else rpc_call.fresh.set_status false
      let output_call_struct := output_call_struct.set_function_name delete_resource_tag
      some (write_reply P C ch r.guard [guard_call.delete_resource s0 s1] output_call_struct)
    | _, _ => none

/-- The branch for `create_resource_tag`, lines 1067-1103. The guard is called only
when the embedded resource message parsed (`ret && guard_.create_resource(rm)`). -/
def service_create_resource (P : codec) (C : channel χ) (G : guard_ops γ) (ch : χ) (g : γ)
    (input_call_struct : rpc_call) : Option (service_result χ γ) :=
  if input_call_struct.buf_inputs.length < 1 then
    some (return_true ch g)
  else
    match input_call_struct.buf_inputs[0]? with
    | some b0 =>
      match P.parse_resource b0 with
      | none =>
        let output_call_struct := rpc_call.fresh.set_status false
        let output_call_struct := output_call_struct.set_function_name create_resource_tag
        some (write_reply P C ch g [] output_call_struct)
      | some rm =>
        let r := G.create_resource g rm
        let output_call_struct :=
          if r.ret then rpc_call.fresh.set_status true else rpc_call.fresh.set_status false
        let output_call_struct := output_call_struct.set_function_name create_resource_tag
        some (write_reply P C ch r.guard [guard_call.create_resource rm] output_call_struct)
    | none => none

/-- The branch for `delete_principal_tag`, lines 1104-1134. -/
def service_delete_principal (P : codec) (C : channel χ) (G : guard_ops γ) (ch : χ) (g : γ)
    (input_call_struct : rpc_call) : Option (service_result χ γ) :=
  if input_call_struct.str_inputs.length < 1 then
    some (return_true ch g)
  else
    let output_call_struct := rpc_call.fresh.set_function_name delete_principal_tag
    match input_call_struct.str_inputs[0]? with
    | some s0 =>
      let r := G.delete_principal g s0
      let output_call_struct :=
        if r.ret then output_call_struct.set_status true
        else output_call_struct.set_status false
      some (write_reply P C ch r.guard [guard_call.delete_principal s0] output_call_struct)
    | none => none

/-- The branch for `add_principal_tag`, lines 1135-1167. The guard is called only when
the embedded principal message parsed (`ret && guard_.add_principal(pm)`). -/
def service_add_principal (P : codec) (C : channel χ) (G : guard_ops γ) (ch : χ) (g : γ)
    (input_call_struct : rpc_call) : Option (service_result χ γ) :=
  if input_call_struct.buf_inputs.length < 1 then
    some (return_true ch g)
  else
    let output_call_struct := rpc_call.fresh.set_function_name add_principal_tag
    match input_call_struct.buf_inputs[0]? with
    | some b0 =>
      match P.parse_principal b0 with
      | none =>
        some (write_reply P C ch g [] (output_call_struct.set_status false))
      | some pm =>
        let r := G.add_principal g pm
        let output_call_struct :=
          if r.ret then output_call_struct.set_status true
          else output_call_struct.set_status false
        some (write_reply P C ch r.guard [guard_call.add_principal pm] output_call_struct)
    | none => none

/-- The chain of comparisons on `input_call_struct.function_name()`, lines 767-1174,
in the order of the source. -/
def dispatch (P : codec) (C : channel χ) (G : guard_ops γ) (ch : χ) (g : γ)
    (input_call_struct : rpc_call) : Option (service_result χ γ) :=
  if input_call_struct.function_name = authenticate_me_tag then
    service_authenticate_me P C G ch g input_call_struct
  else if input_call_struct.function_name = verify_me_tag then
    service_verify_me P C G ch g input_call_struct
  else if input_call_struct.function_name = open_resource_tag then
    service_open_resource P C G ch g input_call_struct
  else if input_call_struct.function_name = close_resource_tag then
    service_close_resource P C G ch g input_call_struct
  else if input_call_struct.function_name = read_resource_tag then
    service_read_resource P C G ch g input_call_struct
  else if input_call_struct.function_name = write_resource_tag then
    service_write_resource P C G ch g input_call_struct
  else if input_call_struct.function_name = add_access_right_tag then
    service_add_access_right P C G ch g input_call_struct
  else if input_call_struct.function_name = delete_resource_tag then
    service_delete_resource P C G ch g input_call_struct
  else if input_call_struct.function_name = create_resource_tag then
    service_create_resource P C G ch g input_call_struct
  else if input_call_struct.function_name = delete_principal_tag then
    service_delete_principal P C G ch g input_call_struct
  else if input_call_struct.function_name = add_principal_tag then
    service_add_principal P C G ch g input_call_struct
  else
    -- unknown function
    some (return_true ch g)

/-- The method `acl_server_dispatch::service_request`, lines 734-1177. -/
def service_request (P : codec) (C : channel χ) (G : guard_ops γ)
    (s : acl_server_dispatch χ γ) : Option (service_result χ γ) :=
  if s.initialized_ = false then
    some { ret := false, channel := s.channel_descriptor_, guard := s.guard_,
           calls := [], writes := [] }
  else
    -- read the buffer
    let rd := C.channel_read s.channel_descriptor_
    if rd.bytes_read < 0 then
      some { ret := false, channel := C.shutdown rd.channel, guard := s.guard_,
             calls := [], writes := [] }
    else
      match P.parse_call rd.out with
      | none => some (return_true rd.channel s.guard_)
      | some input_call_struct => dispatch P C G rd.channel s.guard_ input_call_struct

/-! ## Client dispatch (`acl_rpc.cc` lines 90-724) -/

/-- One call of `channel_read`: the value it returned and the string it produced. -/
structure channel_read_record where
  bytes_read : Int
  out : Bytes
deriving DecidableEq, Repr

/-- The state of an `rpc_*` method after the lines every method shares (for instance
113-141): the transport, the channel calls made, and the parsed reply
`output_call_struct` when serializing, writing, reading and parsing all succeeded. -/
structure exchange_result (ω : Type) where
  world : ω
  writes : List channel_write_record
  reads : List channel_read_record
  output_call_struct : Option rpc_call

/-- What an `rpc_*` method leaves behind: the returned boolean, the content of its
out-parameter (`Unit` when it has none), the transport and the channel calls made.
`ret` is `none` when the method read a repeated field past its end, which is undefined
in C++; the other fields then hold what had happened up to that read. -/
structure rpc_return (ω α : Type) where
  ret : Option Bool
  out : α
  world : ω
  writes : List channel_write_record
  reads : List channel_read_record

variable {ω α : Type}

/-- The lines every `rpc_*` method shares, word for word, after it has filled
`input_call_struct` (for instance 113-141 in `rpc_authenticate_me`): serialize the
request, write it, read the reply, parse it. `inline_server` is the statement
`g_server.service_request();` that a build with `TEST_SIMULATED_CHANNEL` runs between
the write and the read; it is the identity in a build without it. -/
def client_exchange (P : codec) (C : channel ω) (inline_server : ω → ω) (w : ω)
    (input_call_struct : rpc_call) : exchange_result ω :=
  match P.serialize_call input_call_struct with
  | none => { world := w, writes := [], reads := [], output_call_struct := none }
  | some encode_parameters_str =>
    let wr := C.channel_write w (int32_t encode_parameters_str.length) encode_parameters_str
    let record : channel_write_record :=
      { message := input_call_struct, n := int32_t encode_parameters_str.length,
        buf := encode_parameters_str, bytes_written := wr.bytes_written }
    if wr.bytes_written < 0 then
      { world := wr.channel, writes := [record], reads := [], output_call_struct := none }
    else
      let rd := C.channel_read (inline_server wr.channel)
      let seen : channel_read_record := { bytes_read := rd.bytes_read, out := rd.out }
      if rd.bytes_read < 0 then
        { world := rd.channel, writes := [record], reads := [seen],
          output_call_struct := none }
      else
        { world := rd.channel, writes := [record], reads := [seen],
          output_call_struct := P.parse_call rd.out }

/-- The statement `return false;` (or `return true;`) after the exchange `x`, with the
out-parameter holding `out`. -/
def exchange_result.returning (x : exchange_result ω) (ret : Bool) (out : α) :
    rpc_return ω α :=
  { ret := some ret, out := out, world := x.world, writes := x.writes, reads := x.reads }

/-- A read of a repeated field past its end after the exchange `x`, with the
out-parameter still holding `out`. -/
def exchange_result.out_of_range (x : exchange_result ω) (out : α) : rpc_return ω α :=
  { ret := none, out := out, world := x.world, writes := x.writes, reads := x.reads }

/-- The method `rpc_authenticate_me`, lines 97-165. `output` is the content of `*output`
before the call. -/
def rpc_authenticate_me (P : codec) (C : channel ω) (inline_server : ω → ω) (w : ω)
    (principal_name : String) (serialized_creds : Bytes) (output : Bytes) :
    rpc_return ω Bytes :=
  -- format input buffer, serialize it
  let input_call_struct := rpc_call.fresh.set_function_name authenticate_me_tag
  let input_call_struct := input_call_struct.add_str_inputs principal_name
  let input_call_struct := input_call_struct.add_buf_inputs serialized_creds
  let x := client_exchange P C inline_server w input_call_struct
  match x.output_call_struct with
  | none => x.returning false output
  | some output_call_struct =>
    if output_call_struct.function_name ≠ authenticate_me_tag then
      x.returning false output
    else if output_call_struct.status = false then
      x.returning false output
    else if output_call_struct.buf_outputs.length < 1 then
      x.returning false output
    else
      match output_call_struct.buf_outputs[0]? with
      | some out_nonce => x.returning true out_nonce
      | none => x.out_of_range output

/-- The method `rpc_verify_me`, lines 167-228. -/
def rpc_verify_me (P : codec) (C : channel ω) (inline_server : ω → ω) (w : ω)
    (principal_name : String) (signed_nonce : Bytes) : rpc_return ω Unit :=
  let input_call_struct := rpc_call.fresh.set_function_name verify_me_tag
  let input_call_struct := input_call_struct.add_str_inputs principal_name
  let input_call_struct := input_call_struct.add_buf_inputs signed_nonce
  let x := client_exchange P C inline_server w input_call_struct
  match x.output_call_struct with
  | none => x.returning false ()
  | some output_call_struct =>
    if output_call_struct.has_function_name = false then
      x.returning false ()
    else if output_call_struct.function_name ≠ verify_me_tag then
      x.returning false ()
    else if output_call_struct.status = false then
      x.returning false ()
    else
      x.returning true ()

/-- The method `rpc_open_resource`, lines 230-286. `local_descriptor` is the content of
`*local_descriptor` before the call. Line 284 reads `int_outputs(0)` without a check
of `int_outputs_size()`. -/
def rpc_open_resource (P : codec) (C : channel ω) (inline_server : ω → ω) (w : ω)
    (resource_name access_right : String) (local_descriptor : Int) :
    rpc_return ω Int :=
  let input_call_struct := rpc_call.fresh.set_function_name open_resource_tag
  let input_call_struct := input_call_struct.add_str_inputs resource_name
  let input_call_struct := input_call_struct.add_str_inputs access_right
  let x := client_exchange P C inline_server w input_call_struct
  match x.output_call_struct with
  | none => x.returning false local_descriptor
  | some output_call_struct =>
    if output_call_struct.function_name ≠ open_resource_tag then
      x.returning false local_descriptor
    else if output_call_struct.status ≠ true then
      x.returning false local_descriptor
    else
      match output_call_struct.int_outputs[0]? with
      | some d => x.returning output_call_struct.status d
      | none => x.out_of_range local_descriptor

/-- The method `rpc_read_resource`, lines 288-356. `bytes_output` is the content of
`*bytes_output` before the call. -/
def rpc_read_resource (P : codec) (C : channel ω) (inline_server : ω → ω) (w : ω)
    (resource_name : String) (local_descriptor num_bytes : Int) (bytes_output : Bytes) :
    rpc_return ω Bytes :=
  let input_call_struct := rpc_call.fresh.set_function_name read_resource_tag
  let input_call_struct := input_call_struct.add_int_inputs local_descriptor
  let input_call_struct := input_call_struct.add_int_inputs num_bytes
  let input_call_struct := input_call_struct.add_str_inputs resource_name
  let x := client_exchange P C inline_server w input_call_struct
  match x.output_call_struct with
  | none => x.returning false bytes_output
  | some output_call_struct =>
    if output_call_struct.has_function_name = false then
      x.returning false bytes_output
    else if output_call_struct.function_name ≠ read_resource_tag then
      x.returning false bytes_output
    else if output_call_struct.status = false then
      x.returning false bytes_output
    else if output_call_struct.buf_outputs.length < 1 then
      x.returning false bytes_output
    else
      match output_call_struct.buf_outputs[0]? with
      | some b => x.returning true b
      | none => x.out_of_range bytes_output

/-- The method `rpc_write_resource`, lines 358-417. The second integer is
`(::int32_t)bytes_to_write.size()`. -/
def rpc_write_resource (P : codec) (C : channel ω) (inline_server : ω → ω) (w : ω)
    (resource_name : String) (local_descriptor : Int) (bytes_to_write : Bytes) :
    rpc_return ω Unit :=
  let input_call_struct := rpc_call.fresh.set_function_name write_resource_tag
  let input_call_struct := input_call_struct.add_str_inputs resource_name
  let input_call_struct := input_call_struct.add_buf_inputs bytes_to_write
  let input_call_struct := input_call_struct.add_int_inputs local_descriptor
  let input_call_struct := input_call_struct.add_int_inputs (int32_t bytes_to_write.length)
  let x := client_exchange P C inline_server w input_call_struct
  match x.output_call_struct with
  | none => x.returning false ()
  | some output_call_struct =>
    if output_call_struct.function_name ≠ write_resource_tag then
      x.returning false ()
    else if output_call_struct.status = false then
      x.returning false ()
    else
      x.returning true ()

/-- The method `rpc_close_resource`, lines 419-473. -/
def rpc_close_resource (P : codec) (C : channel ω) (inline_server : ω → ω) (w : ω)
    (resource_name : String) (local_descriptor : Int) : rpc_return ω Unit :=
  let input_call_struct := rpc_call.fresh.set_function_name close_resource_tag
  let input_call_struct := input_call_struct.add_str_inputs resource_name
  let input_call_struct := input_call_struct.add_int_inputs local_descriptor
  let x := client_exchange P C inline_server w input_call_struct
  match x.output_call_struct with
  | none => x.returning false ()
  | some output_call_struct =>
    if output_call_struct.function_name ≠ close_resource_tag then
      x.returning false ()
    else if output_call_struct.status = false then
      x.returning false ()
    else
      x.returning true ()

/-- The method `rpc_add_access_right`, lines 475-536. The parameters come in the order
resource, delegated principal, right; the strings are added in the order resource,
right, principal. -/
def rpc_add_access_right (P : codec) (C : channel ω) (inline_server : ω → ω) (w : ω)
    (resource_name delegated_principal right : String) : rpc_return ω Unit :=
  -- resource name, right, new_principal
  let input_call_struct := rpc_call.fresh.set_function_name add_access_right_tag
  let input_call_struct := input_call_struct.add_str_inputs resource_name
  let input_call_struct := input_call_struct.add_str_inputs right
  let input_call_struct := input_call_struct.add_str_inputs delegated_principal
  let x := client_exchange P C inline_server w input_call_struct
  match x.output_call_struct with
  | none => x.returning false ()
  | some output_call_struct =>
    if output_call_struct.function_name ≠ add_access_right_tag then
      x.returning false ()
    else if output_call_struct.status = false then
      x.returning false ()
    else
      x.returning true ()

/-- The method `rpc_delete_resource`, lines 539-594. -/
def rpc_delete_resource (P : codec) (C : channel ω) (inline_server : ω → ω) (w : ω)
    (resource_name type : String) : rpc_return ω Unit :=
  let input_call_struct := rpc_call.fresh.set_function_name delete_resource_tag
  let input_call_struct := input_call_struct.add_str_inputs resource_name
  let input_call_struct := input_call_struct.add_str_inputs type
  let x := client_exchange P C inline_server w input_call_struct
  match x.output_call_struct with
  | none => x.returning false ()
  | some output_call_struct =>
    if output_call_struct.function_name ≠ delete_resource_tag then
      x.returning false ()
    else if output_call_struct.status = false then
      x.returning false ()
    else
      x.returning true ()

/-- The method `rpc_create_resource`, lines 596-654. -/
def rpc_create_resource (P : codec) (C : channel ω) (inline_server : ω → ω) (w : ω)
    (rm : resource_message) : rpc_return ω Unit :=
  match P.serialize_resource rm with
  | none => { ret := some false, out := (), world := w, writes := [], reads := [] }
  | some serialized_resource =>
    let input_call_struct := rpc_call.fresh.set_function_name create_resource_tag
    let input_call_struct := input_call_struct.add_buf_inputs serialized_resource
    let x := client_exchange P C inline_server w input_call_struct
    match x.output_call_struct with
    | none => x.returning false ()
    | some output_call_struct =>
      if output_call_struct.function_name ≠ create_resource_tag then
        x.returning false ()
      else if output_call_struct.status = false then
        x.returning false ()
      else
        x.returning true ()

/-- The method `rpc_delete_principal`, lines 656-661: "delete principal not
implemented". -/
def rpc_delete_principal (w : ω) (_name : String) : rpc_return ω Unit :=
  { ret := some false, out := (), world := w, writes := [], reads := [] }

/-- The method `rpc_add_principal`, lines 664-724. -/
def rpc_add_principal (P : codec) (C : channel ω) (inline_server : ω → ω) (w : ω)
    (pm : principal_message) : rpc_return ω Unit :=
  match P.serialize_principal pm with
  | none => { ret := some false, out := (), world := w, writes := [], reads := [] }
  | some serialized_principal =>
    let input_call_struct := rpc_call.fresh.set_function_name add_principal_tag
    let input_call_struct := input_call_struct.add_buf_inputs serialized_principal
    let x := client_exchange P C inline_server w input_call_struct
    match x.output_call_struct with
    | none => x.returning false ()
    | some output_call_struct =>
      if output_call_struct.function_name ≠ add_principal_tag then
        x.returning false ()
      else if output_call_struct.status = false then
        x.returning false ()
      else
        x.returning true ()

/-! ## The argument layout of the specification -/

/-- The table "Function tags and argument layout" of the specification (section 6),
read as the number of string, buffer and integer inputs it lists for each tag;
`none` for a string that is not one of the eleven tags. -/
def layout_arity (tag : String) : Option (Nat × Nat × Nat) :=
  if tag = authenticate_me_tag then some (1, 1, 0)
  else if tag = verify_me_tag then some (1, 1, 0)
  else if tag = open_resource_tag then some (2, 0, 0)
  else if tag = read_resource_tag then some (1, 0, 2)
  else if tag = write_resource_tag then some (1, 1, 2)
  else if tag = close_resource_tag then some (1, 0, 1)
  else if tag = add_access_right_tag then some (3, 0, 0)
  else if tag = create_resource_tag then some (0, 1, 0)
  else if tag = delete_resource_tag then some (2, 0, 0)
  else if tag = add_principal_tag then some (0, 1, 0)
  else if tag = delete_principal_tag then some (1, 0, 0)
  else none

/-- A request with a known tag and at least the inputs its layout lists. -/
def has_required_inputs (c : rpc_call) : Prop :=
  match layout_arity c.function_name with
  | none => False
  | some (a, b, k) =>
    a ≤ c.str_inputs.length ∧ b ≤ c.buf_inputs.length ∧ k ≤ c.int_inputs.length

instance (c : rpc_call) : Decidable (has_required_inputs c) := by
  unfold has_required_inputs
  split <;> infer_instance

/-- A request with a known tag but fewer string, buffer or integer inputs than its
layout lists. -/
def has_too_few_inputs (c : rpc_call) : Prop :=
  match layout_arity c.function_name with
  | none => False
  | some (a, b, k) =>
    c.str_inputs.length < a ∨ c.buf_inputs.length < b ∨ c.int_inputs.length < k

instance (c : rpc_call) : Decidable (has_too_few_inputs c) := by
  unfold has_too_few_inputs
  split <;> infer_instance

/-- The embedded message of a `create_resource` or `add_principal` request, its first
buffer input, does not parse. -/
def embedded_message_unparsable (P : codec) (c : rpc_call) : Prop :=
  (c.function_name = create_resource_tag ∧
    ∃ b0, c.buf_inputs[0]? = some b0 ∧ P.parse_resource b0 = none) ∨
  (c.function_name = add_principal_tag ∧
    ∃ b0, c.buf_inputs[0]? = some b0 ∧ P.parse_principal b0 = none)

/-! ## A small concrete instance, to run the dispatch on -/

/-- An in-memory transport: the framed messages still to be read and the messages
written so far. Reading from an empty queue fails with -1. -/
structure queue_channel where
  incoming : List Bytes
  outgoing : List Bytes
deriving DecidableEq, Repr

/-- The operations of the in-memory transport. -/
def queue_channel.ops : channel queue_channel where
  channel_read q :=
    match q.incoming with
    | [] => { bytes_read := -1, out := [], channel := q }
    | m :: rest =>
      { bytes_read := m.length, out := m, channel := { q with incoming := rest } }
  channel_write q n buf :=
    { bytes_written := n, channel := { q with outgoing := q.outgoing ++ [buf.take n.toNat] } }
  shutdown q := q

/-- The resource record used in the sample requests. -/
def sample_resource : resource_message :=
  { resource_identifier := "doc1", resource_type := "file", resource_location := "/tmp/doc1",
    owners := ["alice"], readers := ["bob"] }

/-- The principal record used in the sample requests. -/
def sample_principal : principal_message :=
  { name := "alice", authentication_algorithm := "rsa-2048-sha256", credential := [80] }

/-- The messages the sample codec knows; a message is encoded as the one byte that
holds its position in this list. -/
def sample_messages : List rpc_call :=
  [ -- 0: a well-formed verify_me request
    { opt_function_name := some "verify_me", str_inputs := ["alice"], buf_inputs := [[1, 2]] },
    -- 1: its reply
    { opt_function_name := some "verify_me", opt_status := some true },
    -- 2: an authenticate_me request without inputs
    { opt_function_name := some "authenticate_me" },
    -- 3: a request with a tag that is not one of the eleven
    { opt_function_name := some "rename_resource", str_inputs := ["doc1", "doc2"] },
    -- 4: a well-formed authenticate_me request
    { opt_function_name := some "authenticate_me", str_inputs := ["alice"],
      buf_inputs := [[80]] },
    -- 5: its reply
    { opt_function_name := some "authenticate_me", opt_status := some true,
      buf_outputs := [[9, 9]] },
    -- 6: a create_resource request whose buffer is not a resource message
    { opt_function_name := some "create_resource", buf_inputs := [[255]] },
    -- 7: its reply
    { opt_function_name := some "create_resource", opt_status := some false },
    -- 8: a well-formed open_resource request
    { opt_function_name := some "open_resource", str_inputs := ["doc1", "read"] },
    -- 9: its reply
    { opt_function_name := some "open_resource", opt_status := some true,
      int_outputs := [3] },
    -- 10: a write_resource request without its buffer
    { opt_function_name := some "write_resource", str_inputs := ["doc1"],
      int_inputs := [3, 5] },
    -- 11: a well-formed verify_me request of another principal
    { opt_function_name := some "verify_me", str_inputs := ["mallory"], buf_inputs := [[6]] },
    -- 12: its reply
    { opt_function_name := some "verify_me", opt_status := some false },
    -- 13: a well-formed add_access_right request
    { opt_function_name := some "add_access_right",
      str_inputs := ["doc1", "reader", "carol"] },
    -- 14: its reply
    { opt_function_name := some "add_access_right", opt_status := some true },
    -- 15: a write_resource request whose n, 5, is not the length of its buffer, 2
    { opt_function_name := some "write_resource", str_inputs := ["doc1"],
      buf_inputs := [[104, 105]], int_inputs := [0, 5] },
    -- 16: a reply to it
    { opt_function_name := some "write_resource", opt_status := some false },
    -- 17: a reply to message 8 from a guard that refuses
    { opt_function_name := some "open_resource", opt_status := some false },
    -- 18: a reply to message 15 from a guard that accepts
    { opt_function_name := some "write_resource", opt_status := some true },
    -- 19: an open_resource reply with status true and no descriptor
    { opt_function_name := some "open_resource", opt_status := some true },
    -- 20: an authenticate_me reply with status true and no nonce
    { opt_function_name := some "authenticate_me", opt_status := some true },
    -- 21: a well-formed read_resource request
    { opt_function_name := some "read_resource", str_inputs := ["doc1"],
      int_inputs := [0, 2] },
    -- 22: a read_resource reply with status true and no bytes
    { opt_function_name := some "read_resource", opt_status := some true },
    -- 23: a write_resource request whose n, 2, is the length of its buffer
    { opt_function_name := some "write_resource", str_inputs := ["doc1"],
      buf_inputs := [[104, 105]], int_inputs := [0, 2] } ]

/-- A stand-in for the protobuf library on the sample messages: an envelope is the one
byte holding its position in `sample_messages`, the sample resource is the byte 1 and
the sample principal the byte 2; everything else fails to serialize or to parse. -/
def sample_codec : codec where
  serialize_call m :=
    if sample_messages.indexOf m < sample_messages.length then
      some [UInt8.ofNat (sample_messages.indexOf m)]
    else none
  parse_call b :=
    match b with
    | [i] => sample_messages[i.toNat]?
    | _ => none
  serialize_resource rm := if rm = sample_resource then some [1] else none
  parse_resource b := if b = [1] then some sample_resource else none
  serialize_principal pm := if pm = sample_principal then some [2] else none
  parse_principal b := if b = [2] then some sample_principal else none

/-- A stand-in guard whose state counts the methods invoked on it. It accepts the
principal alice, the access mode read and the resource doc1, and hands out the nonce
9 9 and the descriptor 3. -/
def sample_guard : guard_ops Nat where
  authenticate_me g name _ :=
    if name = "alice" then { ret := true, out := [9, 9], guard := g + 1 }
    else { ret := false, out := [], guard := g + 1 }
  verify_me g name _ := { ret := decide (name = "alice"), guard := g + 1 }
  open_resource g _ mode :=
    if mode = "read" then { ret := true, out := 3, guard := g + 1 }
    else { ret := false, out := -1, guard := g + 1 }
  read_resource g name _ _ :=
    if name = "doc1" then { ret := true, out := [104, 105], guard := g + 1 }
    else { ret := false, out := [], guard := g + 1 }
  write_resource g name _ _ _ := { ret := decide (name = "doc1"), guard := g + 1 }
  close_resource g name _ := { ret := decide (name = "doc1"), guard := g + 1 }
  add_access_rights g name _ _ := { ret := decide (name = "doc1"), guard := g + 1 }
  delete_resource g name _ := { ret := decide (name = "doc1"), guard := g + 1 }
  create_resource g rm := { ret := decide (rm = sample_resource), guard := g + 1 }
  add_principal g pm := { ret := decide (pm = sample_principal), guard := g + 1 }
  delete_principal g name := { ret := decide (name = "alice"), guard := g + 1 }

/-- An initialized server whose transport holds the one framed message `m` and whose
guard has not been called. -/
def sample_server (m : Bytes) : acl_server_dispatch queue_channel Nat :=
  { initialized_ := true, channel_descriptor_ := { incoming := [m], outgoing := [] },
    guard_ := 0 }

/-! ## The reply outputs of the specification -/

/-- The column "Reply outputs (on status=true)" of the layout table (section 6), for
a reply `m` to a request with tag `tag` served by the guard calls `calls` on the guard
state `g`: a reply with status false carries no outputs; a reply with status true
carries the nonce, the descriptor or the bytes the guard returned for
`authenticate_me`, `open_resource` and `read_resource`, and no outputs for any other
tag. -/
def reply_outputs_by_layout (G : guard_ops γ) (g : γ) (tag : String)
    (calls : List guard_call) (m : rpc_call) : Prop :=
  (m.status = false → m.str_outputs = [] ∧ m.buf_outputs = [] ∧ m.int_outputs = []) ∧
  (m.status = true →
    (tag = authenticate_me_tag → ∃ name creds,
      calls = [guard_call.authenticate_me name creds] ∧ m.str_outputs = [] ∧
      m.buf_outputs = [(G.authenticate_me g name creds).out] ∧ m.int_outputs = []) ∧
    (tag = open_resource_tag → ∃ name mode,
      calls = [guard_call.open_resource name mode] ∧ m.str_outputs = [] ∧
      m.buf_outputs = [] ∧ m.int_outputs = [(G.open_resource g name mode).out]) ∧
    (tag = read_resource_tag → ∃ name d n,
      calls = [guard_call.read_resource name d n] ∧ m.str_outputs = [] ∧
      m.buf_outputs = [(G.read_resource g name d n).out] ∧ m.int_outputs = []) ∧
    (tag ≠ authenticate_me_tag → tag ≠ open_resource_tag → tag ≠ read_resource_tag →
      m.str_outputs = [] ∧ m.buf_outputs = [] ∧ m.int_outputs = []))

/-- The guard invocation `c` is the one the layout table (section 6) prescribes for the
request `input`: the method named by the tag, with the inputs at the listed positions
as its arguments in the order of the declaration in acl.h; for `create_resource` and
`add_principal` the argument is the message parsed from the first buffer. -/
def call_follows_layout (P : codec) (input : rpc_call) : guard_call → Prop
  | .authenticate_me name creds =>
    input.function_name = authenticate_me_tag ∧
    input.str_inputs[0]? = some name ∧ input.buf_inputs[0]? = some creds
  | .verify_me name signed_nonce =>
    input.function_name = verify_me_tag ∧
    input.str_inputs[0]? = some name ∧ input.buf_inputs[0]? = some signed_nonce
  | .open_resource name mode =>
    input.function_name = open_resource_tag ∧
    input.str_inputs[0]? = some name ∧ input.str_inputs[1]? = some mode
  | .read_resource name d n =>
    input.function_name = read_resource_tag ∧
    input.str_inputs[0]? = some name ∧ input.int_inputs[0]? = some d ∧
    input.int_inputs[1]? = some n
  | .write_resource name d n inp =>
    input.function_name = write_resource_tag ∧
    input.str_inputs[0]? = some name ∧ input.int_inputs[0]? = some d ∧
    input.int_inputs[1]? = some n ∧ input.buf_inputs[0]? = some inp
  | .close_resource name d =>
    input.function_name = close_resource_tag ∧
    input.str_inputs[0]? = some name ∧ input.int_inputs[0]? = some d
  | .add_access_rights name right new_prin =>
    input.function_name = add_access_right_tag ∧
    input.str_inputs[0]? = some name ∧ input.str_inputs[1]? = some right ∧
    input.str_inputs[2]? = some new_prin
  | .delete_resource name type =>
    input.function_name = delete_resource_tag ∧
    input.str_inputs[0]? = some name ∧ input.str_inputs[1]? = some type
  | .create_resource rm =>
    input.function_name = create_resource_tag ∧
    ∃ b0, input.buf_inputs[0]? = some b0 ∧ P.parse_resource b0 = some rm
  | .add_principal pm =>
    input.function_name = add_principal_tag ∧
    ∃ b0, input.buf_inputs[0]? = some b0 ∧ P.parse_principal b0 = some pm
  | .delete_principal name =>
    input.function_name = delete_principal_tag ∧ input.str_inputs[0]? = some name

/-- The joint postcondition of the eleven branches of `service_request` and of its
last `else`, for the request `input` served on the guard state `g` with result `r`.
* The call returns true and makes at most one `channel_write`.
* Either no guard method ran and the guard is untouched, or exactly one ran, it is the
  one of the layout table, and its boolean is the status of the reply.
* A reply is written only for a request with the required inputs; what is written is
  the serialization of the reply; the reply carries the request's tag, has status false
  when no guard method ran, and has the outputs of the layout table.
* For a request with the required inputs, no guard method ran exactly when the embedded
  message did not parse, and a reply is written whenever serialization succeeds.
* For any other request nothing is invoked and nothing is written. -/
def branch_post (P : codec) (G : guard_ops γ) (g : γ) (input : rpc_call)
    (r : service_result χ γ) : Prop :=
  r.ret = true ∧ r.writes.length ≤ 1 ∧
  ((r.calls = [] ∧ r.guard = g) ∨
    ∃ c, r.calls = [c] ∧ call_follows_layout P input c ∧ r.guard = G.state_after g c ∧
      ∀ w ∈ r.writes, w.message.status = G.returns g c) ∧
  (∀ w ∈ r.writes,
    has_required_inputs input ∧ P.serialize_call w.message = some w.buf ∧
    w.message.opt_function_name = some input.function_name ∧
    (r.calls = [] → w.message.status = false) ∧
    reply_outputs_by_layout G g input.function_name r.calls w.message) ∧
  (has_required_inputs input →
    (r.calls = [] ↔ embedded_message_unparsable P input) ∧
    ((∀ m, (P.serialize_call m).isSome = true) → r.writes.length = 1)) ∧
  (¬ has_required_inputs input → r.calls = [] ∧ r.writes = [])

/-! ## Vocabulary for the client methods -/

/-- The `channel_write` calls `writes` of a client method show the request envelope
`E` and nothing else: every call carries `E` and its serialization, there is at most
one call, and there is one whenever `E` serializes. -/
def sends_request (P : codec) (E : rpc_call) (writes : List channel_write_record) : Prop :=
  (∀ wr ∈ writes, wr.message = E ∧ P.serialize_call E = some wr.buf) ∧
  writes.length ≤ 1 ∧
  ((P.serialize_call E).isSome = true → writes.length = 1)

/-- The client method with result `r`, which sent the tag `tag`, returns false for
every reply it read whose `function_name` differs from `tag`, whatever else the reply
holds. -/
def rejects_other_tags {ω α : Type} (P : codec) (tag : String) (r : rpc_return ω α) : Prop :=
  ∀ rd ∈ r.reads, ∀ reply, P.parse_call rd.out = some reply →
    reply.function_name ≠ tag → r.ret = some false

/-- What the lines after the exchange establish in every client method that sent the
tag `tag`, for the exchange `x` and the method's result `r`: the channel calls and the
transport are those of the exchange; the method returns false when no reply was
parsed, when the reply's `function_name` is not `tag`, and when the reply's status is
false; and it returns true only for a parsed reply with the tag and status true. -/
def client_post {ω α : Type} (tag : String) (x : exchange_result ω) (r : rpc_return ω α) :
    Prop :=
  r.writes = x.writes ∧ r.reads = x.reads ∧ r.world = x.world ∧
  (x.output_call_struct = none → r.ret = some false) ∧
  (∀ o, x.output_call_struct = some o → o.function_name ≠ tag → r.ret = some false) ∧
  (∀ o, x.output_call_struct = some o → o.status = false → r.ret = some false) ∧
  (r.ret = some true →
    ∃ o, x.output_call_struct = some o ∧ o.function_name = tag ∧ o.status = true)

/-- A client whose transport holds the one framed reply `m`, as if the server had
already answered. -/
def sample_client (m : Bytes) : queue_channel :=
  { incoming := [m], outgoing := [] }

/-! ## Vocabulary for the failures of a client method -/

/-- The client method with result `r` returns false whenever its `channel_write`
failed, its `channel_read` failed, the reply it read does not parse, or the reply's
status is false; and it returns true only after one successful write, one successful
read, and a reply that parses and has status true. -/
def fails_on_errors {ω α : Type} (P : codec) (r : rpc_return ω α) : Prop :=
  (∀ wr ∈ r.writes, wr.bytes_written < 0 → r.ret = some false) ∧
  (∀ rd ∈ r.reads, rd.bytes_read < 0 → r.ret = some false) ∧
  (∀ rd ∈ r.reads, P.parse_call rd.out = none → r.ret = some false) ∧
  (∀ rd ∈ r.reads, ∀ reply, P.parse_call rd.out = some reply → reply.status = false →
    r.ret = some false) ∧
  (r.ret = some true →
    ∃ wr rd reply, r.writes = [wr] ∧ 0 ≤ wr.bytes_written ∧ r.reads = [rd] ∧
      0 ≤ rd.bytes_read ∧ P.parse_call rd.out = some reply ∧ reply.status = true)

/-- None of the `channel_write` calls `writes` carries an envelope with the tag `tag`. -/
def never_sends (tag : String) (writes : List channel_write_record) : Prop :=
  ∀ wr ∈ writes, wr.message.function_name ≠ tag

/-! ## The tables and the session state (`acl.h` lines 95-238) -/

/-- A C array `T a[n]`: `n` cells. -/
structure c_array (α : Type) (n : Nat) where
  cells : List α
  size_eq : cells.length = n

namespace c_array

/-- The array whose `n` cells all hold `v`. -/
def fill {α : Type} (n : Nat) (v : α) : c_array α n :=
  { cells := List.replicate n v, size_eq := List.length_replicate n v }

/-- The cell `a[i]`; `none` for an index outside the array. -/
def read {α : Type} {n : Nat} (a : c_array α n) (i : Int) : Option α :=
  if 0 ≤ i then a.cells[i.toNat]? else none

/-- The assignment `a[i] = v`; an index outside the array leaves it as it is. -/
def write {α : Type} {n : Nat} (a : c_array α n) (i : Int) (v : α) : c_array α n :=
  if 0 ≤ i then
    { cells := a.cells.set i.toNat v, size_eq := by rw [List.length_set]; exact a.size_eq }
  else a

end c_array

/-- The constant `max_principal_table_capacity`, acl.h line 95. -/
def max_principal_table_capacity : Nat := 250

/-- The constant `max_resource_table_capacity`, acl.h line 124. -/
def max_resource_table_capacity : Nat := 250

/-- The constant `max_local_descriptors`, acl.h line 162. -/
def max_local_descriptors : Nat := 50

/-- The enumerator `INVALID = 0` of the three table classes. -/
def INVALID : Int := 0

/-- The enumerator `VALID = 1` of the three table classes. -/
def VALID : Int := 1

/-- The data members of the class `acl_principal_table`, acl.h lines 96-108 (the mutex
is left out). -/
structure acl_principal_table where
  capacity_ : Int
  num_ : Int
  principal_status_ : c_array Int max_principal_table_capacity
  principals_ : c_array principal_message max_principal_table_capacity
  num_managers_ : Int
  managers_ : c_array String max_principal_table_capacity

/-- The data members of the class `acl_resource_table`, acl.h lines 125-135 (the mutex
is left out). -/
structure acl_resource_table where
  capacity_ : Int
  num_ : Int
  resource_status_ : c_array Int max_resource_table_capacity
  resources_ : c_array resource_message max_resource_table_capacity

/-- The class `acl_resource_data_element`, acl.h lines 151-160. -/
structure acl_resource_data_element where
  resource_name_ : String
  status_ : Int
  global_descriptor_ : Int

/-- The data members of the class `acl_local_descriptor_table`, acl.h lines 163-168. -/
structure acl_local_descriptor_table where
  num_ : Int
  capacity_ : Int
  descriptor_entry_ : c_array acl_resource_data_element max_local_descriptors

/-- The data members of the class `channel_guard`, acl.h lines 186-194; `root_cert_`,
a pointer to a parsed certificate, is the certificate's bytes or nothing. -/
structure channel_guard where
  initialized_ : Bool
  principal_name_ : String
  authentication_algorithm_name_ : String
  creds_ : Bytes
  channel_principal_authenticated_ : Bool
  descriptor_table_ : acl_local_descriptor_table
  nonce_ : Bytes
  root_cert_ : Option Bytes

/-- What a method of `channel_guard` can read and change: the guard itself, the two
process-wide tables `g_principal_table` and `g_resource_table` (acl.h lines 178-179),
and the world `outside` the core (random source, clock, backing storage). -/
structure acl_session (σ : Type) where
  guard_ : channel_guard
  g_principal_table : acl_principal_table
  g_resource_table : acl_resource_table
  outside : σ

/-! ## The table operations, from the specification -/

/-- Modelled from the spec: `acl_principal_table::find_principal_in_table` of acl.cc,
which is not among the sources (section 4.1: "find(name) gives index or -1", a linear
scan over the valid slots below `num`). -/
def acl_principal_table.find_principal_in_table (t : acl_principal_table) (name : String) :
    Int :=
  match (List.range t.num_.toNat).find? (fun i =>
      t.principal_status_.read i == some VALID &&
      (t.principals_.read i).map (fun p => p.name) == some name) with
  | some i => i
  | none => -1

/-- Modelled from the spec: membership of a name in the manager subset stored alongside
the principal table (section 3, "Manager flag"); acl.cc is not among the sources. -/
def acl_principal_table.is_manager (t : acl_principal_table) (name : String) : Bool :=
  (List.range t.num_managers_.toNat).any (fun i => t.managers_.read i == some name)

/-- Modelled from the spec: `acl_principal_table::add_principal_to_table` of acl.cc, which
is not among the sources (sections 3 and 4.1: fails on a duplicate or a full table;
takes the first `INVALID` slot, or extends `num` when below capacity). `none` is the
call returning false, the table unchanged. -/
def acl_principal_table.add_principal_to_table (t : acl_principal_table)
    (name alg : String) (credential : Bytes) : Option acl_principal_table :=
  let pm : principal_message :=
    { name := name, authentication_algorithm := alg, credential := credential }
  if 0 ≤ t.find_principal_in_table name then none
  else
    match (List.range t.num_.toNat).find? (fun i =>
        t.principal_status_.read i == some INVALID) with
    | some i =>
      some { t with principal_status_ := t.principal_status_.write i VALID,
                    principals_ := t.principals_.write i pm }
    | none =>
      if t.num_ < t.capacity_ then
        some { t with principal_status_ := t.principal_status_.write t.num_ VALID,
                      principals_ := t.principals_.write t.num_ pm,
                      num_ := t.num_ + 1 }
      else none

/-- Modelled from the spec: `acl_principal_table::delete_principal_from_table` of acl.cc,
which is not among the sources (sections 3 and 4.1: fails if absent; marks the slot
`INVALID` without compaction). `none` is the call returning false. -/
def acl_principal_table.delete_principal_from_table (t : acl_principal_table)
    (name : String) : Option acl_principal_table :=
  if t.find_principal_in_table name < 0 then none
  else
    some { t with principal_status_ :=
      t.principal_status_.write (t.find_principal_in_table name) INVALID }

/-- Modelled from the spec: `acl_resource_table::find_resource_in_table` of acl.cc, which
is not among the sources (section 4.1: the resource table mirrors the principal table,
keyed by `resource_identifier`). -/
def acl_resource_table.find_resource_in_table (t : acl_resource_table) (name : String) :
    Int :=
  match (List.range t.num_.toNat).find? (fun i =>
      t.resource_status_.read i == some VALID &&
      (t.resources_.read i).map (fun r => r.resource_identifier) == some name) with
  | some i => i
  | none => -1

/-- Modelled from the spec: `acl_resource_table::add_resource_to_table(rm)` of acl.cc,
which is not among the sources (sections 3 and 4.1, as for principals). `none` is the
call returning false, the table unchanged. -/
def acl_resource_table.add_resource_to_table (t : acl_resource_table)
    (rm : resource_message) : Option acl_resource_table :=
  if 0 ≤ t.find_resource_in_table rm.resource_identifier then none
  else
    match (List.range t.num_.toNat).find? (fun i =>
        t.resource_status_.read i == some INVALID) with
    | some i =>
      some { t with resource_status_ := t.resource_status_.write i VALID,
                    resources_ := t.resources_.write i rm }
    | none =>
      if t.num_ < t.capacity_ then
        some { t with resource_status_ := t.resource_status_.write t.num_ VALID,
                      resources_ := t.resources_.write t.num_ rm,
                      num_ := t.num_ + 1 }
      else none

/-- Modelled from the spec: `acl_resource_table::delete_resource_from_table` of acl.cc,
which is not among the sources (sections 3 and 4.1: fails if absent; marks the slot
`INVALID`). `none` is the call returning false. -/
def acl_resource_table.delete_resource_from_table (t : acl_resource_table)
    (name _type : String) : Option acl_resource_table :=
  if t.find_resource_in_table name < 0 then none
  else
    some { t with resource_status_ :=
      t.resource_status_.write (t.find_resource_in_table name) INVALID }

/-- The position of `name` in `names`, or -1: the shape of the four `on_*_list`
functions declared at acl.h lines 73-76. -/
def index_or_minus_one (names : List String) (name : String) : Int :=
  if names.indexOf name < names.length then names.indexOf name else -1

/-- Modelled from the spec: `on_reader_list` (declared at acl.h line 73, defined in
acl.cc, which is not among the sources; section 4.1: "index-or-minus-one"). -/
def on_reader_list (r : resource_message) (name : String) : Int :=
  index_or_minus_one r.readers name

/-- Modelled from the spec: `on_writer_list` (acl.h line 74; section 4.1). -/
def on_writer_list (r : resource_message) (name : String) : Int :=
  index_or_minus_one r.writers name

/-- Modelled from the spec: `on_deleter_list` (acl.h line 75; section 4.1). -/
def on_deleter_list (r : resource_message) (name : String) : Int :=
  index_or_minus_one r.deleters name

/-- Modelled from the spec: `on_owner_list` (acl.h line 76; section 4.1). -/
def on_owner_list (r : resource_message) (name : String) : Int :=
  index_or_minus_one r.owners name

/-- Modelled from the spec: `add_reader_to_resource` (acl.h line 81; section 4.1: adding
a name already present is a success no-op). -/
def add_reader_to_resource (name : String) (r : resource_message) : resource_message :=
  if 0 ≤ on_reader_list r name then r else { r with readers := r.readers ++ [name] }

/-- Modelled from the spec: `add_writer_to_resource` (acl.h line 82; section 4.1). -/
def add_writer_to_resource (name : String) (r : resource_message) : resource_message :=
  if 0 ≤ on_writer_list r name then r else { r with writers := r.writers ++ [name] }

/-- Modelled from the spec: `add_deleter_to_resource` (acl.h line 83; section 4.1). -/
def add_deleter_to_resource (name : String) (r : resource_message) : resource_message :=
  if 0 ≤ on_deleter_list r name then r else { r with deleters := r.deleters ++ [name] }

/-- Modelled from the spec: `add_owner_to_resource` (acl.h line 84; section 4.1). -/
def add_owner_to_resource (name : String) (r : resource_message) : resource_message :=
  if 0 ≤ on_owner_list r name then r else { r with owners := r.owners ++ [name] }

/-- Modelled from the spec: `acl_local_descriptor_table::find_available_descriptor` of
acl.cc, which is not among the sources (section 4.4, `open_resource`: a free slot of the
session descriptor table, or failure when the table is full); -1 is the failure. -/
def acl_local_descriptor_table.find_available_descriptor (t : acl_local_descriptor_table) :
    Int :=
  match (List.range max_local_descriptors).find? (fun i =>
      (t.descriptor_entry_.read i).map (fun e => e.status_) == some INVALID) with
  | some i => i
  | none => -1

/-! ## The channel guard, from the specification -/

/-- The collaborators the specification puts out of scope (sections 1 and 4.3), as
functions of the world `σ` outside the core: the random source behind
`generate_nonce`, `verify_signed_nonce(alg, credential, nonce, signature)`, the
byte I/O of the storage adapter at a resource's location, and the clock. -/
structure guard_env (σ : Type) where
  generate_nonce : σ → Bytes × σ
  verify_signed_nonce : String → Bytes → Bytes → Bytes → Bool
  storage_read : σ → String → Int → Option (Bytes × σ)
  storage_write : σ → String → Int → Bytes → Option σ
  time_now : σ → String

namespace channel_guard

variable {σ : Type}

/-- Modelled from the spec: `channel_guard::can_read` of acl.cc, which is not among the
sources (section 4.4: the session principal is on the readers or on the owners of the
resource entry). -/
def can_read (S : acl_session σ) (resource_entry : Int) : Bool :=
  match S.g_resource_table.resources_.read resource_entry with
  | none => false
  | some r =>
    decide (0 ≤ on_reader_list r S.guard_.principal_name_) ||
    decide (0 ≤ on_owner_list r S.guard_.principal_name_)

/-- Modelled from the spec: `channel_guard::can_write` of acl.cc, which is not among the
sources (section 4.4: on the writers or on the owners). -/
def can_write (S : acl_session σ) (resource_entry : Int) : Bool :=
  match S.g_resource_table.resources_.read resource_entry with
  | none => false
  | some r =>
    decide (0 ≤ on_writer_list r S.guard_.principal_name_) ||
    decide (0 ≤ on_owner_list r S.guard_.principal_name_)

/-- Modelled from the spec: `channel_guard::can_delete` of acl.cc, which is not among
the sources (section 4.4: on the deleters or on the owners). -/
def can_delete (S : acl_session σ) (resource_entry : Int) : Bool :=
  match S.g_resource_table.resources_.read resource_entry with
  | none => false
  | some r =>
    decide (0 ≤ on_deleter_list r S.guard_.principal_name_) ||
    decide (0 ≤ on_owner_list r S.guard_.principal_name_)

/-- Modelled from the spec: `channel_guard::is_owner` of acl.cc, which is not among the
sources (section 4.4: on the owners). -/
def is_owner (S : acl_session σ) (resource_entry : Int) : Bool :=
  match S.g_resource_table.resources_.read resource_entry with
  | none => false
  | some r => decide (0 ≤ on_owner_list r S.guard_.principal_name_)

/-- Modelled from the spec: `channel_guard::access_check` of acl.cc, which is not among
the sources (section 4.4: dispatches to the four predicates by the action strings
read, write, delete and own); any other action is refused. -/
def access_check (S : acl_session σ) (resource_entry : Int) (action : String) : Bool :=
  if action = "read" then can_read S resource_entry
  else if action = "write" then can_write S resource_entry
  else if action = "delete" then can_delete S resource_entry
  else if action = "own" then is_owner S resource_entry
  else false

/-- Modelled from the spec: `channel_guard::authenticate_me` of acl.cc, which is not
among the sources (section 4.4, step 1): look the claimed name up; fail when it is
absent or the supplied credentials differ from the stored ones; otherwise store a fresh
nonce and the claimed name, leave the session unauthenticated, and return the nonce. -/
def authenticate_me (K : guard_env σ) (S : acl_session σ) (name : String)
    (serialized_credentials : Bytes) : guard_output (acl_session σ) Bytes :=
  match S.g_principal_table.principals_.read
      (S.g_principal_table.find_principal_in_table name) with
  | none => { ret := false, out := [], guard := S }
  | some p =>
    if p.credential ≠ serialized_credentials then { ret := false, out := [], guard := S }
    else
      let fresh := K.generate_nonce S.outside
      { ret := true, out := fresh.1,
        guard :=
          { S with
            outside := fresh.2,
            guard_ := { S.guard_ with
              nonce_ := fresh.1, principal_name_ := name,
              channel_principal_authenticated_ := false } } }

/-- The session with its nonce cleared. -/
def clear_nonce (S : acl_session σ) : acl_session σ :=
  { S with guard_ := { S.guard_ with nonce_ := [] } }

/-- Modelled from the spec: `channel_guard::verify_me` of acl.cc, which is not among the
sources (section 4.4, step 2): fail without an outstanding nonce (nonces are
single-use); the claimed name must be the one of step 1; the signed nonce is verified
against the session nonce under the stored credential and algorithm; on success the
identity is set and the session authenticated; the nonce is cleared either way. -/
def verify_me (K : guard_env σ) (S : acl_session σ) (name : String) (signed_nonce : Bytes) :
    guard_status (acl_session σ) :=
  if S.guard_.nonce_ = [] then { ret := false, guard := S }
  else if name ≠ S.guard_.principal_name_ then { ret := false, guard := clear_nonce S }
  else
    match S.g_principal_table.principals_.read
        (S.g_principal_table.find_principal_in_table name) with
    | none => { ret := false, guard := clear_nonce S }
    | some p =>
      if K.verify_signed_nonce p.authentication_algorithm p.credential S.guard_.nonce_
          signed_nonce = true then
        { ret := true,
          guard :=
            { S with guard_ := { S.guard_ with
                principal_name_ := name,
                authentication_algorithm_name_ := p.authentication_algorithm,
                creds_ := p.credential,
                channel_principal_authenticated_ := true,
                nonce_ := [] } } }
      else { ret := false, guard := clear_nonce S }

/-- Modelled from the spec: `channel_guard::open_resource` of acl.cc, which is not among
the sources (section 4.4): authenticated session; the resource exists; the access check
for the mode passes; a free descriptor slot takes the name and the resource index and
is returned. On failure the descriptor stays -1. -/
def open_resource (S : acl_session σ) (resource_name access_mode : String) :
    guard_output (acl_session σ) Int :=
  if S.guard_.channel_principal_authenticated_ = false then
    { ret := false, out := -1, guard := S }
  else if S.g_resource_table.find_resource_in_table resource_name < 0 then
    { ret := false, out := -1, guard := S }
  else if access_check S (S.g_resource_table.find_resource_in_table resource_name)
      access_mode = false then
    { ret := false, out := -1, guard := S }
  else if S.guard_.descriptor_table_.find_available_descriptor < 0 then
    { ret := false, out := -1, guard := S }
  else
    let d := S.guard_.descriptor_table_.find_available_descriptor
    let entry : acl_resource_data_element :=
      { resource_name_ := resource_name, status_ := VALID,
        global_descriptor_ := S.g_resource_table.find_resource_in_table resource_name }
    { ret := true, out := d,
      guard :=
        { S with guard_ := { S.guard_ with
            descriptor_table_ := { S.guard_.descriptor_table_ with
              descriptor_entry_ :=
                S.guard_.descriptor_table_.descriptor_entry_.write d entry } } } }

/-- Modelled from the spec: the validation of a local descriptor shared by
`read_resource`, `write_resource` and `close_resource` (section 4.4): the descriptor
is in range, its status is `VALID` and its stored name is the supplied one. -/
def valid_descriptor (S : acl_session σ) (resource_name : String) (local_descriptor : Int) :
    Option acl_resource_data_element :=
  match S.guard_.descriptor_table_.descriptor_entry_.read local_descriptor with
  | none => none
  | some e => if e.status_ = VALID ∧ e.resource_name_ = resource_name then some e else none

/-- Modelled from the spec: `channel_guard::read_resource` of acl.cc, which is not among
the sources (section 4.4): authenticated session; valid descriptor; `can_read` checked
again; the storage adapter reads `n` bytes at the resource's location. -/
def read_resource (K : guard_env σ) (S : acl_session σ) (resource_name : String)
    (local_descriptor n : Int) : guard_output (acl_session σ) Bytes :=
  if S.guard_.channel_principal_authenticated_ = false then
    { ret := false, out := [], guard := S }
  else
    match valid_descriptor S resource_name local_descriptor with
    | none => { ret := false, out := [], guard := S }
    | some e =>
      if can_read S e.global_descriptor_ = false then { ret := false, out := [], guard := S }
      else
        match S.g_resource_table.resources_.read e.global_descriptor_ with
        | none => { ret := false, out := [], guard := S }
        | some r =>
          match K.storage_read S.outside r.resource_location n with
          | none => { ret := false, out := [], guard := S }
          | some got => { ret := true, out := got.1, guard := { S with outside := got.2 } }

/-- Modelled from the spec: `channel_guard::write_resource` of acl.cc, which is not
among the sources (section 4.4 and the open question of section 9): authenticated
session; valid descriptor; `can_write` checked again; failure when `n` is not the
length of the buffer; the storage adapter writes at the resource's location, and on
success `time_last_written` is updated. -/
def write_resource (K : guard_env σ) (S : acl_session σ) (resource_name : String)
    (local_descriptor n : Int) (inp : Bytes) : guard_status (acl_session σ) :=
  if S.guard_.channel_principal_authenticated_ = false then { ret := false, guard := S }
  else
    match valid_descriptor S resource_name local_descriptor with
    | none => { ret := false, guard := S }
    | some e =>
      if can_write S e.global_descriptor_ = false then { ret := false, guard := S }
      else if n ≠ inp.length then { ret := false, guard := S }
      else
        match S.g_resource_table.resources_.read e.global_descriptor_ with
        | none => { ret := false, guard := S }
        | some r =>
          match K.storage_write S.outside r.resource_location n inp with
          | none => { ret := false, guard := S }
          | some outside =>
            { ret := true,
              guard :=
                { S with
                  outside := outside,
                  g_resource_table := { S.g_resource_table with
                    resources_ := S.g_resource_table.resources_.write e.global_descriptor_
                      { r with time_last_written := K.time_now outside } } } }

/-- Modelled from the spec: `channel_guard::close_resource` of acl.cc, which is not
among the sources (section 4.4): authenticated session; the descriptor is validated and
marked `INVALID`; closing an invalid descriptor fails. -/
def close_resource (S : acl_session σ) (resource_name : String) (local_descriptor : Int) :
    guard_status (acl_session σ) :=
  if S.guard_.channel_principal_authenticated_ = false then { ret := false, guard := S }
  else
    match valid_descriptor S resource_name local_descriptor with
    | none => { ret := false, guard := S }
    | some e =>
      { ret := true,
        guard :=
          { S with guard_ := { S.guard_ with
              descriptor_table_ := { S.guard_.descriptor_table_ with
                descriptor_entry_ :=
                  S.guard_.descriptor_table_.descriptor_entry_.write local_descriptor
                    { e with status_ := INVALID } } } } }

/-- Modelled from the spec: `channel_guard::add_access_rights` of acl.cc, which is not
among the sources (section 4.4): authenticated session; the session principal owns the
resource or is a manager; the new principal is appended to the list selected by the
right, one of reader, writer, deleter and owner. -/
def add_access_rights (S : acl_session σ) (resource_name right new_prin : String) :
    guard_status (acl_session σ) :=
  if S.guard_.channel_principal_authenticated_ = false then { ret := false, guard := S }
  else
    let i := S.g_resource_table.find_resource_in_table resource_name
    match S.g_resource_table.resources_.read i with
    | none => { ret := false, guard := S }
    | some r =>
      if (is_owner S i || S.g_principal_table.is_manager S.guard_.principal_name_) = false then
        { ret := false, guard := S }
      else
        let updated : Option resource_message :=
          if right = "reader" then some (add_reader_to_resource new_prin r)
          else if right = "writer" then some (add_writer_to_resource new_prin r)
          else if right = "deleter" then some (add_deleter_to_resource new_prin r)
          else if right = "owner" then some (add_owner_to_resource new_prin r)
          else none
        match updated with
        | none => { ret := false, guard := S }
        | some r2 =>
          { ret := true,
            guard := { S with g_resource_table := { S.g_resource_table with
              resources_ := S.g_resource_table.resources_.write i r2 } } }

/-- Modelled from the spec: `channel_guard::delete_resource` of acl.cc, which is not
among the sources (section 4.4): authenticated session; the session principal is on the
deleters, an owner or a manager; the resource is removed from the table. -/
def delete_resource (S : acl_session σ) (resource_name type : String) :
    guard_status (acl_session σ) :=
  if S.guard_.channel_principal_authenticated_ = false then { ret := false, guard := S }
  else
    let i := S.g_resource_table.find_resource_in_table resource_name
    if i < 0 then { ret := false, guard := S }
    else if (can_delete S i || S.g_principal_table.is_manager S.guard_.principal_name_) = false
    then { ret := false, guard := S }
    else
      match S.g_resource_table.delete_resource_from_table resource_name type with
      | none => { ret := false, guard := S }
      | some t => { ret := true, guard := { S with g_resource_table := t } }

/-- Modelled from the spec: `channel_guard::create_resource` of acl.cc, which is not
among the sources (section 4.4): authenticated session and a manager; the message has
an identifier, at least one owner and an identifier not yet present; it is inserted. -/
def create_resource (S : acl_session σ) (rm : resource_message) :
    guard_status (acl_session σ) :=
  if S.guard_.channel_principal_authenticated_ = false then { ret := false, guard := S }
  else if S.g_principal_table.is_manager S.guard_.principal_name_ = false then
    { ret := false, guard := S }
  else if rm.resource_identifier = "" ∨ rm.owners = [] then { ret := false, guard := S }
  else
    match S.g_resource_table.add_resource_to_table rm with
    | none => { ret := false, guard := S }
    | some t => { ret := true, guard := { S with g_resource_table := t } }

/-- Modelled from the spec: `channel_guard::add_principal` of acl.cc, which is not among
the sources (section 4.4): authenticated session and a manager; fails on a duplicate or
a full table. -/
def add_principal (S : acl_session σ) (pm : principal_message) :
    guard_status (acl_session σ) :=
  if S.guard_.channel_principal_authenticated_ = false then { ret := false, guard := S }
  else if S.g_principal_table.is_manager S.guard_.principal_name_ = false then
    { ret := false, guard := S }
  else
    match S.g_principal_table.add_principal_to_table pm.name pm.authentication_algorithm
        pm.credential with
    | none => { ret := false, guard := S }
    | some t => { ret := true, guard := { S with g_principal_table := t } }

/-- Modelled from the spec: `channel_guard::delete_principal` of acl.cc, which is not
among the sources (section 4.4): authenticated session and a manager; fails when the
principal is absent; access lists are not rewritten. -/
def delete_principal (S : acl_session σ) (name : String) : guard_status (acl_session σ) :=
  if S.guard_.channel_principal_authenticated_ = false then { ret := false, guard := S }
  else if S.g_principal_table.is_manager S.guard_.principal_name_ = false then
    { ret := false, guard := S }
  else
    match S.g_principal_table.delete_principal_from_table name with
    | none => { ret := false, guard := S }
    | some t => { ret := true, guard := { S with g_principal_table := t } }

end channel_guard

/-- Modelled from the spec: the eleven guard methods `service_request` calls, as the
specification describes them (section 4.4), over the collaborators `K`; acl.cc, which
defines them, is not among the sources. -/
def spec_guard {σ : Type} (K : guard_env σ) : guard_ops (acl_session σ) where
  authenticate_me := channel_guard.authenticate_me K
  verify_me := channel_guard.verify_me K
  open_resource := channel_guard.open_resource
  read_resource := channel_guard.read_resource K
  write_resource := channel_guard.write_resource K
  close_resource := channel_guard.close_resource
  add_access_rights := channel_guard.add_access_rights
  delete_resource := channel_guard.delete_resource
  create_resource := channel_guard.create_resource
  add_principal := channel_guard.add_principal
  delete_principal := channel_guard.delete_principal

/-- No call of the sequence `cs`, made in order from the guard state `g`, is an
`authenticate_me` that returns true. -/
def no_successful_authenticate {γ : Type} (G : guard_ops γ) : γ → List guard_call → Prop
  | _, [] => True
  | g, c :: cs =>
    (∀ name creds, c = guard_call.authenticate_me name creds → G.returns g c = false) ∧
    no_successful_authenticate G (G.state_after g c) cs

/-- The guard state after the calls `cs`, made in order from the state `g`. -/
def guard_ops.run {γ : Type} (G : guard_ops γ) : γ → List guard_call → γ
  | g, [] => g
  | g, c :: cs => G.run (G.state_after g c) cs

/-! ## A small session of the specified guard, to run it on -/

/-- Stand-ins for the collaborators: the nonce is always 9 9, a signature is valid when
it repeats the nonce, the storage holds the bytes 104 105 everywhere and accepts every
write, and the clock shows one fixed time. -/
def sample_env : guard_env Unit where
  generate_nonce u := ([9, 9], u)
  verify_signed_nonce _ _ nonce signature := decide (signature = nonce)
  storage_read u _ _ := some ([104, 105], u)
  storage_write u _ _ _ := some u
  time_now _ := "2026-01-01T00:00:00Z"

/-- A session before authentication: the principals alice (slot 0) and admin (slot 1,
a manager), the resource doc1 of `sample_resource` (slot 0, owner alice, reader bob),
and no open descriptor. -/
def sample_session : acl_session Unit where
  guard_ :=
    { initialized_ := true, principal_name_ := "", authentication_algorithm_name_ := "",
      creds_ := [], channel_principal_authenticated_ := false,
      descriptor_table_ :=
        { num_ := 0, capacity_ := 50,
          descriptor_entry_ :=
            c_array.fill max_local_descriptors
              { resource_name_ := "", status_ := INVALID, global_descriptor_ := 0 } },
      nonce_ := [], root_cert_ := none }
  g_principal_table :=
    { capacity_ := 250, num_ := 2,
      principal_status_ :=
        ((c_array.fill max_principal_table_capacity INVALID).write 0 VALID).write 1 VALID,
      principals_ :=
        ((c_array.fill max_principal_table_capacity ({} : principal_message)).write 0
          sample_principal).write 1
          { name := "admin", authentication_algorithm := "rsa-2048-sha256",
            credential := [81] },
      num_managers_ := 1,
      managers_ := (c_array.fill max_principal_table_capacity "").write 0 "admin" }
  g_resource_table :=
    { capacity_ := 250, num_ := 1,
      resource_status_ := (c_array.fill max_resource_table_capacity INVALID).write 0 VALID,
      resources_ :=
        (c_array.fill max_resource_table_capacity ({} : resource_message)).write 0
          sample_resource }
  outside := ()

/-- The sample session after alice has authenticated and verified. -/
def sample_session_alice : acl_session Unit :=
  (channel_guard.verify_me sample_env
    (channel_guard.authenticate_me sample_env sample_session "alice" [80]).guard
    "alice" [9, 9]).guard

/-- An initialized server of the specified guard whose transport holds the one framed
message `m`. -/
def sample_spec_server (S : acl_session Unit) (m : Bytes) :
    acl_server_dispatch queue_channel (acl_session Unit) :=
  { initialized_ := true, channel_descriptor_ := { incoming := [m], outgoing := [] },
    guard_ := S }

/-! ## The simulated channel (`acl_rpc.cc` lines 28-54, `TEST_SIMULATED_CHANNEL`) -/

/-- The constant `max_size_buf`, line 31. -/
def max_size_buf : Int := 4096

/-- The globals `size_buf` and `simulated_buf` (lines 32-33). `memory_safe` is not a
variable of the program: it records that no `memcpy` or `assign` so far was asked to
copy a negative number of bytes or more bytes than its source holds, which is
undefined in C++; once it is false the other two fields mean nothing. -/
structure simulated_channel where
  size_buf : Int
  simulated_buf : Bytes
  memory_safe : Bool
deriving DecidableEq, Repr

/-- The function `simulated_sized_buf_read`, lines 35-40. -/
def simulated_sized_buf_read (s : simulated_channel) : channel_read_result simulated_channel :=
  { bytes_read := s.size_buf,
    out := s.simulated_buf.take s.size_buf.toNat,
    channel :=
      { size_buf := 0, simulated_buf := s.simulated_buf,
        memory_safe := s.memory_safe && decide (0 ≤ s.size_buf ∧ s.size_buf ≤ max_size_buf) } }

/-- The function `simulated_buf_write`, lines 42-48; `b` is the memory `n` bytes are
copied from. -/
def simulated_buf_write (s : simulated_channel) (n : Int) (b : Bytes) :
    channel_write_result simulated_channel :=
  if n > max_size_buf then { bytes_written := -1, channel := s }
  else
    { bytes_written := n,
      channel :=
        { size_buf := n,
          simulated_buf := b.take n.toNat ++ s.simulated_buf.drop n.toNat,
          memory_safe := s.memory_safe && decide (0 ≤ n ∧ n ≤ b.length) } }

/-- The functions `channel_read` and `channel_write` (lines 56-75) of a build with
`TEST_SIMULATED_CHANNEL`; nothing is modelled of `SSL_shutdown` on the unused
descriptor. -/
def simulated_channel.ops : channel simulated_channel where
  channel_read := simulated_sized_buf_read
  channel_write := simulated_buf_write
  shutdown s := s

/-- The transport as the client of a build with `TEST_SIMULATED_CHANNEL` sees it: the
process holds the global buffer and the global server `g_server` (line 53), here the
server object with the buffer as its transport; the client's reads and writes act on
the buffer. -/
def simulated_client_channel {γ : Type} : channel (acl_server_dispatch simulated_channel γ) where
  channel_read w :=
    { bytes_read := (simulated_sized_buf_read w.channel_descriptor_).bytes_read,
      out := (simulated_sized_buf_read w.channel_descriptor_).out,
      channel :=
        { w with channel_descriptor_ := (simulated_sized_buf_read w.channel_descriptor_).channel } }
  channel_write w n b :=
    { bytes_written := (simulated_buf_write w.channel_descriptor_ n b).bytes_written,
      channel :=
        { w with channel_descriptor_ := (simulated_buf_write w.channel_descriptor_ n b).channel } }
  shutdown w := w

/-- The statement `g_server.service_request();` that the client methods of a build with
`TEST_SIMULATED_CHANNEL` run after their write (for instance lines 125-127); the
returned boolean is dropped. -/
def inline_service_request {γ : Type} (P : codec) (G : guard_ops γ)
    (w : acl_server_dispatch simulated_channel γ) : acl_server_dispatch simulated_channel γ :=
  match service_request P simulated_channel.ops G w with
  | some r => { w with channel_descriptor_ := r.channel, guard_ := r.guard }
  | none => w

/-- The codec carries the envelope `m` without loss within the simulated buffer: `m`
serializes to at most 4096 bytes that parse back to `m`. -/
def transmits (P : codec) (m : rpc_call) : Prop :=
  ∃ enc, P.serialize_call m = some enc ∧ P.parse_call enc = some m ∧ enc.length ≤ 4096

/-- The reply of the layout table (section 6) to a request with tag `tag` whose guard
method returned `ret`: the tag, the status, and on status true the listed outputs. -/
def layout_reply (tag : String) (ret : Bool) (bufs : List Bytes) (ints : List Int) :
    rpc_call :=
  { opt_function_name := some tag, opt_status := some ret,
    buf_outputs := if ret = true then bufs else [],
    int_outputs := if ret = true then ints else [] }

/-- The client method with result `r`, run in the simulated process, returned the
boolean `ret` and left the server's guard in the state `g1`. -/
def agrees_with_guard {γ α : Type}
    (r : rpc_return (acl_server_dispatch simulated_channel γ) α) (ret : Bool) (g1 : γ) : Prop :=
  r.ret = some ret ∧ r.world.guard_ = g1

/-- An initialized simulated process with an empty buffer and the guard state `g`. -/
def sample_simulated_world {γ : Type} (g : γ) : acl_server_dispatch simulated_channel γ :=
  { initialized_ := true,
    channel_descriptor_ :=
      { size_buf := 0, simulated_buf := List.replicate 4096 0, memory_safe := true },
    guard_ := g }

/-! ## Vocabulary for the simulated buffer after a client call -/

/-- The simulated buffer is empty in the process state `w`, unless a copy outside its
domain has happened (`memory_safe` false, behaviour undefined); and it is empty without
that proviso when the codec never produces 2^31 bytes or more, so that no length turns
negative as a 32-bit `n`. -/
def leaves_buffer_empty {γ : Type} (P : codec) (w : acl_server_dispatch simulated_channel γ) :
    Prop :=
  (w.channel_descriptor_.memory_safe = true → w.channel_descriptor_.size_buf = 0) ∧
  ((∀ m enc, P.serialize_call m = some enc → enc.length < 2147483648) →
    w.channel_descriptor_.size_buf = 0)

/-! ## The reply a request is owed -/

/-- The outputs a guard method hands back when invoked as `c` on guard state `g`, as
the buffers and the integers of the column "Reply outputs" of the layout table
(section 6): the nonce of `authenticate_me`, the descriptor of `open_resource`, the
bytes of `read_resource`, and nothing for the other methods. -/
def guard_ops.outputs {γ : Type} (G : guard_ops γ) (g : γ) : guard_call → List Bytes × List Int
  | .authenticate_me a b => ([(G.authenticate_me g a b).out], [])
  | .open_resource a b => ([], [(G.open_resource g a b).out])
  | .read_resource a d n => ([(G.read_resource g a d n).out], [])
  | _ => ([], [])

/-- The reply of the layout table (section 6) to a request with tag `tag` that was
served by the guard calls `calls` on the guard state `g`: after one call, the tag, the
boolean of the call as status and, on status true, its outputs; after no call, the tag
and status false. -/
def reply_of_layout {γ : Type} (G : guard_ops γ) (g : γ) (tag : String)
    (calls : List guard_call) : rpc_call :=
  match calls with
  | [c] => layout_reply tag (G.returns g c) (G.outputs g c).1 (G.outputs g c).2
  | _ => layout_reply tag false [] []

/-- The branch with result `r`, run on the channel `ch` and the guard state `g` for the
request `input`, ends in the shared tail of the branches (serialize the reply, write
it, return true) applied to the reply of the layout table, whenever the request has the
required inputs. -/
def reaches_reply_tail {χ γ : Type} (P : codec) (C : channel χ) (G : guard_ops γ) (ch : χ)
    (g : γ) (input : rpc_call) (r : service_result χ γ) : Prop :=
  has_required_inputs input →
    ∃ g1 calls, r = write_reply P C ch g1 calls (reply_of_layout G g input.function_name calls)

/-! ## Facts about the reply tail -/

section server_lemmas
variable {χ γ : Type}

@[simp] theorem write_reply_ret (P : codec) (C : channel χ) (ch : χ) (g : γ)
    (calls : List guard_call) (out : rpc_call) :
    (write_reply P C ch g calls out).ret = true := by
  unfold write_reply
  cases P.serialize_call out with
  | none => rfl
  | some enc => dsimp only; split_ifs <;> rfl

@[simp] theorem write_reply_calls (P : codec) (C : channel χ) (ch : χ) (g : γ)
    (calls : List guard_call) (out : rpc_call) :
    (write_reply P C ch g calls out).calls = calls := by
  unfold write_reply
  cases P.serialize_call out with
  | none => rfl
  | some enc => dsimp only; split_ifs <;> rfl

@[simp] theorem write_reply_guard (P : codec) (C : channel χ) (ch : χ) (g : γ)
    (calls : List guard_call) (out : rpc_call) :
    (write_reply P C ch g calls out).guard = g := by
  unfold write_reply
  cases P.serialize_call out with
  | none => rfl
  | some enc => dsimp only; split_ifs <;> rfl

theorem write_reply_writes (P : codec) (C : channel χ) (ch : χ) (g : γ)
    (calls : List guard_call) (out : rpc_call) :
    (write_reply P C ch g calls out).writes =
      match P.serialize_call out with
      | none => []
      | some enc =>
        [{ message := out, n := int32_t enc.length, buf := enc,
           bytes_written := (C.channel_write ch (int32_t enc.length) enc).bytes_written }] := by
  unfold write_reply
  cases P.serialize_call out with
  | none => rfl
  | some enc => dsimp only; split_ifs <;> rfl

theorem write_reply_writes_length (P : codec) (C : channel χ) (ch : χ) (g : γ)
    (calls : List guard_call) (out : rpc_call) :
    (write_reply P C ch g calls out).writes.length ≤ 1 := by
  rw [write_reply_writes]
  cases P.serialize_call out <;> simp

theorem mem_write_reply_writes (P : codec) (C : channel χ) (ch : χ) (g : γ)
    (calls : List guard_call) (out : rpc_call) (w : channel_write_record)
    (hw : w ∈ (write_reply P C ch g calls out).writes) : w.message = out := by
  rw [write_reply_writes] at hw
  cases h : P.serialize_call out <;> simp [h] at hw
  rw [hw]

attribute [simp] rpc_call.fresh rpc_call.has_function_name
  rpc_call.status rpc_call.set_function_name rpc_call.set_status rpc_call.add_str_inputs
  rpc_call.add_buf_inputs rpc_call.add_int_inputs rpc_call.add_buf_outputs
  rpc_call.add_int_outputs

attribute [simp] authenticate_me_tag verify_me_tag open_resource_tag close_resource_tag
  read_resource_tag write_resource_tag add_access_right_tag add_principal_tag
  delete_principal_tag create_resource_tag delete_resource_tag

theorem serialized_of_mem_write_reply_writes (P : codec) (C : channel χ) (ch : χ) (g : γ)
    (calls : List guard_call) (out : rpc_call) (w : channel_write_record)
    (hw : w ∈ (write_reply P C ch g calls out).writes) :
    P.serialize_call w.message = some w.buf := by
  rw [write_reply_writes] at hw
  cases h : P.serialize_call out <;> simp [h] at hw
  rw [hw]
  exact h

theorem write_reply_writes_one (P : codec) (C : channel χ) (ch : χ) (g : γ)
    (calls : List guard_call) (out : rpc_call)
    (hser : ∀ m, (P.serialize_call m).isSome = true) :
    (write_reply P C ch g calls out).writes.length = 1 := by
  rw [write_reply_writes]
  have h := hser out
  cases hs : P.serialize_call out <;> simp [hs] at h ⊢

theorem branch_post_write_reply (P : codec) (C : channel χ) (G : guard_ops γ) (ch : χ)
    (g g1 : γ) (input : rpc_call) (calls : List guard_call) (out : rpc_call)
    (hcalls : (calls = [] ∧ g1 = g) ∨
      ∃ c, calls = [c] ∧ call_follows_layout P input c ∧ g1 = G.state_after g c ∧
        out.status = G.returns g c)
    (hreq : has_required_inputs input)
    (hname : out.opt_function_name = some input.function_name)
    (hstat : calls = [] → out.status = false)
    (hout : reply_outputs_by_layout G g input.function_name calls out)
    (hemb : calls = [] ↔ embedded_message_unparsable P input) :
    branch_post P G g input (write_reply P C ch g1 calls out) := by
  refine ⟨by simp, write_reply_writes_length P C ch g1 calls out, ?_, ?_, ?_, ?_⟩
  · rcases hcalls with ⟨h1, h2⟩ | ⟨c, h1, h2, h3, h4⟩
    · left; simp [h1, h2]
    · right
      refine ⟨c, by simp [h1], h2, by simp [h3], ?_⟩
      intro w hw
      rw [mem_write_reply_writes P C ch g1 calls out w hw]
      exact h4
  · intro w hw
    have hser := serialized_of_mem_write_reply_writes P C ch g1 calls out w hw
    rw [mem_write_reply_writes P C ch g1 calls out w hw] at hser ⊢
    simp only [write_reply_calls]
    exact ⟨hreq, hser, hname, hstat, hout⟩
  · intro _
    simp only [write_reply_calls]
    exact ⟨hemb, write_reply_writes_one P C ch g1 calls out⟩
  · intro h
    exact absurd hreq h

theorem branch_post_return_true (P : codec) (G : guard_ops γ) (ch : χ) (g : γ)
    (input : rpc_call) (h : ¬ has_required_inputs input) :
    branch_post P G g input (return_true ch g) := by
  simp [branch_post, return_true, h]

theorem service_authenticate_me_post (P : codec) (C : channel χ) (G : guard_ops γ) (ch : χ)
    (g : γ) (input : rpc_call) (h : input.function_name = authenticate_me_tag) :
    ∃ r, service_authenticate_me P C G ch g input = some r ∧ branch_post P G g input r := by
  unfold service_authenticate_me
  rcases hs : input.str_inputs with _ | ⟨s0, ss⟩ <;>
  rcases hb : input.buf_inputs with _ | ⟨b0, bs⟩ <;>
  simp_arith
  any_goals
    apply branch_post_return_true
    simp_arith [has_required_inputs, layout_arity, h, *]
  apply branch_post_write_reply
  all_goals
  cases hr : (G.authenticate_me g s0 b0).ret <;>
  simp_all [guard_ops.returns, guard_ops.state_after, has_required_inputs, layout_arity,
    reply_outputs_by_layout, call_follows_layout, embedded_message_unparsable] <;>
  exact ⟨_, _, ⟨rfl, rfl⟩, rfl⟩

theorem service_verify_me_post (P : codec) (C : channel χ) (G : guard_ops γ) (ch : χ)
    (g : γ) (input : rpc_call) (h : input.function_name = verify_me_tag) :
    ∃ r, service_verify_me P C G ch g input = some r ∧ branch_post P G g input r := by
  unfold service_verify_me
  rcases hs : input.str_inputs with _ | ⟨s0, ss⟩ <;>
  rcases hb : input.buf_inputs with _ | ⟨b0, bs⟩ <;>
  simp_arith
  any_goals
    apply branch_post_return_true
    simp_arith [has_required_inputs, layout_arity, h, *]
  apply branch_post_write_reply
  all_goals
  cases hr : (G.verify_me g s0 b0).ret <;>
  simp_all [guard_ops.returns, guard_ops.state_after, has_required_inputs, layout_arity,
    reply_outputs_by_layout, call_follows_layout, embedded_message_unparsable]

theorem service_open_resource_post (P : codec) (C : channel χ) (G : guard_ops γ) (ch : χ)
    (g : γ) (input : rpc_call) (h : input.function_name = open_resource_tag) :
    ∃ r, service_open_resource P C G ch g input = some r ∧ branch_post P G g input r := by
  unfold service_open_resource
  rcases hs : input.str_inputs with _ | ⟨s0, _ | ⟨s1, ss⟩⟩ <;>
  simp_arith
  any_goals
    apply branch_post_return_true
    simp_arith [has_required_inputs, layout_arity, h, *]
  apply branch_post_write_reply
  all_goals
  cases hr : (G.open_resource g s0 s1).ret <;>
  simp_all [guard_ops.returns, guard_ops.state_after, has_required_inputs, layout_arity,
    reply_outputs_by_layout, call_follows_layout, embedded_message_unparsable] <;>
  exact ⟨_, _, ⟨rfl, rfl⟩, rfl⟩

theorem service_close_resource_post (P : codec) (C : channel χ) (G : guard_ops γ) (ch : χ)
    (g : γ) (input : rpc_call) (h : input.function_name = close_resource_tag) :
    ∃ r, service_close_resource P C G ch g input = some r ∧ branch_post P G g input r := by
  unfold service_close_resource
  rcases hs : input.str_inputs with _ | ⟨s0, ss⟩ <;>
  rcases hi : input.int_inputs with _ | ⟨i0, is⟩ <;>
  simp_arith
  any_goals
    apply branch_post_return_true
    simp_arith [has_required_inputs, layout_arity, h, *]
  apply branch_post_write_reply
  all_goals
  cases hr : (G.close_resource g s0 i0).ret <;>
  simp_all [guard_ops.returns, guard_ops.state_after, has_required_inputs, layout_arity,
    reply_outputs_by_layout, call_follows_layout, embedded_message_unparsable]

theorem service_read_resource_post (P : codec) (C : channel χ) (G : guard_ops γ) (ch : χ)
    (g : γ) (input : rpc_call) (h : input.function_name = read_resource_tag) :
    ∃ r, service_read_resource P C G ch g input = some r ∧ branch_post P G g input r := by
  unfold service_read_resource
  rcases hs : input.str_inputs with _ | ⟨s0, ss⟩ <;>
  rcases hi : input.int_inputs with _ | ⟨i0, _ | ⟨i1, is⟩⟩ <;>
  simp_arith
  any_goals
    apply branch_post_return_true
    simp_arith [has_required_inputs, layout_arity, h, *]
  apply branch_post_write_reply
  all_goals
  cases hr : (G.read_resource g s0 i0 i1).ret <;>
  simp_all [guard_ops.returns, guard_ops.state_after, has_required_inputs, layout_arity,
    reply_outputs_by_layout, call_follows_layout, embedded_message_unparsable] <;>
  exact ⟨_, _, _, ⟨rfl, rfl, rfl⟩, rfl⟩

theorem service_write_resource_post (P : codec) (C : channel χ) (G : guard_ops γ) (ch : χ)
    (g : γ) (input : rpc_call) (h : input.function_name = write_resource_tag) :
    ∃ r, service_write_resource P C G ch g input = some r ∧ branch_post P G g input r := by
  unfold service_write_resource
  rcases hs : input.str_inputs with _ | ⟨s0, ss⟩ <;>
  rcases hi : input.int_inputs with _ | ⟨i0, _ | ⟨i1, is⟩⟩ <;>
  rcases hb : input.buf_inputs with _ | ⟨b0, bs⟩ <;>
  simp_arith
  any_goals
    apply branch_post_return_true
    simp_arith [has_required_inputs, layout_arity, h, *]
  apply branch_post_write_reply
  all_goals
  cases hr : (G.write_resource g s0 i0 i1 b0).ret <;>
  simp_all [guard_ops.returns, guard_ops.state_after, has_required_inputs, layout_arity,
    reply_outputs_by_layout, call_follows_layout, embedded_message_unparsable]

theorem service_add_access_right_post (P : codec) (C : channel χ) (G : guard_ops γ) (ch : χ)
    (g : γ) (input : rpc_call) (h : input.function_name = add_access_right_tag) :
    ∃ r, service_add_access_right P C G ch g input = some r ∧ branch_post P G g input r := by
  unfold service_add_access_right
  rcases hs : input.str_inputs with _ | ⟨s0, _ | ⟨s1, _ | ⟨s2, ss⟩⟩⟩ <;>
  simp_arith
  any_goals
    apply branch_post_return_true
    simp_arith [has_required_inputs, layout_arity, h, *]
  apply branch_post_write_reply
  all_goals
  cases hr : (G.add_access_rights g s0 s1 s2).ret <;>
  simp_all [guard_ops.returns, guard_ops.state_after, has_required_inputs, layout_arity,
    reply_outputs_by_layout, call_follows_layout, embedded_message_unparsable]

theorem service_delete_resource_post (P : codec) (C : channel χ) (G : guard_ops γ) (ch : χ)
    (g : γ) (input : rpc_call) (h : input.function_name = delete_resource_tag) :
    ∃ r, service_delete_resource P C G ch g input = some r ∧ branch_post P G g input r := by
  unfold service_delete_resource
  rcases hs : input.str_inputs with _ | ⟨s0, _ | ⟨s1, ss⟩⟩ <;>
  simp_arith
  any_goals
    apply branch_post_return_true
    simp_arith [has_required_inputs, layout_arity, h, *]
  apply branch_post_write_reply
  all_goals
  cases hr : (G.delete_resource g s0 s1).ret <;>
  simp_all [guard_ops.returns, guard_ops.state_after, has_required_inputs, layout_arity,
    reply_outputs_by_layout, call_follows_layout, embedded_message_unparsable]

theorem service_delete_principal_post (P : codec) (C : channel χ) (G : guard_ops γ) (ch : χ)
    (g : γ) (input : rpc_call) (h : input.function_name = delete_principal_tag) :
    ∃ r, service_delete_principal P C G ch g input = some r ∧ branch_post P G g input r := by
  unfold service_delete_principal
  rcases hs : input.str_inputs with _ | ⟨s0, ss⟩ <;>
  simp_arith
  any_goals
    apply branch_post_return_true
    simp_arith [has_required_inputs, layout_arity, h, *]
  apply branch_post_write_reply
  all_goals
  cases hr : (G.delete_principal g s0).ret <;>
  simp_all [guard_ops.returns, guard_ops.state_after, has_required_inputs, layout_arity,
    reply_outputs_by_layout, call_follows_layout, embedded_message_unparsable]

theorem service_create_resource_post (P : codec) (C : channel χ) (G : guard_ops γ) (ch : χ)
    (g : γ) (input : rpc_call) (h : input.function_name = create_resource_tag) :
    ∃ r, service_create_resource P C G ch g input = some r ∧ branch_post P G g input r := by
  unfold service_create_resource
  rcases hb : input.buf_inputs with _ | ⟨b0, bs⟩ <;>
  simp
  · apply branch_post_return_true
    simp [has_required_inputs, layout_arity, h, hb]
  cases hp : P.parse_resource b0 with
  | none =>
    refine ⟨_, rfl, ?_⟩
    apply branch_post_write_reply <;>
    simp_all [guard_ops.returns, guard_ops.state_after, has_required_inputs, layout_arity,
    reply_outputs_by_layout, call_follows_layout, embedded_message_unparsable]
  | some m =>
    refine ⟨_, rfl, ?_⟩
    apply branch_post_write_reply <;>
    cases hr : (G.create_resource g m).ret <;>
    simp_all [guard_ops.returns, guard_ops.state_after, has_required_inputs, layout_arity,
    reply_outputs_by_layout, call_follows_layout, embedded_message_unparsable]

theorem service_add_principal_post (P : codec) (C : channel χ) (G : guard_ops γ) (ch : χ)
    (g : γ) (input : rpc_call) (h : input.function_name = add_principal_tag) :
    ∃ r, service_add_principal P C G ch g input = some r ∧ branch_post P G g input r := by
  unfold service_add_principal
  rcases hb : input.buf_inputs with _ | ⟨b0, bs⟩ <;>
  simp
  · apply branch_post_return_true
    simp [has_required_inputs, layout_arity, h, hb]
  cases hp : P.parse_principal b0 with
  | none =>
    refine ⟨_, rfl, ?_⟩
    apply branch_post_write_reply <;>
    simp_all [guard_ops.returns, guard_ops.state_after, has_required_inputs, layout_arity,
    reply_outputs_by_layout, call_follows_layout, embedded_message_unparsable]
  | some m =>
    refine ⟨_, rfl, ?_⟩
    apply branch_post_write_reply <;>
    cases hr : (G.add_principal g m).ret <;>
    simp_all [guard_ops.returns, guard_ops.state_after, has_required_inputs, layout_arity,
    reply_outputs_by_layout, call_follows_layout, embedded_message_unparsable]

theorem dispatch_post (P : codec) (C : channel χ) (G : guard_ops γ) (ch : χ) (g : γ)
    (input : rpc_call) :
    ∃ r, dispatch P C G ch g input = some r ∧ branch_post P G g input r := by
  unfold dispatch
  by_cases h1 : input.function_name = authenticate_me_tag
  · rw [if_pos h1]; exact service_authenticate_me_post P C G ch g input h1
  rw [if_neg h1]
  by_cases h2 : input.function_name = verify_me_tag
  · rw [if_pos h2]; exact service_verify_me_post P C G ch g input h2
  rw [if_neg h2]
  by_cases h3 : input.function_name = open_resource_tag
  · rw [if_pos h3]; exact service_open_resource_post P C G ch g input h3
  rw [if_neg h3]
  by_cases h4 : input.function_name = close_resource_tag
  · rw [if_pos h4]; exact service_close_resource_post P C G ch g input h4
  rw [if_neg h4]
  by_cases h5 : input.function_name = read_resource_tag
  · rw [if_pos h5]; exact service_read_resource_post P C G ch g input h5
  rw [if_neg h5]
  by_cases h6 : input.function_name = write_resource_tag
  · rw [if_pos h6]; exact service_write_resource_post P C G ch g input h6
  rw [if_neg h6]
  by_cases h7 : input.function_name = add_access_right_tag
  · rw [if_pos h7]; exact service_add_access_right_post P C G ch g input h7
  rw [if_neg h7]
  by_cases h8 : input.function_name = delete_resource_tag
  · rw [if_pos h8]; exact service_delete_resource_post P C G ch g input h8
  rw [if_neg h8]
  by_cases h9 : input.function_name = create_resource_tag
  · rw [if_pos h9]; exact service_create_resource_post P C G ch g input h9
  rw [if_neg h9]
  by_cases h10 : input.function_name = delete_principal_tag
  · rw [if_pos h10]; exact service_delete_principal_post P C G ch g input h10
  rw [if_neg h10]
  by_cases h11 : input.function_name = add_principal_tag
  · rw [if_pos h11]; exact service_add_principal_post P C G ch g input h11
  rw [if_neg h11]
  refine ⟨_, rfl, branch_post_return_true P G ch g input ?_⟩
  simp_all [has_required_inputs, layout_arity]

/-! ## The four ways through `service_request` -/

theorem service_request_uninitialized (P : codec) (C : channel χ) (G : guard_ops γ)
    (s : acl_server_dispatch χ γ) (hinit : s.initialized_ = false) :
    service_request P C G s =
      some { ret := false, channel := s.channel_descriptor_, guard := s.guard_,
             calls := [], writes := [] } := by
  simp [service_request, hinit]

theorem service_request_read_failed (P : codec) (C : channel χ) (G : guard_ops γ)
    (s : acl_server_dispatch χ γ) (hinit : s.initialized_ = true)
    (hread : (C.channel_read s.channel_descriptor_).bytes_read < 0) :
    service_request P C G s =
      some { ret := false,
             channel := C.shutdown (C.channel_read s.channel_descriptor_).channel,
             guard := s.guard_, calls := [], writes := [] } := by
  simp [service_request, hinit, hread]

theorem service_request_unparsed (P : codec) (C : channel χ) (G : guard_ops γ)
    (s : acl_server_dispatch χ γ) (hinit : s.initialized_ = true)
    (hread : 0 ≤ (C.channel_read s.channel_descriptor_).bytes_read)
    (hparse : P.parse_call (C.channel_read s.channel_descriptor_).out = none) :
    service_request P C G s =
      some (return_true (C.channel_read s.channel_descriptor_).channel s.guard_) := by
  simp [service_request, hinit, not_lt.mpr hread, hparse]

theorem service_request_parsed (P : codec) (C : channel χ) (G : guard_ops γ)
    (s : acl_server_dispatch χ γ) (input : rpc_call) (hinit : s.initialized_ = true)
    (hread : 0 ≤ (C.channel_read s.channel_descriptor_).bytes_read)
    (hparse : P.parse_call (C.channel_read s.channel_descriptor_).out = some input) :
    service_request P C G s =
      dispatch P C G (C.channel_read s.channel_descriptor_).channel s.guard_ input := by
  simp [service_request, hinit, not_lt.mpr hread, hparse]

theorem service_request_post (P : codec) (C : channel χ) (G : guard_ops γ)
    (s : acl_server_dispatch χ γ) (input : rpc_call) (hinit : s.initialized_ = true)
    (hread : 0 ≤ (C.channel_read s.channel_descriptor_).bytes_read)
    (hparse : P.parse_call (C.channel_read s.channel_descriptor_).out = some input) :
    ∃ r, service_request P C G s = some r ∧ branch_post P G s.guard_ input r := by
  rw [service_request_parsed P C G s input hinit hread hparse]
  exact dispatch_post P C G _ _ input

theorem not_required_of_too_few (c : rpc_call) (h : has_too_few_inputs c) :
    ¬ has_required_inputs c := by
  unfold has_too_few_inputs at h
  unfold has_required_inputs
  split at h
  · exact h.elim
  · omega

theorem layout_arity_of_unknown (tag : String) (h : tag ∉ known_tags) :
    layout_arity tag = none := by
  simp [known_tags] at h
  simp [layout_arity, h]

theorem not_required_of_unknown (c : rpc_call) (h : c.function_name ∉ known_tags) :
    ¬ has_required_inputs c := by
  unfold has_required_inputs
  rw [layout_arity_of_unknown _ h]
  simp

end server_lemmas
/-! ## Every branch ends in the reply tail -/

section server_reply_lemmas
variable {χ γ : Type}

theorem write_reply_writes_of_serialized (P : codec) (C : channel χ) (ch : χ) (g : γ)
    (calls : List guard_call) (out : rpc_call) (h : (P.serialize_call out).isSome = true) :
    (write_reply P C ch g calls out).writes.length = 1 := by
  rw [write_reply_writes]
  cases hs : P.serialize_call out <;> simp [hs] at h ⊢

theorem write_reply_writes_of_unserialized (P : codec) (C : channel χ) (ch : χ) (g : γ)
    (calls : List guard_call) (out : rpc_call) (h : P.serialize_call out = none) :
    (write_reply P C ch g calls out).writes = [] := by
  rw [write_reply_writes, h]

theorem reaches_reply_tail_return_true (P : codec) (C : channel χ) (G : guard_ops γ) (ch : χ)
    (g : γ) (input : rpc_call) (h : ¬ has_required_inputs input) :
    reaches_reply_tail P C G ch g input (return_true ch g) :=
  fun hreq => absurd hreq h

theorem service_authenticate_me_tail (P : codec) (C : channel χ) (G : guard_ops γ) (ch : χ)
    (g : γ) (input : rpc_call) (h : input.function_name = authenticate_me_tag) :
    ∃ r, service_authenticate_me P C G ch g input = some r ∧
      reaches_reply_tail P C G ch g input r := by
  unfold service_authenticate_me
  rcases hs : input.str_inputs with _ | ⟨s0, ss⟩ <;>
  rcases hb : input.buf_inputs with _ | ⟨b0, bs⟩ <;>
  simp_arith
  any_goals
    apply reaches_reply_tail_return_true
    simp_arith [has_required_inputs, layout_arity, h, *]
  intro _
  refine ⟨(G.authenticate_me g s0 b0).guard, [guard_call.authenticate_me s0 b0], ?_⟩
  congr 1
  cases hr : (G.authenticate_me g s0 b0).ret <;>
  simp [reply_of_layout, layout_reply, guard_ops.returns, guard_ops.outputs, h, hr]

theorem service_verify_me_tail (P : codec) (C : channel χ) (G : guard_ops γ) (ch : χ)
    (g : γ) (input : rpc_call) (h : input.function_name = verify_me_tag) :
    ∃ r, service_verify_me P C G ch g input = some r ∧
      reaches_reply_tail P C G ch g input r := by
  unfold service_verify_me
  rcases hs : input.str_inputs with _ | ⟨s0, ss⟩ <;>
  rcases hb : input.buf_inputs with _ | ⟨b0, bs⟩ <;>
  simp_arith
  any_goals
    apply reaches_reply_tail_return_true
    simp_arith [has_required_inputs, layout_arity, h, *]
  intro _
  refine ⟨(G.verify_me g s0 b0).guard, [guard_call.verify_me s0 b0], ?_⟩
  congr 1
  cases hr : (G.verify_me g s0 b0).ret <;>
  simp [reply_of_layout, layout_reply, guard_ops.returns, guard_ops.outputs, h, hr]

theorem service_open_resource_tail (P : codec) (C : channel χ) (G : guard_ops γ) (ch : χ)
    (g : γ) (input : rpc_call) (h : input.function_name = open_resource_tag) :
    ∃ r, service_open_resource P C G ch g input = some r ∧
      reaches_reply_tail P C G ch g input r := by
  unfold service_open_resource
  rcases hs : input.str_inputs with _ | ⟨s0, _ | ⟨s1, ss⟩⟩ <;>
  simp_arith
  any_goals
    apply reaches_reply_tail_return_true
    simp_arith [has_required_inputs, layout_arity, h, *]
  intro _
  refine ⟨(G.open_resource g s0 s1).guard, [guard_call.open_resource s0 s1], ?_⟩
  congr 1
  cases hr : (G.open_resource g s0 s1).ret <;>
  simp [reply_of_layout, layout_reply, guard_ops.returns, guard_ops.outputs, h, hr]

theorem service_close_resource_tail (P : codec) (C : channel χ) (G : guard_ops γ) (ch : χ)
    (g : γ) (input : rpc_call) (h : input.function_name = close_resource_tag) :
    ∃ r, service_close_resource P C G ch g input = some r ∧
      reaches_reply_tail P C G ch g input r := by
  unfold service_close_resource
  rcases hs : input.str_inputs with _ | ⟨s0, ss⟩ <;>
  rcases hi : input.int_inputs with _ | ⟨i0, is⟩ <;>
  simp_arith
  any_goals
    apply reaches_reply_tail_return_true
    simp_arith [has_required_inputs, layout_arity, h, *]
  intro _
  refine ⟨(G.close_resource g s0 i0).guard, [guard_call.close_resource s0 i0], ?_⟩
  congr 1
  cases hr : (G.close_resource g s0 i0).ret <;>
  simp [reply_of_layout, layout_reply, guard_ops.returns, guard_ops.outputs, h, hr]

theorem service_read_resource_tail (P : codec) (C : channel χ) (G : guard_ops γ) (ch : χ)
    (g : γ) (input : rpc_call) (h : input.function_name = read_resource_tag) :
    ∃ r, service_read_resource P C G ch g input = some r ∧
      reaches_reply_tail P C G ch g input r := by
  unfold service_read_resource
  rcases hs : input.str_inputs with _ | ⟨s0, ss⟩ <;>
  rcases hi : input.int_inputs with _ | ⟨i0, _ | ⟨i1, is⟩⟩ <;>
  simp_arith
  any_goals
    apply reaches_reply_tail_return_true
    simp_arith [has_required_inputs, layout_arity, h, *]
  intro _
  refine ⟨(G.read_resource g s0 i0 i1).guard, [guard_call.read_resource s0 i0 i1], ?_⟩
  congr 1
  cases hr : (G.read_resource g s0 i0 i1).ret <;>
  simp [reply_of_layout, layout_reply, guard_ops.returns, guard_ops.outputs, h, hr]

theorem service_write_resource_tail (P : codec) (C : channel χ) (G : guard_ops γ) (ch : χ)
    (g : γ) (input : rpc_call) (h : input.function_name = write_resource_tag) :
    ∃ r, service_write_resource P C G ch g input = some r ∧
      reaches_reply_tail P C G ch g input r := by
  unfold service_write_resource
  rcases hs : input.str_inputs with _ | ⟨s0, ss⟩ <;>
  rcases hi : input.int_inputs with _ | ⟨i0, _ | ⟨i1, is⟩⟩ <;>
  rcases hb : input.buf_inputs with _ | ⟨b0, bs⟩ <;>
  simp_arith
  any_goals
    apply reaches_reply_tail_return_true
    simp_arith [has_required_inputs, layout_arity, h, *]
  intro _
  refine ⟨(G.write_resource g s0 i0 i1 b0).guard, [guard_call.write_resource s0 i0 i1 b0], ?_⟩
  congr 1
  cases hr : (G.write_resource g s0 i0 i1 b0).ret <;>
  simp [reply_of_layout, layout_reply, guard_ops.returns, guard_ops.outputs, h, hr]

theorem service_add_access_right_tail (P : codec) (C : channel χ) (G : guard_ops γ) (ch : χ)
    (g : γ) (input : rpc_call) (h : input.function_name = add_access_right_tag) :
    ∃ r, service_add_access_right P C G ch g input = some r ∧
      reaches_reply_tail P C G ch g input r := by
  unfold service_add_access_right
  rcases hs : input.str_inputs with _ | ⟨s0, _ | ⟨s1, _ | ⟨s2, ss⟩⟩⟩ <;>
  simp_arith
  any_goals
    apply reaches_reply_tail_return_true
    simp_arith [has_required_inputs, layout_arity, h, *]
  intro _
  refine ⟨(G.add_access_rights g s0 s1 s2).guard, [guard_call.add_access_rights s0 s1 s2], ?_⟩
  congr 1
  cases hr : (G.add_access_rights g s0 s1 s2).ret <;>
  simp [reply_of_layout, layout_reply, guard_ops.returns, guard_ops.outputs, h, hr]

theorem service_delete_resource_tail (P : codec) (C : channel χ) (G : guard_ops γ) (ch : χ)
    (g : γ) (input : rpc_call) (h : input.function_name = delete_resource_tag) :
    ∃ r, service_delete_resource P C G ch g input = some r ∧
      reaches_reply_tail P C G ch g input r := by
  unfold service_delete_resource
  rcases hs : input.str_inputs with _ | ⟨s0, _ | ⟨s1, ss⟩⟩ <;>
  simp_arith
  any_goals
    apply reaches_reply_tail_return_true
    simp_arith [has_required_inputs, layout_arity, h, *]
  intro _
  refine ⟨(G.delete_resource g s0 s1).guard, [guard_call.delete_resource s0 s1], ?_⟩
  congr 1
  cases hr : (G.delete_resource g s0 s1).ret <;>
  simp [reply_of_layout, layout_reply, guard_ops.returns, guard_ops.outputs, h, hr]

theorem service_delete_principal_tail (P : codec) (C : channel χ) (G : guard_ops γ) (ch : χ)
    (g : γ) (input : rpc_call) (h : input.function_name = delete_principal_tag) :
    ∃ r, service_delete_principal P C G ch g input = some r ∧
      reaches_reply_tail P C G ch g input r := by
  unfold service_delete_principal
  rcases hs : input.str_inputs with _ | ⟨s0, ss⟩ <;>
  simp_arith
  any_goals
    apply reaches_reply_tail_return_true
    simp_arith [has_required_inputs, layout_arity, h, *]
  intro _
  refine ⟨(G.delete_principal g s0).guard, [guard_call.delete_principal s0], ?_⟩
  congr 1
  cases hr : (G.delete_principal g s0).ret <;>
  simp [reply_of_layout, layout_reply, guard_ops.returns, guard_ops.outputs, h, hr]

theorem service_create_resource_tail (P : codec) (C : channel χ) (G : guard_ops γ) (ch : χ)
    (g : γ) (input : rpc_call) (h : input.function_name = create_resource_tag) :
    ∃ r, service_create_resource P C G ch g input = some r ∧
      reaches_reply_tail P C G ch g input r := by
  unfold service_create_resource
  rcases hb : input.buf_inputs with _ | ⟨b0, bs⟩ <;>
  simp
  · apply reaches_reply_tail_return_true
    simp [has_required_inputs, layout_arity, h, hb]
  cases hp : P.parse_resource b0 with
  | none =>
    refine ⟨_, rfl, fun _ => ⟨g, [], ?_⟩⟩
    congr 1
    simp [reply_of_layout, layout_reply, h]
  | some m =>
    refine ⟨_, rfl, fun _ => ⟨(G.create_resource g m).guard, [guard_call.create_resource m], ?_⟩⟩
    congr 1
    cases hr : (G.create_resource g m).ret <;>
    simp [reply_of_layout, layout_reply, guard_ops.returns, guard_ops.outputs, h, hr]

theorem service_add_principal_tail (P : codec) (C : channel χ) (G : guard_ops γ) (ch : χ)
    (g : γ) (input : rpc_call) (h : input.function_name = add_principal_tag) :
    ∃ r, service_add_principal P C G ch g input = some r ∧
      reaches_reply_tail P C G ch g input r := by
  unfold service_add_principal
  rcases hb : input.buf_inputs with _ | ⟨b0, bs⟩ <;>
  simp
  · apply reaches_reply_tail_return_true
    simp [has_required_inputs, layout_arity, h, hb]
  cases hp : P.parse_principal b0 with
  | none =>
    refine ⟨_, rfl, fun _ => ⟨g, [], ?_⟩⟩
    congr 1
    simp [reply_of_layout, layout_reply, h]
  | some m =>
    refine ⟨_, rfl, fun _ => ⟨(G.add_principal g m).guard, [guard_call.add_principal m], ?_⟩⟩
    congr 1
    cases hr : (G.add_principal g m).ret <;>
    simp [reply_of_layout, layout_reply, guard_ops.returns, guard_ops.outputs, h, hr]

theorem dispatch_tail (P : codec) (C : channel χ) (G : guard_ops γ) (ch : χ) (g : γ)
    (input : rpc_call) :
    ∃ r, dispatch P C G ch g input = some r ∧ reaches_reply_tail P C G ch g input r := by
  unfold dispatch
  by_cases h1 : input.function_name = authenticate_me_tag
  · rw [if_pos h1]; exact service_authenticate_me_tail P C G ch g input h1
  rw [if_neg h1]
  by_cases h2 : input.function_name = verify_me_tag
  · rw [if_pos h2]; exact service_verify_me_tail P C G ch g input h2
  rw [if_neg h2]
  by_cases h3 : input.function_name = open_resource_tag
  · rw [if_pos h3]; exact service_open_resource_tail P C G ch g input h3
  rw [if_neg h3]
  by_cases h4 : input.function_name = close_resource_tag
  · rw [if_pos h4]; exact service_close_resource_tail P C G ch g input h4
  rw [if_neg h4]
  by_cases h5 : input.function_name = read_resource_tag
  · rw [if_pos h5]; exact service_read_resource_tail P C G ch g input h5
  rw [if_neg h5]
  by_cases h6 : input.function_name = write_resource_tag
  · rw [if_pos h6]; exact service_write_resource_tail P C G ch g input h6
  rw [if_neg h6]
  by_cases h7 : input.function_name = add_access_right_tag
  · rw [if_pos h7]; exact service_add_access_right_tail P C G ch g input h7
  rw [if_neg h7]
  by_cases h8 : input.function_name = delete_resource_tag
  · rw [if_pos h8]; exact service_delete_resource_tail P C G ch g input h8
  rw [if_neg h8]
  by_cases h9 : input.function_name = create_resource_tag
  · rw [if_pos h9]; exact service_create_resource_tail P C G ch g input h9
  rw [if_neg h9]
  by_cases h10 : input.function_name = delete_principal_tag
  · rw [if_pos h10]; exact service_delete_principal_tail P C G ch g input h10
  rw [if_neg h10]
  by_cases h11 : input.function_name = add_principal_tag
  · rw [if_pos h11]; exact service_add_principal_tail P C G ch g input h11
  rw [if_neg h11]
  refine ⟨_, rfl, reaches_reply_tail_return_true P C G ch g input ?_⟩
  simp_all [has_required_inputs, layout_arity]

theorem service_request_tail (P : codec) (C : channel χ) (G : guard_ops γ)
    (s : acl_server_dispatch χ γ) (input : rpc_call) (hinit : s.initialized_ = true)
    (hread : 0 ≤ (C.channel_read s.channel_descriptor_).bytes_read)
    (hparse : P.parse_call (C.channel_read s.channel_descriptor_).out = some input) :
    ∃ r, service_request P C G s = some r ∧
      reaches_reply_tail P C G (C.channel_read s.channel_descriptor_).channel s.guard_ input r := by
  rw [service_request_parsed P C G s input hinit hread hparse]
  exact dispatch_tail P C G _ _ input

theorem writes_of_reaches_reply_tail (P : codec) (C : channel χ) (G : guard_ops γ) (ch : χ)
    (g : γ) (input : rpc_call) (r : service_result χ γ)
    (h : reaches_reply_tail P C G ch g input r) (hreq : has_required_inputs input) :
    (∀ w ∈ r.writes, w.message = reply_of_layout G g input.function_name r.calls) ∧
    ((P.serialize_call (reply_of_layout G g input.function_name r.calls)).isSome = true →
      r.writes.length = 1) ∧
    (P.serialize_call (reply_of_layout G g input.function_name r.calls) = none →
      r.writes = []) := by
  obtain ⟨g1, calls, hr⟩ := h hreq
  subst hr
  simp only [write_reply_calls]
  exact ⟨fun w hw => mem_write_reply_writes P C ch g1 calls _ w hw,
    write_reply_writes_of_serialized P C ch g1 calls _,
    write_reply_writes_of_unserialized P C ch g1 calls _⟩

end server_reply_lemmas
/-! ## Server dispatch: the claims -/

section server_claims
variable {χ γ : Type}

/-- C1: every reply that `service_request` writes answers a request that was read and
parsed, and its `function_name` is set and equal to the request's `function_name`. -/
theorem service_request_reply_echoes_tag (P : codec) (C : channel χ) (G : guard_ops γ)
    (s : acl_server_dispatch χ γ) :
    ∃ r, service_request P C G s = some r ∧
      ∀ w ∈ r.writes, ∃ input,
        P.parse_call (C.channel_read s.channel_descriptor_).out = some input ∧
        w.message.has_function_name = true ∧
        w.message.function_name = input.function_name := by
  by_cases hinit : s.initialized_ = true
  · by_cases hread : 0 ≤ (C.channel_read s.channel_descriptor_).bytes_read
    · cases hparse : P.parse_call (C.channel_read s.channel_descriptor_).out with
      | none =>
        exact ⟨_, service_request_unparsed P C G s hinit hread hparse, by simp [return_true]⟩
      | some input =>
        obtain ⟨r, hr, -, -, -, hw, -⟩ := service_request_post P C G s input hinit hread hparse
        refine ⟨r, hr, fun w hmem => ⟨input, rfl, ?_, ?_⟩⟩
        · simp [(hw w hmem).2.2.1]
        · simp [rpc_call.function_name, (hw w hmem).2.2.1]
    · exact ⟨_, service_request_read_failed P C G s hinit (not_le.mp hread), by simp⟩
  · exact ⟨_, service_request_uninitialized P C G s (by simpa using hinit), by simp⟩

/-- C1, on the sample server holding a verify_me request: a reply is written, and it
carries the tag. -/
theorem service_request_reply_echoes_tag_witness :
    ∃ r, service_request sample_codec queue_channel.ops sample_guard (sample_server [0]) = some r ∧
      r.writes.length = 1 ∧
      ∀ w ∈ r.writes, ∃ input,
        sample_codec.parse_call
          (queue_channel.ops.channel_read (sample_server [0]).channel_descriptor_).out =
            some input ∧
        w.message.has_function_name = true ∧
        w.message.function_name = input.function_name := by
  obtain ⟨r, hr, h⟩ :=
    service_request_reply_echoes_tag sample_codec queue_channel.ops sample_guard
      (sample_server [0])
  refine ⟨r, hr, ?_, h⟩
  have h2 : (service_request sample_codec queue_channel.ops sample_guard
      (sample_server [0])).map (fun r => r.writes.length) = some 1 := by decide
  rw [hr] at h2
  simpa using h2

/-- C2, refuted as stated: three requests that the sample server reads successfully
(bytes that do not parse, a request with an unknown tag, an authenticate_me request
without inputs), and for none of them a reply is written. -/
theorem service_request_one_reply_counterexample :
    ((sample_server [200]).initialized_ = true ∧
      0 ≤ (queue_channel.ops.channel_read (sample_server [200]).channel_descriptor_).bytes_read ∧
      (service_request sample_codec queue_channel.ops sample_guard
        (sample_server [200])).map (fun r => r.writes.length) = some 0) ∧
    ((sample_server [3]).initialized_ = true ∧
      0 ≤ (queue_channel.ops.channel_read (sample_server [3]).channel_descriptor_).bytes_read ∧
      (service_request sample_codec queue_channel.ops sample_guard
        (sample_server [3])).map (fun r => r.writes.length) = some 0) ∧
    ((sample_server [2]).initialized_ = true ∧
      0 ≤ (queue_channel.ops.channel_read (sample_server [2]).channel_descriptor_).bytes_read ∧
      (service_request sample_codec queue_channel.ops sample_guard
        (sample_server [2])).map (fun r => r.writes.length) = some 0) := by
  decide

/-- C2, amended: for every request read successfully `service_request` calls
`channel_write` at most once, and what it writes is the serialization of the reply.
When the request parses and carries a known tag with at least the inputs of its
layout, at most the guard method of the layout ran, the reply is the one the layout
prescribes for that call, and it is written exactly once as soon as this reply
serializes (and not at all when it does not). Nothing is written when the request
does not parse or lacks a known tag or a required input. -/
theorem service_request_writes_at_most_one_reply (P : codec) (C : channel χ)
    (G : guard_ops γ) (s : acl_server_dispatch χ γ) (hinit : s.initialized_ = true)
    (hread : 0 ≤ (C.channel_read s.channel_descriptor_).bytes_read) :
    ∃ r, service_request P C G s = some r ∧ r.writes.length ≤ 1 ∧
      (∀ w ∈ r.writes, P.serialize_call w.message = some w.buf) ∧
      (∀ input, P.parse_call (C.channel_read s.channel_descriptor_).out = some input →
        has_required_inputs input →
        (r.calls = [] ∨ ∃ c, r.calls = [c] ∧ call_follows_layout P input c) ∧
        (r.calls = [] ↔ embedded_message_unparsable P input) ∧
        (∀ w ∈ r.writes,
          w.message = reply_of_layout G s.guard_ input.function_name r.calls) ∧
        ((P.serialize_call
            (reply_of_layout G s.guard_ input.function_name r.calls)).isSome = true →
          r.writes.length = 1) ∧
        (P.serialize_call (reply_of_layout G s.guard_ input.function_name r.calls) = none →
          r.writes = [])) ∧
      ((P.parse_call (C.channel_read s.channel_descriptor_).out = none ∨
        ∃ input, P.parse_call (C.channel_read s.channel_descriptor_).out = some input ∧
          ¬ has_required_inputs input) → r.writes = []) := by
  cases hparse : P.parse_call (C.channel_read s.channel_descriptor_).out with
  | none =>
    exact ⟨_, service_request_unparsed P C G s hinit hread hparse, by simp [return_true]⟩
  | some input =>
    obtain ⟨r, hr, -, hlen, hcalls, hw, hreq, hnot⟩ :=
      service_request_post P C G s input hinit hread hparse
    obtain ⟨r2, hr2, htail⟩ := service_request_tail P C G s input hinit hread hparse
    rw [hr] at hr2
    cases Option.some.inj hr2
    refine ⟨r, hr, hlen, fun w hmem => (hw w hmem).2.1, ?_, ?_⟩
    · intro input2 hin hreq2
      cases Option.some.inj hin
      refine ⟨?_, (hreq hreq2).1,
        writes_of_reaches_reply_tail P C G _ s.guard_ input r htail hreq2⟩
      rcases hcalls with ⟨h1, -⟩ | ⟨c, h1, h2, -⟩
      · exact Or.inl h1
      · exact Or.inr ⟨c, h1, h2⟩
    · rintro (h | ⟨input2, hin, hn⟩)
      · cases h
      · cases Option.some.inj hin
        exact (hnot hn).2

/-- C2 amended, on the sample server holding a verify_me request of alice: the guard
accepts, the reply with status true serializes, and it is written exactly once. -/
theorem service_request_writes_at_most_one_reply_witness :
    ∃ r, service_request sample_codec queue_channel.ops sample_guard (sample_server [0]) = some r ∧
      r.calls = [guard_call.verify_me "alice" [1, 2]] ∧
      r.writes.length = 1 ∧
      ∀ w ∈ r.writes,
        w.message = { opt_function_name := some "verify_me", opt_status := some true } := by
  obtain ⟨r, hr, -, -, hgood, -⟩ :=
    service_request_writes_at_most_one_reply sample_codec queue_channel.ops sample_guard
      (sample_server [0]) (by decide) (by decide)
  have hc : r.calls = [guard_call.verify_me "alice" [1, 2]] := by
    have h2 : (service_request sample_codec queue_channel.ops sample_guard
        (sample_server [0])).map (fun r => r.calls) =
          some [guard_call.verify_me "alice" [1, 2]] := by decide
    rw [hr] at h2
    simpa using h2
  obtain ⟨-, -, hmsg, hone, -⟩ :=
    hgood { opt_function_name := some "verify_me", str_inputs := ["alice"],
            buf_inputs := [[1, 2]] } (by decide) (by decide)
  have hreply : ∀ m : rpc_call, m.opt_function_name = some "verify_me" →
      reply_of_layout sample_guard (sample_server [0]).guard_ m.function_name
        [guard_call.verify_me "alice" [1, 2]] =
      { opt_function_name := some "verify_me", opt_status := some true } := by
    intro m hm
    simp only [rpc_call.function_name, hm]
    decide
  rw [hc, hreply _ rfl] at hmsg hone
  exact ⟨r, hr, hc, hone (by decide), hmsg⟩

/-- C3: a request that was read but does not parse as a call envelope, or whose
`function_name` is not one of the eleven known tags, makes `service_request` write
nothing, invoke no guard method (the guard is left as it was) and return true. -/
theorem service_request_ignores_unparsable_and_unknown (P : codec) (C : channel χ)
    (G : guard_ops γ) (s : acl_server_dispatch χ γ) (hinit : s.initialized_ = true)
    (hread : 0 ≤ (C.channel_read s.channel_descriptor_).bytes_read)
    (hbad : P.parse_call (C.channel_read s.channel_descriptor_).out = none ∨
      ∃ input, P.parse_call (C.channel_read s.channel_descriptor_).out = some input ∧
        input.function_name ∉ known_tags) :
    ∃ r, service_request P C G s = some r ∧ r.writes = [] ∧ r.calls = [] ∧
      r.guard = s.guard_ ∧ r.ret = true := by
  rcases hbad with hparse | ⟨input, hparse, htag⟩
  · exact ⟨_, service_request_unparsed P C G s hinit hread hparse, by simp [return_true]⟩
  · obtain ⟨r, hr, hret, -, hcalls, -, -, hnot⟩ :=
      service_request_post P C G s input hinit hread hparse
    have h := hnot (not_required_of_unknown input htag)
    refine ⟨r, hr, h.2, h.1, ?_, hret⟩
    rcases hcalls with ⟨-, hg⟩ | ⟨c, hc, -⟩
    · exact hg
    · rw [h.1] at hc
      cases hc

/-- C3, on the sample server holding a request with the tag rename_resource. -/
theorem service_request_ignores_unparsable_and_unknown_witness :
    ∃ r, service_request sample_codec queue_channel.ops sample_guard (sample_server [3]) = some r ∧
      r.writes = [] ∧ r.calls = [] ∧ r.guard = (sample_server [3]).guard_ ∧ r.ret = true :=
  service_request_ignores_unparsable_and_unknown sample_codec queue_channel.ops sample_guard
    (sample_server [3]) (by decide) (by decide)
    (Or.inr ⟨{ opt_function_name := some "rename_resource", str_inputs := ["doc1", "doc2"] },
      by decide, by decide⟩)

/-- C4, refuted as stated: the sample server reads an authenticate_me request without
inputs and a write_resource request without its buffer, both with a known tag and too
few inputs, and writes no reply to either. -/
theorem service_request_too_few_inputs_counterexample :
    (sample_codec.parse_call [2] = some { opt_function_name := some "authenticate_me" } ∧
      has_too_few_inputs { opt_function_name := some "authenticate_me" } ∧
      (service_request sample_codec queue_channel.ops sample_guard
        (sample_server [2])).map (fun r => r.writes) = some []) ∧
    (sample_codec.parse_call [10] =
        some { opt_function_name := some "write_resource", str_inputs := ["doc1"],
               int_inputs := [3, 5] } ∧
      has_too_few_inputs { opt_function_name := some "write_resource", str_inputs := ["doc1"],
                           int_inputs := [3, 5] } ∧
      (service_request sample_codec queue_channel.ops sample_guard
        (sample_server [10])).map (fun r => r.writes) = some []) := by
  decide

/-- C4, amended: a request with a known tag but fewer string, buffer or integer inputs
than the tag's layout requires makes `service_request` write no reply, invoke no guard
method (the guard is left as it was) and return true. -/
theorem service_request_too_few_inputs_no_reply (P : codec) (C : channel χ)
    (G : guard_ops γ) (s : acl_server_dispatch χ γ) (input : rpc_call)
    (hinit : s.initialized_ = true)
    (hread : 0 ≤ (C.channel_read s.channel_descriptor_).bytes_read)
    (hparse : P.parse_call (C.channel_read s.channel_descriptor_).out = some input)
    (hfew : has_too_few_inputs input) :
    ∃ r, service_request P C G s = some r ∧ r.writes = [] ∧ r.calls = [] ∧
      r.guard = s.guard_ ∧ r.ret = true := by
  obtain ⟨r, hr, hret, -, hcalls, -, -, hnot⟩ :=
    service_request_post P C G s input hinit hread hparse
  have h := hnot (not_required_of_too_few input hfew)
  refine ⟨r, hr, h.2, h.1, ?_, hret⟩
  rcases hcalls with ⟨-, hg⟩ | ⟨c, hc, -⟩
  · exact hg
  · rw [h.1] at hc
    cases hc

/-- C4 amended, on the sample server holding a write_resource request without its
buffer. -/
theorem service_request_too_few_inputs_no_reply_witness :
    ∃ r, service_request sample_codec queue_channel.ops sample_guard (sample_server [10]) = some r ∧
      r.writes = [] ∧ r.calls = [] ∧ r.guard = (sample_server [10]).guard_ ∧ r.ret = true :=
  service_request_too_few_inputs_no_reply sample_codec queue_channel.ops sample_guard
    (sample_server [10])
    { opt_function_name := some "write_resource", str_inputs := ["doc1"], int_inputs := [3, 5] }
    (by decide) (by decide) (by decide) (by decide)

/-- C5: `service_request` returns false exactly when the dispatcher is not initialized
or the channel read returns a negative byte count; whatever the codec and the channel
do to the reply (serialization failure, write failure), it returns true otherwise. -/
theorem service_request_returns_false_iff (P : codec) (C : channel χ) (G : guard_ops γ)
    (s : acl_server_dispatch χ γ) :
    ∃ r, service_request P C G s = some r ∧
      (r.ret = false ↔
        (s.initialized_ = false ∨ (C.channel_read s.channel_descriptor_).bytes_read < 0)) := by
  by_cases hinit : s.initialized_ = true
  · by_cases hread : 0 ≤ (C.channel_read s.channel_descriptor_).bytes_read
    · have hno : ¬ (s.initialized_ = false ∨
          (C.channel_read s.channel_descriptor_).bytes_read < 0) := by
        rintro (h | h)
        · rw [hinit] at h; cases h
        · exact absurd hread (not_le.mpr h)
      cases hparse : P.parse_call (C.channel_read s.channel_descriptor_).out with
      | none =>
        refine ⟨_, service_request_unparsed P C G s hinit hread hparse, ?_⟩
        simp [return_true, hno]
      | some input =>
        obtain ⟨r, hr, hret, -⟩ := service_request_post P C G s input hinit hread hparse
        refine ⟨r, hr, ?_⟩
        simp [hret, hno]
    · refine ⟨_, service_request_read_failed P C G s hinit (not_le.mp hread), ?_⟩
      simp [not_le.mp hread]
  · refine ⟨_, service_request_uninitialized P C G s (by simpa using hinit), ?_⟩
    simp [hinit]

/-- C6: for a request that parses, carries a known tag with at least the inputs of its
layout and, for `create_resource` and `add_principal`, an embedded message that parses,
`service_request` invokes exactly one guard method: the one named by the tag, with the
positional arguments of the layout table (`call_follows_layout`); the guard is left in
the state that method produced. -/
theorem service_request_invokes_guard_by_layout (P : codec) (C : channel χ)
    (G : guard_ops γ) (s : acl_server_dispatch χ γ) (input : rpc_call)
    (hinit : s.initialized_ = true)
    (hread : 0 ≤ (C.channel_read s.channel_descriptor_).bytes_read)
    (hparse : P.parse_call (C.channel_read s.channel_descriptor_).out = some input)
    (hreq : has_required_inputs input) (hemb : ¬ embedded_message_unparsable P input) :
    ∃ r, service_request P C G s = some r ∧
      ∃ c, r.calls = [c] ∧ call_follows_layout P input c ∧
        r.guard = G.state_after s.guard_ c := by
  obtain ⟨r, hr, -, -, hcalls, -, hwf, -⟩ :=
    service_request_post P C G s input hinit hread hparse
  refine ⟨r, hr, ?_⟩
  rcases hcalls with ⟨hnil, -⟩ | ⟨c, hc, hlay, hg, -⟩
  · exact absurd ((hwf hreq).1.mp hnil) hemb
  · exact ⟨c, hc, hlay, hg⟩

/-- C6, on the sample server holding the request authenticate_me(alice, 80): the guard
method invoked is authenticate_me with the first string and the first buffer. -/
theorem service_request_invokes_guard_by_layout_witness :
    ∃ r, service_request sample_codec queue_channel.ops sample_guard (sample_server [4]) = some r ∧
      r.calls = [guard_call.authenticate_me "alice" [80]] := by
  obtain ⟨r, hr, c, hc, hlay, -⟩ :=
    service_request_invokes_guard_by_layout sample_codec queue_channel.ops sample_guard
      (sample_server [4])
      { opt_function_name := some "authenticate_me", str_inputs := ["alice"],
        buf_inputs := [[80]] }
      (by decide) (by decide) (by decide) (by decide)
      (by
        rintro (⟨h, -⟩ | ⟨h, -⟩)
        · exact absurd h (by decide)
        · exact absurd h (by decide))
  refine ⟨r, hr, ?_⟩
  have h2 : (service_request sample_codec queue_channel.ops sample_guard
      (sample_server [4])).map (fun r => r.calls) =
        some [guard_call.authenticate_me "alice" [80]] := by decide
  rw [hr] at h2
  simpa using h2

/-- C7: for a request that parses and carries a known tag with at least the inputs of
its layout, the status of the reply written is the boolean returned by the one guard
method invoked; no guard method is invoked exactly when the request is a
`create_resource` or `add_principal` whose embedded message fails to parse, and the
status of the reply is then false. -/
theorem service_request_status_is_guard_result (P : codec) (C : channel χ)
    (G : guard_ops γ) (s : acl_server_dispatch χ γ) (input : rpc_call)
    (hinit : s.initialized_ = true)
    (hread : 0 ≤ (C.channel_read s.channel_descriptor_).bytes_read)
    (hparse : P.parse_call (C.channel_read s.channel_descriptor_).out = some input)
    (hreq : has_required_inputs input) :
    ∃ r, service_request P C G s = some r ∧
      ((∃ c, r.calls = [c] ∧ call_follows_layout P input c ∧
          ∀ w ∈ r.writes, w.message.status = G.returns s.guard_ c) ∨
        (r.calls = [] ∧ ∀ w ∈ r.writes, w.message.status = false)) ∧
      (r.calls = [] ↔ embedded_message_unparsable P input) ∧
      ((∀ m, (P.serialize_call m).isSome = true) → r.writes.length = 1) := by
  obtain ⟨r, hr, -, -, hcalls, hw, hwf, -⟩ :=
    service_request_post P C G s input hinit hread hparse
  refine ⟨r, hr, ?_, (hwf hreq).1, (hwf hreq).2⟩
  rcases hcalls with ⟨hnil, -⟩ | ⟨c, hc, hlay, -, hst⟩
  · exact Or.inr ⟨hnil, fun w hmem => (hw w hmem).2.2.2.1 hnil⟩
  · exact Or.inl ⟨c, hc, hlay, hst⟩

/-- C7, on the sample server holding verify_me(mallory, 6) and on the one holding a
create_resource request whose buffer is no resource message: the first reply has the
status the guard returned, false; the second has status false and no guard method ran. -/
theorem service_request_status_is_guard_result_witness :
    (∃ r, service_request sample_codec queue_channel.ops sample_guard (sample_server [11]) =
        some r ∧ r.calls = [guard_call.verify_me "mallory" [6]] ∧ r.writes.length = 1 ∧
        ∀ w ∈ r.writes, w.message.status = false) ∧
    (∃ r, service_request sample_codec queue_channel.ops sample_guard (sample_server [6]) =
        some r ∧ r.calls = [] ∧ r.writes.length = 1 ∧
        ∀ w ∈ r.writes, w.message.status = false) := by
  constructor
  · obtain ⟨r, hr, h, -, -⟩ :=
      service_request_status_is_guard_result sample_codec queue_channel.ops sample_guard
        (sample_server [11])
        { opt_function_name := some "verify_me", str_inputs := ["mallory"],
          buf_inputs := [[6]] }
        (by decide) (by decide) (by decide) (by decide)
    have h2 : (service_request sample_codec queue_channel.ops sample_guard
        (sample_server [11])).map (fun r => (r.calls, r.writes.length)) =
          some ([guard_call.verify_me "mallory" [6]], 1) := by decide
    rw [hr] at h2
    simp only [Option.map, Option.some.injEq, Prod.mk.injEq] at h2
    refine ⟨r, hr, h2.1, h2.2, ?_⟩
    rcases h with ⟨c, hc, -, hst⟩ | ⟨-, hst⟩
    · intro w hw
      rw [hst w hw]
      rw [h2.1] at hc
      cases hc
      decide
    · exact hst
  · obtain ⟨r, hr, h, -, -⟩ :=
      service_request_status_is_guard_result sample_codec queue_channel.ops sample_guard
        (sample_server [6])
        { opt_function_name := some "create_resource", buf_inputs := [[255]] }
        (by decide) (by decide) (by decide) (by decide)
    have h2 : (service_request sample_codec queue_channel.ops sample_guard
        (sample_server [6])).map (fun r => (r.calls, r.writes.length)) = some ([], 1) := by
      decide
    rw [hr] at h2
    simp only [Option.map, Option.some.injEq, Prod.mk.injEq] at h2
    refine ⟨r, hr, h2.1, h2.2, ?_⟩
    rcases h with ⟨c, hc, -, -⟩ | ⟨-, hst⟩
    · rw [h2.1] at hc
      cases hc
    · exact hst

/-- C8: every reply written by `service_request` has the outputs of the layout table
(`reply_outputs_by_layout`): with status false all three output vectors are empty; with
status true, `authenticate_me` carries the one buffer the guard returned as nonce,
`open_resource` the one integer the guard returned as descriptor, `read_resource` the
one buffer the guard returned as bytes, and every other tag no output. -/
theorem service_request_reply_outputs (P : codec) (C : channel χ) (G : guard_ops γ)
    (s : acl_server_dispatch χ γ) (input : rpc_call) (hinit : s.initialized_ = true)
    (hread : 0 ≤ (C.channel_read s.channel_descriptor_).bytes_read)
    (hparse : P.parse_call (C.channel_read s.channel_descriptor_).out = some input) :
    ∃ r, service_request P C G s = some r ∧
      ∀ w ∈ r.writes,
        reply_outputs_by_layout G s.guard_ input.function_name r.calls w.message := by
  obtain ⟨r, hr, -, -, -, hw, -⟩ := service_request_post P C G s input hinit hread hparse
  exact ⟨r, hr, fun w hmem => (hw w hmem).2.2.2.2⟩

/-- C8, on the sample server holding open_resource(doc1, read): the reply written has
status true and carries the descriptor 3 of the sample guard as its only output. -/
theorem service_request_reply_outputs_witness :
    ∃ r, service_request sample_codec queue_channel.ops sample_guard (sample_server [8]) = some r ∧
      (r.writes.map (fun w => w.message)) =
        [{ opt_function_name := some "open_resource", opt_status := some true,
           int_outputs := [3] }] ∧
      ∀ w ∈ r.writes,
        reply_outputs_by_layout sample_guard (sample_server [8]).guard_ "open_resource"
          r.calls w.message := by
  obtain ⟨r, hr, h⟩ :=
    service_request_reply_outputs sample_codec queue_channel.ops sample_guard
      (sample_server [8])
      { opt_function_name := some "open_resource", str_inputs := ["doc1", "read"] }
      (by decide) (by decide) (by decide)
  refine ⟨r, hr, ?_, h⟩
  have h2 : (service_request sample_codec queue_channel.ops sample_guard
      (sample_server [8])).map (fun r => r.writes.map (fun w => w.message)) =
        some [{ opt_function_name := some "open_resource", opt_status := some true,
                int_outputs := [3] }] := by decide
  rw [hr] at h2
  simpa using h2

end server_claims
/-! ## Facts about the exchange shared by the client methods -/

section client_lemmas
variable {ω α : Type}

theorem client_exchange_writes (P : codec) (C : channel ω) (srv : ω → ω) (w : ω)
    (E : rpc_call) :
    (client_exchange P C srv w E).writes =
      match P.serialize_call E with
      | none => []
      | some enc =>
        [{ message := E, n := int32_t enc.length, buf := enc,
           bytes_written := (C.channel_write w (int32_t enc.length) enc).bytes_written }] := by
  unfold client_exchange
  cases P.serialize_call E with
  | none => rfl
  | some enc => dsimp only; split_ifs <;> rfl

theorem client_exchange_sends (P : codec) (C : channel ω) (srv : ω → ω) (w : ω)
    (E : rpc_call) : sends_request P E (client_exchange P C srv w E).writes := by
  rw [client_exchange_writes]
  unfold sends_request
  cases h : P.serialize_call E <;> simp

theorem client_exchange_reply (P : codec) (C : channel ω) (srv : ω → ω) (w : ω)
    (E : rpc_call) (rd : channel_read_record)
    (hrd : rd ∈ (client_exchange P C srv w E).reads) :
    (client_exchange P C srv w E).output_call_struct = none ∨
    (client_exchange P C srv w E).output_call_struct = P.parse_call rd.out := by
  unfold client_exchange at hrd ⊢
  cases h : P.serialize_call E with
  | none => simp [h] at hrd
  | some enc =>
    simp only [h] at hrd ⊢
    split_ifs at hrd ⊢ <;> simp_all

@[simp] theorem returning_ret (x : exchange_result ω) (b : Bool) (o : α) :
    (x.returning b o).ret = some b := rfl

@[simp] theorem returning_reads (x : exchange_result ω) (b : Bool) (o : α) :
    (x.returning b o).reads = x.reads := rfl

@[simp] theorem returning_writes (x : exchange_result ω) (b : Bool) (o : α) :
    (x.returning b o).writes = x.writes := rfl

@[simp] theorem out_of_range_reads (x : exchange_result ω) (o : α) :
    (x.out_of_range o).reads = x.reads := rfl

@[simp] theorem out_of_range_writes (x : exchange_result ω) (o : α) :
    (x.out_of_range o).writes = x.writes := rfl

@[simp] theorem returning_world (x : exchange_result ω) (b : Bool) (o : α) :
    (x.returning b o).world = x.world := rfl

@[simp] theorem out_of_range_world (x : exchange_result ω) (o : α) :
    (x.out_of_range o).world = x.world := rfl

@[simp] theorem out_of_range_ret (x : exchange_result ω) (o : α) :
    (x.out_of_range o).ret = none := rfl

theorem rpc_authenticate_me_post (P : codec) (C : channel ω) (srv : ω → ω) (w : ω)
    (name : String) (creds out : Bytes) :
    client_post authenticate_me_tag
      (client_exchange P C srv w
        { opt_function_name := some authenticate_me_tag, str_inputs := [name], buf_inputs := [creds] })
      (rpc_authenticate_me P C srv w name creds out) := by
  simp only [rpc_authenticate_me, rpc_call.fresh, rpc_call.set_function_name,
    rpc_call.add_str_inputs, rpc_call.add_buf_inputs, rpc_call.add_int_inputs,
    List.nil_append, List.cons_append]
  generalize client_exchange P C srv w _ = x
  cases hx : x.output_call_struct with
  | none => simp [client_post, hx]
  | some o =>
    simp only [client_post, hx]
    split_ifs <;> try split
    all_goals simp_all

theorem rpc_verify_me_post (P : codec) (C : channel ω) (srv : ω → ω) (w : ω)
    (name : String) (sig : Bytes) :
    client_post verify_me_tag
      (client_exchange P C srv w
        { opt_function_name := some verify_me_tag, str_inputs := [name], buf_inputs := [sig] })
      (rpc_verify_me P C srv w name sig) := by
  simp only [rpc_verify_me, rpc_call.fresh, rpc_call.set_function_name,
    rpc_call.add_str_inputs, rpc_call.add_buf_inputs, rpc_call.add_int_inputs,
    List.nil_append, List.cons_append]
  generalize client_exchange P C srv w _ = x
  cases hx : x.output_call_struct with
  | none => simp [client_post, hx]
  | some o =>
    simp only [client_post, hx]
    split_ifs <;> try split
    all_goals simp_all

theorem rpc_open_resource_post (P : codec) (C : channel ω) (srv : ω → ω) (w : ω)
    (name mode : String) (d : Int) :
    client_post open_resource_tag
      (client_exchange P C srv w
        { opt_function_name := some open_resource_tag, str_inputs := [name, mode] })
      (rpc_open_resource P C srv w name mode d) := by
  simp only [rpc_open_resource, rpc_call.fresh, rpc_call.set_function_name,
    rpc_call.add_str_inputs, rpc_call.add_buf_inputs, rpc_call.add_int_inputs,
    List.nil_append, List.cons_append]
  generalize client_exchange P C srv w _ = x
  cases hx : x.output_call_struct with
  | none => simp [client_post, hx]
  | some o =>
    simp only [client_post, hx]
    split_ifs <;> try split
    all_goals simp_all

theorem rpc_read_resource_post (P : codec) (C : channel ω) (srv : ω → ω) (w : ω)
    (name : String) (d n : Int) (out : Bytes) :
    client_post read_resource_tag
      (client_exchange P C srv w
        { opt_function_name := some read_resource_tag, str_inputs := [name], int_inputs := [d, n] })
      (rpc_read_resource P C srv w name d n out) := by
  simp only [rpc_read_resource, rpc_call.fresh, rpc_call.set_function_name,
    rpc_call.add_str_inputs, rpc_call.add_buf_inputs, rpc_call.add_int_inputs,
    List.nil_append, List.cons_append]
  generalize client_exchange P C srv w _ = x
  cases hx : x.output_call_struct with
  | none => simp [client_post, hx]
  | some o =>
    simp only [client_post, hx]
    split_ifs <;> try split
    all_goals simp_all

theorem rpc_write_resource_post (P : codec) (C : channel ω) (srv : ω → ω) (w : ω)
    (name : String) (d : Int) (bytes : Bytes) :
    client_post write_resource_tag
      (client_exchange P C srv w
        { opt_function_name := some write_resource_tag, str_inputs := [name], buf_inputs := [bytes],
          int_inputs := [d, int32_t bytes.length] })
      (rpc_write_resource P C srv w name d bytes) := by
  simp only [rpc_write_resource, rpc_call.fresh, rpc_call.set_function_name,
    rpc_call.add_str_inputs, rpc_call.add_buf_inputs, rpc_call.add_int_inputs,
    List.nil_append, List.cons_append]
  generalize client_exchange P C srv w _ = x
  cases hx : x.output_call_struct with
  | none => simp [client_post, hx]
  | some o =>
    simp only [client_post, hx]
    split_ifs <;> try split
    all_goals simp_all

theorem rpc_close_resource_post (P : codec) (C : channel ω) (srv : ω → ω) (w : ω)
    (name : String) (d : Int) :
    client_post close_resource_tag
      (client_exchange P C srv w
        { opt_function_name := some close_resource_tag, str_inputs := [name], int_inputs := [d] })
      (rpc_close_resource P C srv w name d) := by
  simp only [rpc_close_resource, rpc_call.fresh, rpc_call.set_function_name,
    rpc_call.add_str_inputs, rpc_call.add_buf_inputs, rpc_call.add_int_inputs,
    List.nil_append, List.cons_append]
  generalize client_exchange P C srv w _ = x
  cases hx : x.output_call_struct with
  | none => simp [client_post, hx]
  | some o =>
    simp only [client_post, hx]
    split_ifs <;> try split
    all_goals simp_all

theorem rpc_add_access_right_post (P : codec) (C : channel ω) (srv : ω → ω) (w : ω)
    (name prin right : String) :
    client_post add_access_right_tag
      (client_exchange P C srv w
        { opt_function_name := some add_access_right_tag, str_inputs := [name, right, prin] })
      (rpc_add_access_right P C srv w name prin right) := by
  simp only [rpc_add_access_right, rpc_call.fresh, rpc_call.set_function_name,
    rpc_call.add_str_inputs, rpc_call.add_buf_inputs, rpc_call.add_int_inputs,
    List.nil_append, List.cons_append]
  generalize client_exchange P C srv w _ = x
  cases hx : x.output_call_struct with
  | none => simp [client_post, hx]
  | some o =>
    simp only [client_post, hx]
    split_ifs <;> try split
    all_goals simp_all

theorem rpc_delete_resource_post (P : codec) (C : channel ω) (srv : ω → ω) (w : ω)
    (name type : String) :
    client_post delete_resource_tag
      (client_exchange P C srv w
        { opt_function_name := some delete_resource_tag, str_inputs := [name, type] })
      (rpc_delete_resource P C srv w name type) := by
  simp only [rpc_delete_resource, rpc_call.fresh, rpc_call.set_function_name,
    rpc_call.add_str_inputs, rpc_call.add_buf_inputs, rpc_call.add_int_inputs,
    List.nil_append, List.cons_append]
  generalize client_exchange P C srv w _ = x
  cases hx : x.output_call_struct with
  | none => simp [client_post, hx]
  | some o =>
    simp only [client_post, hx]
    split_ifs <;> try split
    all_goals simp_all

theorem rpc_create_resource_post (P : codec) (C : channel ω) (srv : ω → ω) (w : ω)
    (rm : resource_message) :
    match P.serialize_resource rm with
    | none =>
      (rpc_create_resource P C srv w rm).ret = some false ∧ (rpc_create_resource P C srv w rm).writes = [] ∧
      (rpc_create_resource P C srv w rm).reads = []
    | some serialized =>
      client_post create_resource_tag
        (client_exchange P C srv w
          { opt_function_name := some create_resource_tag, buf_inputs := [serialized] })
        (rpc_create_resource P C srv w rm) := by
  simp only [rpc_create_resource, rpc_call.fresh, rpc_call.set_function_name,
    rpc_call.add_str_inputs, rpc_call.add_buf_inputs, rpc_call.add_int_inputs,
    List.nil_append, List.cons_append]
  cases hs : P.serialize_resource rm with
  | none => simp
  | some serialized =>
    simp only []
    generalize client_exchange P C srv w _ = x
    cases hx : x.output_call_struct with
    | none => simp [client_post, hx]
    | some o =>
      simp only [client_post, hx]
      split_ifs <;> simp_all

theorem rpc_add_principal_post (P : codec) (C : channel ω) (srv : ω → ω) (w : ω)
    (pm : principal_message) :
    match P.serialize_principal pm with
    | none =>
      (rpc_add_principal P C srv w pm).ret = some false ∧ (rpc_add_principal P C srv w pm).writes = [] ∧
      (rpc_add_principal P C srv w pm).reads = []
    | some serialized =>
      client_post add_principal_tag
        (client_exchange P C srv w
          { opt_function_name := some add_principal_tag, buf_inputs := [serialized] })
        (rpc_add_principal P C srv w pm) := by
  simp only [rpc_add_principal, rpc_call.fresh, rpc_call.set_function_name,
    rpc_call.add_str_inputs, rpc_call.add_buf_inputs, rpc_call.add_int_inputs,
    List.nil_append, List.cons_append]
  cases hs : P.serialize_principal pm with
  | none => simp
  | some serialized =>
    simp only []
    generalize client_exchange P C srv w _ = x
    cases hx : x.output_call_struct with
    | none => simp [client_post, hx]
    | some o =>
      simp only [client_post, hx]
      split_ifs <;> simp_all

end client_lemmas
/-! ## Client dispatch: the claims -/

section client_claims
variable {ω : Type}

theorem sends_of_client_post {α : Type} (P : codec) (C : channel ω) (srv : ω → ω) (w : ω)
    (tag : String) (E : rpc_call) (r : rpc_return ω α)
    (h : client_post tag (client_exchange P C srv w E) r) : sends_request P E r.writes := by
  rw [h.1]
  exact client_exchange_sends P C srv w E

theorem rejects_of_client_post {α : Type} (P : codec) (C : channel ω) (srv : ω → ω) (w : ω)
    (tag : String) (E : rpc_call) (r : rpc_return ω α)
    (h : client_post tag (client_exchange P C srv w E) r) : rejects_other_tags P tag r := by
  intro rd hrd reply hparse hne
  obtain ⟨-, hreads, -, hnone, htag, -⟩ := h
  rw [hreads] at hrd
  rcases client_exchange_reply P C srv w E rd hrd with h0 | h1
  · exact hnone h0
  · rw [hparse] at h1
    exact htag reply h1 hne

/-- C9: each of the ten wired client methods sends one request envelope and nothing
else (`sends_request`), and that envelope has the operation's tag as `function_name`,
the string, buffer and integer inputs of the layout table in the table's order, no
further input, no status and no output. `rpc_write_resource` sends the 32-bit value of
the buffer's length as `n`; `rpc_create_resource` and `rpc_add_principal` send the
serialized message, and nothing when it does not serialize. -/
theorem client_requests_follow_layout (P : codec) (C : channel ω) (srv : ω → ω) (w : ω) :
    (∀ name creds out,
      sends_request P
        { opt_function_name := some authenticate_me_tag, str_inputs := [name],
          buf_inputs := [creds] }
        (rpc_authenticate_me P C srv w name creds out).writes) ∧
    (∀ name signed_nonce,
      sends_request P
        { opt_function_name := some verify_me_tag, str_inputs := [name],
          buf_inputs := [signed_nonce] }
        (rpc_verify_me P C srv w name signed_nonce).writes) ∧
    (∀ name mode d,
      sends_request P
        { opt_function_name := some open_resource_tag, str_inputs := [name, mode] }
        (rpc_open_resource P C srv w name mode d).writes) ∧
    (∀ name d n out,
      sends_request P
        { opt_function_name := some read_resource_tag, str_inputs := [name],
          int_inputs := [d, n] }
        (rpc_read_resource P C srv w name d n out).writes) ∧
    (∀ name d bytes,
      sends_request P
        { opt_function_name := some write_resource_tag, str_inputs := [name],
          buf_inputs := [bytes], int_inputs := [d, int32_t bytes.length] }
        (rpc_write_resource P C srv w name d bytes).writes) ∧
    (∀ name d,
      sends_request P
        { opt_function_name := some close_resource_tag, str_inputs := [name],
          int_inputs := [d] }
        (rpc_close_resource P C srv w name d).writes) ∧
    (∀ name new_principal right,
      sends_request P
        { opt_function_name := some add_access_right_tag,
          str_inputs := [name, right, new_principal] }
        (rpc_add_access_right P C srv w name new_principal right).writes) ∧
    (∀ rm,
      match P.serialize_resource rm with
      | none => (rpc_create_resource P C srv w rm).writes = []
      | some serialized_resource =>
        sends_request P
          { opt_function_name := some create_resource_tag,
            buf_inputs := [serialized_resource] }
          (rpc_create_resource P C srv w rm).writes) ∧
    (∀ name type,
      sends_request P
        { opt_function_name := some delete_resource_tag, str_inputs := [name, type] }
        (rpc_delete_resource P C srv w name type).writes) ∧
    (∀ pm,
      match P.serialize_principal pm with
      | none => (rpc_add_principal P C srv w pm).writes = []
      | some serialized_principal =>
        sends_request P
          { opt_function_name := some add_principal_tag,
            buf_inputs := [serialized_principal] }
          (rpc_add_principal P C srv w pm).writes) := by
  refine ⟨?_, ?_, ?_, ?_, ?_, ?_, ?_, ?_, ?_, ?_⟩
  · intro name creds out
    exact sends_of_client_post P C srv w _ _ _ (rpc_authenticate_me_post P C srv w name creds out)
  · intro name sig
    exact sends_of_client_post P C srv w _ _ _ (rpc_verify_me_post P C srv w name sig)
  · intro name mode d
    exact sends_of_client_post P C srv w _ _ _ (rpc_open_resource_post P C srv w name mode d)
  · intro name d n out
    exact sends_of_client_post P C srv w _ _ _ (rpc_read_resource_post P C srv w name d n out)
  · intro name d bytes
    exact sends_of_client_post P C srv w _ _ _ (rpc_write_resource_post P C srv w name d bytes)
  · intro name d
    exact sends_of_client_post P C srv w _ _ _ (rpc_close_resource_post P C srv w name d)
  · intro name prin right
    exact sends_of_client_post P C srv w _ _ _
      (rpc_add_access_right_post P C srv w name prin right)
  · intro rm
    have h := rpc_create_resource_post P C srv w rm
    cases hs : P.serialize_resource rm with
    | none => rw [hs] at h; exact h.2.1
    | some sr => rw [hs] at h; exact sends_of_client_post P C srv w _ _ _ h
  · intro name type
    exact sends_of_client_post P C srv w _ _ _ (rpc_delete_resource_post P C srv w name type)
  · intro pm
    have h := rpc_add_principal_post P C srv w pm
    cases hs : P.serialize_principal pm with
    | none => rw [hs] at h; exact h.2.1
    | some sr => rw [hs] at h; exact sends_of_client_post P C srv w _ _ _ h

/-- C9, on the sample client: `rpc_verify_me` and `rpc_open_resource` write exactly the
envelopes of the layout table. -/
theorem client_requests_follow_layout_witness :
    ((rpc_verify_me sample_codec queue_channel.ops id (sample_client [1]) "alice"
        [1, 2]).writes.map (fun wr => wr.message) =
      [{ opt_function_name := some "verify_me", str_inputs := ["alice"],
         buf_inputs := [[1, 2]] }]) ∧
    sends_request sample_codec
      { opt_function_name := some open_resource_tag, str_inputs := ["doc1", "read"] }
      (rpc_open_resource sample_codec queue_channel.ops id (sample_client [9]) "doc1" "read"
        (-1)).writes :=
  ⟨by decide,
   (client_requests_follow_layout sample_codec queue_channel.ops id
      (sample_client [9])).2.2.1 "doc1" "read" (-1)⟩

/-- C10: every client method returns false for every reply whose `function_name`
differs from the tag the method sent (`rejects_other_tags`), whatever the reply's
status and outputs; `rpc_delete_principal`, which sends nothing, returns false
always. -/
theorem client_rejects_mismatched_tag (P : codec) (C : channel ω) (srv : ω → ω) (w : ω) :
    (∀ name creds out,
      rejects_other_tags P authenticate_me_tag
        (rpc_authenticate_me P C srv w name creds out)) ∧
    (∀ name signed_nonce,
      rejects_other_tags P verify_me_tag (rpc_verify_me P C srv w name signed_nonce)) ∧
    (∀ name mode d,
      rejects_other_tags P open_resource_tag (rpc_open_resource P C srv w name mode d)) ∧
    (∀ name d n out,
      rejects_other_tags P read_resource_tag (rpc_read_resource P C srv w name d n out)) ∧
    (∀ name d bytes,
      rejects_other_tags P write_resource_tag (rpc_write_resource P C srv w name d bytes)) ∧
    (∀ name d,
      rejects_other_tags P close_resource_tag (rpc_close_resource P C srv w name d)) ∧
    (∀ name new_principal right,
      rejects_other_tags P add_access_right_tag
        (rpc_add_access_right P C srv w name new_principal right)) ∧
    (∀ rm, rejects_other_tags P create_resource_tag (rpc_create_resource P C srv w rm)) ∧
    (∀ name type,
      rejects_other_tags P delete_resource_tag (rpc_delete_resource P C srv w name type)) ∧
    (∀ pm, rejects_other_tags P add_principal_tag (rpc_add_principal P C srv w pm)) ∧
    (∀ name, (rpc_delete_principal w name).ret = some false) := by
  refine ⟨?_, ?_, ?_, ?_, ?_, ?_, ?_, ?_, ?_, ?_, ?_⟩
  · intro name creds out
    exact rejects_of_client_post P C srv w _ _ _ (rpc_authenticate_me_post P C srv w name creds out)
  · intro name sig
    exact rejects_of_client_post P C srv w _ _ _ (rpc_verify_me_post P C srv w name sig)
  · intro name mode d
    exact rejects_of_client_post P C srv w _ _ _ (rpc_open_resource_post P C srv w name mode d)
  · intro name d n out
    exact rejects_of_client_post P C srv w _ _ _ (rpc_read_resource_post P C srv w name d n out)
  · intro name d bytes
    exact rejects_of_client_post P C srv w _ _ _ (rpc_write_resource_post P C srv w name d bytes)
  · intro name d
    exact rejects_of_client_post P C srv w _ _ _ (rpc_close_resource_post P C srv w name d)
  · intro name prin right
    exact rejects_of_client_post P C srv w _ _ _
      (rpc_add_access_right_post P C srv w name prin right)
  · intro rm
    have h := rpc_create_resource_post P C srv w rm
    cases hs : P.serialize_resource rm with
    | none =>
      rw [hs] at h
      intro rd hrd
      rw [h.2.2] at hrd
      cases hrd
    | some sr => rw [hs] at h; exact rejects_of_client_post P C srv w _ _ _ h
  · intro name type
    exact rejects_of_client_post P C srv w _ _ _ (rpc_delete_resource_post P C srv w name type)
  · intro pm
    have h := rpc_add_principal_post P C srv w pm
    cases hs : P.serialize_principal pm with
    | none =>
      rw [hs] at h
      intro rd hrd
      rw [h.2.2] at hrd
      cases hrd
    | some sr => rw [hs] at h; exact rejects_of_client_post P C srv w _ _ _ h
  · intro name
    rfl

/-- C10, on the sample client whose transport answers with the authenticate_me reply
(status true, one buffer output): `rpc_verify_me` reads that reply and returns false,
and so does `rpc_open_resource`. -/
theorem client_rejects_mismatched_tag_witness :
    (rpc_verify_me sample_codec queue_channel.ops id (sample_client [5]) "alice" [1, 2]).reads =
      [{ bytes_read := 1, out := [5] }] ∧
    sample_codec.parse_call [5] =
      some { opt_function_name := some "authenticate_me", opt_status := some true,
             buf_outputs := [[9, 9]] } ∧
    (rpc_verify_me sample_codec queue_channel.ops id (sample_client [5]) "alice" [1, 2]).ret =
      some false ∧
    (rpc_open_resource sample_codec queue_channel.ops id (sample_client [5]) "doc1" "read"
      (-1)).ret = some false :=
  ⟨by decide, by decide,
   (client_rejects_mismatched_tag sample_codec queue_channel.ops id
      (sample_client [5])).2.1 "alice" [1, 2] { bytes_read := 1, out := [5] } (by decide)
      { opt_function_name := some "authenticate_me", opt_status := some true,
        buf_outputs := [[9, 9]] } (by decide) (by decide),
   (client_rejects_mismatched_tag sample_codec queue_channel.ops id
      (sample_client [5])).2.2.1 "doc1" "read" (-1) { bytes_read := 1, out := [5] } (by decide)
      { opt_function_name := some "authenticate_me", opt_status := some true,
        buf_outputs := [[9, 9]] } (by decide) (by decide)⟩

end client_claims
/-! ## Client dispatch: failures and the unwired method -/

section client_failure_claims
variable {ω : Type}

theorem client_exchange_trace (P : codec) (C : channel ω) (srv : ω → ω) (w : ω)
    (E : rpc_call) :
    (∀ wr ∈ (client_exchange P C srv w E).writes, wr.bytes_written < 0 →
      (client_exchange P C srv w E).output_call_struct = none) ∧
    (∀ rd ∈ (client_exchange P C srv w E).reads, rd.bytes_read < 0 →
      (client_exchange P C srv w E).output_call_struct = none) ∧
    (∀ o, (client_exchange P C srv w E).output_call_struct = some o →
      ∃ wr rd, (client_exchange P C srv w E).writes = [wr] ∧ 0 ≤ wr.bytes_written ∧
        (client_exchange P C srv w E).reads = [rd] ∧ 0 ≤ rd.bytes_read ∧
        P.parse_call rd.out = some o) := by
  unfold client_exchange
  cases h : P.serialize_call E with
  | none => simp
  | some enc =>
    simp only []
    split_ifs with h1 h2
    · simp [h1]
    · simp [h2]
    · simp [not_lt.mp h1, not_lt.mp h2]

theorem fails_of_client_post {α : Type} (P : codec) (C : channel ω) (srv : ω → ω) (w : ω)
    (tag : String) (E : rpc_call) (r : rpc_return ω α)
    (h : client_post tag (client_exchange P C srv w E) r) : fails_on_errors P r := by
  obtain ⟨hw, hr, -, hnone, -, hstat, htrue⟩ := h
  obtain ⟨t1, t2, t3⟩ := client_exchange_trace P C srv w E
  unfold fails_on_errors
  rw [hw, hr]
  refine ⟨fun wr hwr hlt => hnone (t1 wr hwr hlt), fun rd hrd hlt => hnone (t2 rd hrd hlt),
    ?_, ?_, ?_⟩
  · intro rd hrd hp
    rcases client_exchange_reply P C srv w E rd hrd with h0 | h1
    · exact hnone h0
    · rw [hp] at h1
      exact hnone h1
  · intro rd hrd reply hp hs
    rcases client_exchange_reply P C srv w E rd hrd with h0 | h1
    · exact hnone h0
    · rw [hp] at h1
      exact hstat reply h1 hs
  · intro ht
    obtain ⟨o, ho, -, hs⟩ := htrue ht
    obtain ⟨wr, rd, h1, h2, h3, h4, h5⟩ := t3 o ho
    exact ⟨wr, rd, o, h1, h2, h3, h4, h5, hs⟩

theorem fails_of_no_exchange {α : Type} (P : codec) (r : rpc_return ω α)
    (h : r.ret = some false ∧ r.writes = [] ∧ r.reads = []) : fails_on_errors P r := by
  obtain ⟨h1, h2, h3⟩ := h
  simp [fails_on_errors, h1, h2, h3]

/-- C11: every client method returns false whenever the channel write fails, the
channel read fails, the reply does not parse, or the reply's status is false, and
returns true only if the write and the read succeeded, the reply parsed and its status
is true (`fails_on_errors`). -/
theorem client_fails_on_errors (P : codec) (C : channel ω) (srv : ω → ω) (w : ω) :
    (∀ name creds out, fails_on_errors P (rpc_authenticate_me P C srv w name creds out)) ∧
    (∀ name signed_nonce, fails_on_errors P (rpc_verify_me P C srv w name signed_nonce)) ∧
    (∀ name mode d, fails_on_errors P (rpc_open_resource P C srv w name mode d)) ∧
    (∀ name d n out, fails_on_errors P (rpc_read_resource P C srv w name d n out)) ∧
    (∀ name d bytes, fails_on_errors P (rpc_write_resource P C srv w name d bytes)) ∧
    (∀ name d, fails_on_errors P (rpc_close_resource P C srv w name d)) ∧
    (∀ name new_principal right,
      fails_on_errors P (rpc_add_access_right P C srv w name new_principal right)) ∧
    (∀ rm, fails_on_errors P (rpc_create_resource P C srv w rm)) ∧
    (∀ name type, fails_on_errors P (rpc_delete_resource P C srv w name type)) ∧
    (∀ pm, fails_on_errors P (rpc_add_principal P C srv w pm)) ∧
    (∀ name, fails_on_errors P (rpc_delete_principal w name)) := by
  refine ⟨?_, ?_, ?_, ?_, ?_, ?_, ?_, ?_, ?_, ?_, ?_⟩
  · intro name creds out
    exact fails_of_client_post P C srv w _ _ _ (rpc_authenticate_me_post P C srv w name creds out)
  · intro name sig
    exact fails_of_client_post P C srv w _ _ _ (rpc_verify_me_post P C srv w name sig)
  · intro name mode d
    exact fails_of_client_post P C srv w _ _ _ (rpc_open_resource_post P C srv w name mode d)
  · intro name d n out
    exact fails_of_client_post P C srv w _ _ _ (rpc_read_resource_post P C srv w name d n out)
  · intro name d bytes
    exact fails_of_client_post P C srv w _ _ _ (rpc_write_resource_post P C srv w name d bytes)
  · intro name d
    exact fails_of_client_post P C srv w _ _ _ (rpc_close_resource_post P C srv w name d)
  · intro name prin right
    exact fails_of_client_post P C srv w _ _ _
      (rpc_add_access_right_post P C srv w name prin right)
  · intro rm
    have h := rpc_create_resource_post P C srv w rm
    cases hs : P.serialize_resource rm with
    | none => rw [hs] at h; exact fails_of_no_exchange P _ h
    | some sr => rw [hs] at h; exact fails_of_client_post P C srv w _ _ _ h
  · intro name type
    exact fails_of_client_post P C srv w _ _ _ (rpc_delete_resource_post P C srv w name type)
  · intro pm
    have h := rpc_add_principal_post P C srv w pm
    cases hs : P.serialize_principal pm with
    | none => rw [hs] at h; exact fails_of_no_exchange P _ h
    | some sr => rw [hs] at h; exact fails_of_client_post P C srv w _ _ _ h
  · intro name
    exact fails_of_no_exchange P _ ⟨rfl, rfl, rfl⟩

/-- C11, on the sample client: `rpc_verify_me` returns false on a reply with status
false (message 12) and on a transport with nothing to read, and returns true on the
reply with status true (message 1). -/
theorem client_fails_on_errors_witness :
    (rpc_verify_me sample_codec queue_channel.ops id (sample_client [12]) "mallory" [6]).ret =
      some false ∧
    (rpc_verify_me sample_codec queue_channel.ops id { incoming := [], outgoing := [] }
      "alice" [1, 2]).ret = some false ∧
    (rpc_verify_me sample_codec queue_channel.ops id (sample_client [1]) "alice" [1, 2]).ret =
      some true :=
  ⟨((client_fails_on_errors sample_codec queue_channel.ops id
      (sample_client [12])).2.1 "mallory" [6]).2.2.2.1 { bytes_read := 1, out := [12] }
      (by decide) { opt_function_name := some "verify_me", opt_status := some false }
      (by decide) (by decide),
   ((client_fails_on_errors sample_codec queue_channel.ops id
      { incoming := [], outgoing := [] }).2.1 "alice" [1, 2]).2.1
      { bytes_read := -1, out := [] } (by decide) (by decide),
   by decide⟩

end client_failure_claims
/-! ## The unwired method, the order of the access-right strings, and arity before use -/

section wiring_claims
variable {ω χ γ : Type}

theorem never_sends_of_sends (P : codec) (E : rpc_call) (tag : String)
    (writes : List channel_write_record) (h : sends_request P E writes)
    (hne : E.function_name ≠ tag) : never_sends tag writes := by
  intro wr hwr
  rw [(h.1 wr hwr).1]
  exact hne

/-- C14: `rpc_delete_principal` returns false, calls neither `channel_write` nor
`channel_read` and leaves the transport as it was; and none of the ten wired methods
ever writes an envelope with the tag `delete_principal`, so no such request reaches the
server from this client. -/
theorem rpc_delete_principal_sends_nothing (P : codec) (C : channel ω) (srv : ω → ω)
    (w : ω) :
    (∀ name, (rpc_delete_principal w name).ret = some false ∧
      (rpc_delete_principal w name).writes = [] ∧
      (rpc_delete_principal w name).reads = [] ∧
      (rpc_delete_principal w name).world = w) ∧
    (∀ name creds out,
      never_sends delete_principal_tag (rpc_authenticate_me P C srv w name creds out).writes) ∧
    (∀ name signed_nonce,
      never_sends delete_principal_tag (rpc_verify_me P C srv w name signed_nonce).writes) ∧
    (∀ name mode d,
      never_sends delete_principal_tag (rpc_open_resource P C srv w name mode d).writes) ∧
    (∀ name d n out,
      never_sends delete_principal_tag (rpc_read_resource P C srv w name d n out).writes) ∧
    (∀ name d bytes,
      never_sends delete_principal_tag (rpc_write_resource P C srv w name d bytes).writes) ∧
    (∀ name d,
      never_sends delete_principal_tag (rpc_close_resource P C srv w name d).writes) ∧
    (∀ name new_principal right,
      never_sends delete_principal_tag
        (rpc_add_access_right P C srv w name new_principal right).writes) ∧
    (∀ rm, never_sends delete_principal_tag (rpc_create_resource P C srv w rm).writes) ∧
    (∀ name type,
      never_sends delete_principal_tag (rpc_delete_resource P C srv w name type).writes) ∧
    (∀ pm, never_sends delete_principal_tag (rpc_add_principal P C srv w pm).writes) := by
  refine ⟨fun name => ⟨rfl, rfl, rfl, rfl⟩, ?_, ?_, ?_, ?_, ?_, ?_, ?_, ?_, ?_, ?_⟩
  · intro name creds out
    exact never_sends_of_sends P _ _ _
      (sends_of_client_post P C srv w _ _ _ (rpc_authenticate_me_post P C srv w name creds out))
      (by simp [rpc_call.function_name])
  · intro name sig
    exact never_sends_of_sends P _ _ _
      (sends_of_client_post P C srv w _ _ _ (rpc_verify_me_post P C srv w name sig))
      (by simp [rpc_call.function_name])
  · intro name mode d
    exact never_sends_of_sends P _ _ _
      (sends_of_client_post P C srv w _ _ _ (rpc_open_resource_post P C srv w name mode d))
      (by simp [rpc_call.function_name])
  · intro name d n out
    exact never_sends_of_sends P _ _ _
      (sends_of_client_post P C srv w _ _ _ (rpc_read_resource_post P C srv w name d n out))
      (by simp [rpc_call.function_name])
  · intro name d bytes
    exact never_sends_of_sends P _ _ _
      (sends_of_client_post P C srv w _ _ _ (rpc_write_resource_post P C srv w name d bytes))
      (by simp [rpc_call.function_name])
  · intro name d
    exact never_sends_of_sends P _ _ _
      (sends_of_client_post P C srv w _ _ _ (rpc_close_resource_post P C srv w name d))
      (by simp [rpc_call.function_name])
  · intro name prin right
    exact never_sends_of_sends P _ _ _
      (sends_of_client_post P C srv w _ _ _
        (rpc_add_access_right_post P C srv w name prin right))
      (by simp [rpc_call.function_name])
  · intro rm
    have h := rpc_create_resource_post P C srv w rm
    cases hs : P.serialize_resource rm with
    | none =>
      rw [hs] at h
      intro wr hwr
      rw [h.2.1] at hwr
      cases hwr
    | some sr =>
      rw [hs] at h
      exact never_sends_of_sends P _ _ _ (sends_of_client_post P C srv w _ _ _ h) (by simp [rpc_call.function_name])
  · intro name type
    exact never_sends_of_sends P _ _ _
      (sends_of_client_post P C srv w _ _ _ (rpc_delete_resource_post P C srv w name type))
      (by simp [rpc_call.function_name])
  · intro pm
    have h := rpc_add_principal_post P C srv w pm
    cases hs : P.serialize_principal pm with
    | none =>
      rw [hs] at h
      intro wr hwr
      rw [h.2.1] at hwr
      cases hwr
    | some sr =>
      rw [hs] at h
      exact never_sends_of_sends P _ _ _ (sends_of_client_post P C srv w _ _ _ h) (by simp [rpc_call.function_name])

theorem add_access_rights_of_layout (P : codec) (name right prin : String) (c : guard_call)
    (h : call_follows_layout P
      { opt_function_name := some add_access_right_tag, str_inputs := [name, right, prin] }
      c) :
    c = guard_call.add_access_rights name right prin := by
  cases c <;> simp [call_follows_layout, rpc_call.function_name] at h
  obtain ⟨h1, h2, h3⟩ := h
  rw [h1, h2, h3]

/-- C19: `rpc_add_access_right(res, prin, right)`, whose parameters come in the order
resource, delegated principal, right, sends the strings in the order
`[res, right, prin]`; and the server, on the request with those strings, invokes
exactly `add_access_rights(res, right, prin)`. The right and the principal reach the
guard in the positions of its declaration. -/
theorem add_access_right_order_end_to_end (P : codec) (C : channel ω) (srv : ω → ω)
    (w : ω) (Cs : channel χ) (G : guard_ops γ) (res prin right : String) :
    sends_request P
      { opt_function_name := some add_access_right_tag, str_inputs := [res, right, prin] }
      (rpc_add_access_right P C srv w res prin right).writes ∧
    ∀ s : acl_server_dispatch χ γ, s.initialized_ = true →
      0 ≤ (Cs.channel_read s.channel_descriptor_).bytes_read →
      P.parse_call (Cs.channel_read s.channel_descriptor_).out =
        some { opt_function_name := some add_access_right_tag,
               str_inputs := [res, right, prin] } →
      ∃ r, service_request P Cs G s = some r ∧
        r.calls = [guard_call.add_access_rights res right prin] ∧
        r.guard = (G.add_access_rights s.guard_ res right prin).guard := by
  refine ⟨sends_of_client_post P C srv w _ _ _
    (rpc_add_access_right_post P C srv w res prin right), ?_⟩
  intro s hinit hread hparse
  obtain ⟨r, hr, -, -, hcalls, -, hwf, -⟩ :=
    service_request_post P Cs G s _ hinit hread hparse
  refine ⟨r, hr, ?_⟩
  have hreq : has_required_inputs
      { opt_function_name := some add_access_right_tag, str_inputs := [res, right, prin] } := by
    simp [has_required_inputs, layout_arity, rpc_call.function_name]
  have hemb : ¬ embedded_message_unparsable P
      { opt_function_name := some add_access_right_tag, str_inputs := [res, right, prin] } := by
    simp [embedded_message_unparsable, rpc_call.function_name]
  rcases hcalls with ⟨hnil, -⟩ | ⟨c, hc, hlay, hg, -⟩
  · exact absurd ((hwf hreq).1.mp hnil) hemb
  · have hceq := add_access_rights_of_layout P res right prin c hlay
    rw [hceq] at hc hg
    exact ⟨hc, hg⟩

/-- C19, on the samples: the client call with (doc1, carol, reader) writes the strings
doc1, reader, carol, and the sample server holding that request invokes
add_access_rights(doc1, reader, carol). -/
theorem add_access_right_order_end_to_end_witness :
    (rpc_add_access_right sample_codec queue_channel.ops id (sample_client [14]) "doc1"
      "carol" "reader").writes.map (fun wr => wr.message.str_inputs) =
        [["doc1", "reader", "carol"]] ∧
    ∃ r, service_request sample_codec queue_channel.ops sample_guard (sample_server [13]) =
        some r ∧ r.calls = [guard_call.add_access_rights "doc1" "reader" "carol"] := by
  refine ⟨by decide, ?_⟩
  obtain ⟨r, hr, hc, -⟩ :=
    (add_access_right_order_end_to_end sample_codec queue_channel.ops id (sample_client [14])
      queue_channel.ops sample_guard "doc1" "carol" "reader").2 (sample_server [13])
      (by decide) (by decide) (by decide)
  exact ⟨r, hr, hc⟩

/-- C20: `service_request` never reads an input vector past its end (it always
returns a result), invokes at most one guard method per call, and invokes it only for
a parsed request that carries at least the string, buffer and integer inputs its tag
requires, with arguments taken from positions inside those vectors
(`call_follows_layout`). -/
theorem service_request_checks_arity_before_guard (P : codec) (C : channel χ)
    (G : guard_ops γ) (s : acl_server_dispatch χ γ) :
    ∃ r, service_request P C G s = some r ∧ r.calls.length ≤ 1 ∧
      ∀ c ∈ r.calls, ∃ input,
        P.parse_call (C.channel_read s.channel_descriptor_).out = some input ∧
        has_required_inputs input ∧ call_follows_layout P input c := by
  by_cases hinit : s.initialized_ = true
  · by_cases hread : 0 ≤ (C.channel_read s.channel_descriptor_).bytes_read
    · cases hparse : P.parse_call (C.channel_read s.channel_descriptor_).out with
      | none =>
        exact ⟨_, service_request_unparsed P C G s hinit hread hparse, by simp [return_true]⟩
      | some input =>
        obtain ⟨r, hr, -, -, hcalls, -, -, hnot⟩ :=
          service_request_post P C G s input hinit hread hparse
        refine ⟨r, hr, ?_, ?_⟩
        · rcases hcalls with ⟨hnil, -⟩ | ⟨c, hc, -⟩
          · simp [hnil]
          · simp [hc]
        · intro c hmem
          rcases hcalls with ⟨hnil, -⟩ | ⟨c2, hc, hlay, -⟩
          · rw [hnil] at hmem
            cases hmem
          · rw [hc] at hmem
            have hcc : c = c2 := by simpa using hmem
            subst hcc
            refine ⟨input, rfl, ?_, hlay⟩
            by_contra hreq
            rw [(hnot hreq).1] at hc
            cases hc
    · exact ⟨_, service_request_read_failed P C G s hinit (not_le.mp hread), by simp⟩
  · exact ⟨_, service_request_uninitialized P C G s (by simpa using hinit), by simp⟩

/-- C20, on the sample servers: the request with all its inputs gets its one guard
call, the write_resource request without its buffer gets none. -/
theorem service_request_checks_arity_before_guard_witness :
    (∃ r, service_request sample_codec queue_channel.ops sample_guard (sample_server [15]) =
        some r ∧ r.calls = [guard_call.write_resource "doc1" 0 5 [104, 105]] ∧
        r.calls.length ≤ 1) ∧
    (service_request sample_codec queue_channel.ops sample_guard (sample_server [10])).map
      (fun r => r.calls) = some [] := by
  refine ⟨?_, by decide⟩
  obtain ⟨r, hr, hlen, -⟩ :=
    service_request_checks_arity_before_guard sample_codec queue_channel.ops sample_guard
      (sample_server [15])
  refine ⟨r, hr, ?_, hlen⟩
  have h2 : (service_request sample_codec queue_channel.ops sample_guard
      (sample_server [15])).map (fun r => r.calls) =
        some [guard_call.write_resource "doc1" 0 5 [104, 105]] := by decide
  rw [hr] at h2
  simpa using h2

end wiring_claims
/-! ## The tables and the specified guard: the claims -/

section guard_claims
variable {σ χ : Type}

set_option maxRecDepth 20000

/-- C18: the compile-time capacities are 250 for the principal table, 250 for the
resource table and 50 for the per-session descriptor table, and the backing arrays
`principal_status_`, `principals_`, `resource_status_`, `resources_` and
`descriptor_entry_` of every table have exactly that many cells. -/
theorem table_capacities :
    max_principal_table_capacity = 250 ∧ max_resource_table_capacity = 250 ∧
    max_local_descriptors = 50 ∧
    (∀ t : acl_principal_table,
      t.principal_status_.cells.length = 250 ∧ t.principals_.cells.length = 250) ∧
    (∀ t : acl_resource_table,
      t.resource_status_.cells.length = 250 ∧ t.resources_.cells.length = 250) ∧
    (∀ t : acl_local_descriptor_table, t.descriptor_entry_.cells.length = 50) :=
  ⟨rfl, rfl, rfl,
   fun t => ⟨t.principal_status_.size_eq, t.principals_.size_eq⟩,
   fun t => ⟨t.resource_status_.size_eq, t.resources_.size_eq⟩,
   fun t => t.descriptor_entry_.size_eq⟩

theorem index_or_minus_one_nonneg (names : List String) (name : String) :
    0 ≤ index_or_minus_one names name ↔ name ∈ names := by
  unfold index_or_minus_one
  split_ifs with h
  · simp [List.indexOf_lt_length.mp h]
  · have hn : name ∉ names := fun hm => h (List.indexOf_lt_length.mpr hm)
    simp [hn]

/-- C17: for a resource entry holding the resource `r`, with `p` the session principal:
`can_read` holds iff `p` is on `r.readers` or `r.owners`, `can_write` iff on
`r.writers` or `r.owners`, `can_delete` iff on `r.deleters` or `r.owners`, `is_owner`
iff on `r.owners`; and `access_check` with the action read, write, delete or own is
`can_read`, `can_write`, `can_delete` or `is_owner`. -/
theorem access_predicates_by_list (S : acl_session σ) (resource_entry : Int)
    (r : resource_message)
    (hr : S.g_resource_table.resources_.read resource_entry = some r) :
    (channel_guard.can_read S resource_entry = true ↔
      S.guard_.principal_name_ ∈ r.readers ∨ S.guard_.principal_name_ ∈ r.owners) ∧
    (channel_guard.can_write S resource_entry = true ↔
      S.guard_.principal_name_ ∈ r.writers ∨ S.guard_.principal_name_ ∈ r.owners) ∧
    (channel_guard.can_delete S resource_entry = true ↔
      S.guard_.principal_name_ ∈ r.deleters ∨ S.guard_.principal_name_ ∈ r.owners) ∧
    (channel_guard.is_owner S resource_entry = true ↔
      S.guard_.principal_name_ ∈ r.owners) ∧
    channel_guard.access_check S resource_entry "read" =
      channel_guard.can_read S resource_entry ∧
    channel_guard.access_check S resource_entry "write" =
      channel_guard.can_write S resource_entry ∧
    channel_guard.access_check S resource_entry "delete" =
      channel_guard.can_delete S resource_entry ∧
    channel_guard.access_check S resource_entry "own" =
      channel_guard.is_owner S resource_entry := by
  refine ⟨?_, ?_, ?_, ?_, ?_, ?_, ?_, ?_⟩
  · simp [channel_guard.can_read, hr, on_reader_list, on_owner_list,
      index_or_minus_one_nonneg]
  · simp [channel_guard.can_write, hr, on_writer_list, on_owner_list,
      index_or_minus_one_nonneg]
  · simp [channel_guard.can_delete, hr, on_deleter_list, on_owner_list,
      index_or_minus_one_nonneg]
  · simp [channel_guard.is_owner, hr, on_owner_list, index_or_minus_one_nonneg]
  · simp [channel_guard.access_check]
  · simp [channel_guard.access_check]
  · simp [channel_guard.access_check]
  · simp [channel_guard.access_check]

/-- C17, on the sample session of alice and the resource doc1 (owner alice, reader
bob): alice may read because she is an owner. -/
theorem access_predicates_by_list_witness :
    channel_guard.can_read sample_session_alice 0 = true ∧
    channel_guard.access_check sample_session_alice 0 "write" =
      channel_guard.can_write sample_session_alice 0 :=
  ⟨(access_predicates_by_list sample_session_alice 0 sample_resource (by decide)).1.mpr
      (Or.inr (by decide)),
   (access_predicates_by_list sample_session_alice 0 sample_resource (by decide)).2.2.2.2.2.1⟩

theorem verify_me_clears_nonce (K : guard_env σ) (S : acl_session σ) (name : String)
    (signed_nonce : Bytes) :
    (channel_guard.verify_me K S name signed_nonce).guard.guard_.nonce_ = [] := by
  unfold channel_guard.verify_me
  split_ifs with h1 h2
  · exact h1
  · rfl
  · split
    · rfl
    · split_ifs <;> rfl

theorem verify_me_without_nonce (K : guard_env σ) (S : acl_session σ) (name : String)
    (signed_nonce : Bytes) (h : S.guard_.nonce_ = []) :
    (channel_guard.verify_me K S name signed_nonce).ret = false := by
  unfold channel_guard.verify_me
  rw [if_pos h]

theorem nonce_stays_cleared (K : guard_env σ) (S : acl_session σ) (c : guard_call)
    (h : S.guard_.nonce_ = [])
    (hc : ∀ name creds, c = guard_call.authenticate_me name creds →
      (spec_guard K).returns S c = false) :
    ((spec_guard K).state_after S c).guard_.nonce_ = [] := by
  cases c with
  | authenticate_me name creds =>
    have hf := hc name creds rfl
    simp only [guard_ops.returns, guard_ops.state_after, spec_guard,
      channel_guard.authenticate_me] at hf ⊢
    cases hp : S.g_principal_table.principals_.read
        (S.g_principal_table.find_principal_in_table name) with
    | none => simp only [hp]; exact h
    | some p =>
      simp only [hp] at hf ⊢
      by_cases hcred : p.credential ≠ creds
      · rw [if_pos hcred]; exact h
      · rw [if_neg hcred] at hf
        cases hf
  | verify_me name sig => exact verify_me_clears_nonce K S name sig
  | open_resource name mode =>
    simp only [guard_ops.state_after, spec_guard, channel_guard.open_resource]
    iterate 8 (all_goals (try (first | exact h | split)))
  | read_resource name d n =>
    simp only [guard_ops.state_after, spec_guard, channel_guard.read_resource]
    iterate 8 (all_goals (try (first | exact h | split)))
  | write_resource name d n b =>
    simp only [guard_ops.state_after, spec_guard, channel_guard.write_resource]
    iterate 8 (all_goals (try (first | exact h | split)))
  | close_resource name d =>
    simp only [guard_ops.state_after, spec_guard, channel_guard.close_resource]
    iterate 8 (all_goals (try (first | exact h | split)))
  | add_access_rights name right prin =>
    simp only [guard_ops.state_after, spec_guard, channel_guard.add_access_rights]
    iterate 8 (all_goals (try (first | exact h | split)))
  | delete_resource name type =>
    simp only [guard_ops.state_after, spec_guard, channel_guard.delete_resource]
    iterate 8 (all_goals (try (first | exact h | split)))
  | create_resource rm =>
    simp only [guard_ops.state_after, spec_guard, channel_guard.create_resource]
    iterate 8 (all_goals (try (first | exact h | split)))
  | add_principal pm =>
    simp only [guard_ops.state_after, spec_guard, channel_guard.add_principal]
    iterate 8 (all_goals (try (first | exact h | split)))
  | delete_principal name =>
    simp only [guard_ops.state_after, spec_guard, channel_guard.delete_principal]
    iterate 8 (all_goals (try (first | exact h | split)))

theorem nonce_cleared_after_run (K : guard_env σ) (cs : List guard_call) :
    ∀ S : acl_session σ, S.guard_.nonce_ = [] →
      no_successful_authenticate (spec_guard K) S cs →
      ((spec_guard K).run S cs).guard_.nonce_ = [] := by
  induction cs with
  | nil => intro S h _; exact h
  | cons c cs ih =>
    intro S h hno
    exact ih _ (nonce_stays_cleared K S c h hno.1) hno.2

/-- C16: in the specified guard, after a `verify_me` call, whatever its result, every
further `verify_me` fails, whatever guard calls are made in between, as long as none of
them is an `authenticate_me` that succeeds. -/
theorem verify_me_nonce_single_use (K : guard_env σ) (S : acl_session σ) (name : String)
    (signed_nonce : Bytes) (cs : List guard_call) (name2 : String) (signed_nonce2 : Bytes)
    (h : no_successful_authenticate (spec_guard K)
      ((spec_guard K).verify_me S name signed_nonce).guard cs) :
    ((spec_guard K).verify_me
      ((spec_guard K).run ((spec_guard K).verify_me S name signed_nonce).guard cs)
      name2 signed_nonce2).ret = false :=
  verify_me_without_nonce K _ name2 signed_nonce2
    (nonce_cleared_after_run K cs _ (verify_me_clears_nonce K S name signed_nonce) h)

/-- C16, on the sample session: alice authenticates and verifies with the signed nonce
(true); after an `open_resource` and a failed `authenticate_me` of mallory, the same
signed nonce is refused. -/
theorem verify_me_nonce_single_use_witness :
    ((spec_guard sample_env).verify_me
      (channel_guard.authenticate_me sample_env sample_session "alice" [80]).guard
      "alice" [9, 9]).ret = true ∧
    ((spec_guard sample_env).verify_me
      ((spec_guard sample_env).run
        ((spec_guard sample_env).verify_me
          (channel_guard.authenticate_me sample_env sample_session "alice" [80]).guard
          "alice" [9, 9]).guard
        [guard_call.open_resource "doc1" "read", guard_call.authenticate_me "mallory" [6]])
      "alice" [9, 9]).ret = false :=
  ⟨by decide,
   verify_me_nonce_single_use sample_env
     (channel_guard.authenticate_me sample_env sample_session "alice" [80]).guard
     "alice" [9, 9]
     [guard_call.open_resource "doc1" "read", guard_call.authenticate_me "mallory" [6]]
     "alice" [9, 9]
     ⟨(fun _ _ h => by cases h), (fun name creds h => by cases h; decide), trivial⟩⟩

theorem unauthenticated_call_fails (K : guard_env σ) (S : acl_session σ) (c : guard_call)
    (h : S.guard_.channel_principal_authenticated_ = false)
    (h1 : ∀ name creds, c ≠ guard_call.authenticate_me name creds)
    (h2 : ∀ name signed_nonce, c ≠ guard_call.verify_me name signed_nonce) :
    (spec_guard K).returns S c = false ∧ (spec_guard K).state_after S c = S := by
  cases c with
  | authenticate_me name creds => exact absurd rfl (h1 name creds)
  | verify_me name sig => exact absurd rfl (h2 name sig)
  | open_resource name mode =>
    simp only [guard_ops.returns, guard_ops.state_after, spec_guard, channel_guard.open_resource]
    rw [if_pos h]
    exact ⟨rfl, rfl⟩
  | read_resource name d n =>
    simp only [guard_ops.returns, guard_ops.state_after, spec_guard, channel_guard.read_resource]
    rw [if_pos h]
    exact ⟨rfl, rfl⟩
  | write_resource name d n b =>
    simp only [guard_ops.returns, guard_ops.state_after, spec_guard, channel_guard.write_resource]
    rw [if_pos h]
    exact ⟨rfl, rfl⟩
  | close_resource name d =>
    simp only [guard_ops.returns, guard_ops.state_after, spec_guard, channel_guard.close_resource]
    rw [if_pos h]
    exact ⟨rfl, rfl⟩
  | add_access_rights name right prin =>
    simp only [guard_ops.returns, guard_ops.state_after, spec_guard, channel_guard.add_access_rights]
    rw [if_pos h]
    exact ⟨rfl, rfl⟩
  | delete_resource name type =>
    simp only [guard_ops.returns, guard_ops.state_after, spec_guard, channel_guard.delete_resource]
    rw [if_pos h]
    exact ⟨rfl, rfl⟩
  | create_resource rm =>
    simp only [guard_ops.returns, guard_ops.state_after, spec_guard, channel_guard.create_resource]
    rw [if_pos h]
    exact ⟨rfl, rfl⟩
  | add_principal pm =>
    simp only [guard_ops.returns, guard_ops.state_after, spec_guard, channel_guard.add_principal]
    rw [if_pos h]
    exact ⟨rfl, rfl⟩
  | delete_principal name =>
    simp only [guard_ops.returns, guard_ops.state_after, spec_guard, channel_guard.delete_principal]
    rw [if_pos h]
    exact ⟨rfl, rfl⟩

/-- C15: with the specified guard and a session whose `channel_principal_authenticated`
is false, a request whose tag is neither `authenticate_me` nor `verify_me` leaves the
session and both tables exactly as they were; every guard method `service_request`
invokes for it returns false, and every reply written has status false. For a request
with the inputs of its layout (and an embedded message that parses) one guard method is
invoked, and a reply is written whenever serialization succeeds. -/
theorem unauthenticated_requests_fail (K : guard_env σ) (P : codec) (C : channel χ)
    (s : acl_server_dispatch χ (acl_session σ)) (input : rpc_call)
    (hinit : s.initialized_ = true)
    (hread : 0 ≤ (C.channel_read s.channel_descriptor_).bytes_read)
    (hparse : P.parse_call (C.channel_read s.channel_descriptor_).out = some input)
    (hunauth : s.guard_.guard_.channel_principal_authenticated_ = false)
    (h1 : input.function_name ≠ authenticate_me_tag)
    (h2 : input.function_name ≠ verify_me_tag) :
    ∃ r, service_request P C (spec_guard K) s = some r ∧ r.guard = s.guard_ ∧
      (∀ c ∈ r.calls, (spec_guard K).returns s.guard_ c = false) ∧
      (∀ w ∈ r.writes, w.message.status = false) ∧
      (has_required_inputs input → ¬ embedded_message_unparsable P input →
        r.calls.length = 1 ∧
        ((∀ m, (P.serialize_call m).isSome = true) → r.writes.length = 1)) := by
  obtain ⟨r, hr, -, -, hcalls, hw, hwf, -⟩ :=
    service_request_post P C (spec_guard K) s input hinit hread hparse
  refine ⟨r, hr, ?_⟩
  rcases hcalls with ⟨hnil, hg⟩ | ⟨c, hc, hlay, hg, hst⟩
  · refine ⟨hg, ?_, fun w hmem => (hw w hmem).2.2.2.1 hnil, ?_⟩
    · intro c hmem
      rw [hnil] at hmem
      cases hmem
    · intro hreq hemb
      exact absurd ((hwf hreq).1.mp hnil) hemb
  · have hfail := unauthenticated_call_fails K s.guard_ c hunauth
      (by
        intro name creds hceq
        rw [hceq] at hlay
        exact h1 hlay.1)
      (by
        intro name sig hceq
        rw [hceq] at hlay
        exact h2 hlay.1)
    refine ⟨by rw [hg, hfail.2], ?_, ?_, ?_⟩
    · intro c2 hmem
      rw [hc] at hmem
      have hcc : c2 = c := by simpa using hmem
      rw [hcc]
      exact hfail.1
    · intro w hmem
      rw [hst w hmem]
      exact hfail.1
    · intro hreq _
      exact ⟨by simp [hc], (hwf hreq).2⟩

/-- C15, on the sample session before authentication: the request open_resource(doc1,
read) is answered with status false, and the session is unchanged. -/
theorem unauthenticated_requests_fail_witness :
    ∃ r, service_request sample_codec queue_channel.ops (spec_guard sample_env)
        (sample_spec_server sample_session [8]) = some r ∧
      r.guard = sample_session ∧
      r.writes.map (fun w => w.message) =
        [{ opt_function_name := some "open_resource", opt_status := some false }] := by
  obtain ⟨r, hr, hg, -, -, -⟩ :=
    unauthenticated_requests_fail sample_env sample_codec queue_channel.ops
      (sample_spec_server sample_session [8])
      { opt_function_name := some "open_resource", str_inputs := ["doc1", "read"] }
      (by decide) (by decide) (by decide) (by decide) (by decide) (by decide)
  refine ⟨r, hr, hg, ?_⟩
  have h2 : (service_request sample_codec queue_channel.ops (spec_guard sample_env)
      (sample_spec_server sample_session [8])).map
        (fun r => r.writes.map (fun w => w.message)) =
      some [{ opt_function_name := some "open_resource", opt_status := some false }] := by
    decide
  rw [hr] at h2
  simpa using h2

theorem write_resource_of_layout (P : codec) (input : rpc_call) (c : guard_call)
    (name : String) (d n : Int) (b : Bytes)
    (htag : input.function_name = write_resource_tag)
    (hs : input.str_inputs[0]? = some name) (hd : input.int_inputs[0]? = some d)
    (hn : input.int_inputs[1]? = some n) (hb : input.buf_inputs[0]? = some b)
    (h : call_follows_layout P input c) :
    c = guard_call.write_resource name d n b := by
  cases c <;> simp [call_follows_layout, htag, hs, hd, hn, hb] at h
  obtain ⟨h1, h2, h3, h4⟩ := h
  rw [h1, h2, h3, h4]

theorem write_resource_mismatch (K : guard_env σ) (S : acl_session σ) (name : String)
    (d n : Int) (b : Bytes) (hne : n ≠ b.length) :
    (channel_guard.write_resource K S name d n b).ret = false ∧
    (channel_guard.write_resource K S name d n b).guard = S := by
  unfold channel_guard.write_resource
  split_ifs with h1
  · exact ⟨rfl, rfl⟩
  · split
    · exact ⟨rfl, rfl⟩
    · split_ifs
      · exact ⟨rfl, rfl⟩
      · exact ⟨rfl, rfl⟩

/-- C13: with the specified guard, a `write_resource` request whose integer argument
`n` (`int_inputs[1]`) differs from the length of the supplied buffer (`buf_inputs[0]`)
makes `service_request` invoke `write_resource` with that `n` and that buffer, leaves
the session as it was, and every reply written has status false (one is written
whenever serialization succeeds). -/
theorem write_resource_length_mismatch_fails (K : guard_env σ) (P : codec) (C : channel χ)
    (s : acl_server_dispatch χ (acl_session σ)) (input : rpc_call)
    (name : String) (d n : Int) (b : Bytes)
    (hinit : s.initialized_ = true)
    (hread : 0 ≤ (C.channel_read s.channel_descriptor_).bytes_read)
    (hparse : P.parse_call (C.channel_read s.channel_descriptor_).out = some input)
    (htag : input.function_name = write_resource_tag)
    (hs : input.str_inputs[0]? = some name) (hd : input.int_inputs[0]? = some d)
    (hn : input.int_inputs[1]? = some n) (hb : input.buf_inputs[0]? = some b)
    (hne : n ≠ b.length) :
    ∃ r, service_request P C (spec_guard K) s = some r ∧
      r.calls = [guard_call.write_resource name d n b] ∧ r.guard = s.guard_ ∧
      (∀ w ∈ r.writes, w.message.status = false) ∧
      ((∀ m, (P.serialize_call m).isSome = true) → r.writes.length = 1) := by
  obtain ⟨r, hr, -, -, hcalls, -, hwf, -⟩ :=
    service_request_post P C (spec_guard K) s input hinit hread hparse
  refine ⟨r, hr, ?_⟩
  have hreq : has_required_inputs input := by
    rcases hs2 : input.str_inputs with _ | ⟨s0, ss⟩
    · simp [hs2] at hs
    rcases hi2 : input.int_inputs with _ | ⟨i0, _ | ⟨i1, is⟩⟩
    · simp [hi2] at hd
    · simp [hi2] at hn
    rcases hb2 : input.buf_inputs with _ | ⟨b0, bs⟩
    · simp [hb2] at hb
    simp [has_required_inputs, layout_arity, htag, hs2, hi2, hb2]
  have hemb : ¬ embedded_message_unparsable P input := by
    simp [embedded_message_unparsable, htag]
  rcases hcalls with ⟨hnil, -⟩ | ⟨c, hc, hlay, hg, hst⟩
  · exact absurd ((hwf hreq).1.mp hnil) hemb
  · have hceq := write_resource_of_layout P input c name d n b htag hs hd hn hb hlay
    rw [hceq] at hc hg hst
    have hmis := write_resource_mismatch K s.guard_ name d n b hne
    refine ⟨hc, ?_, ?_, (hwf hreq).2⟩
    · rw [hg]
      exact hmis.2
    · intro w hmem
      rw [hst w hmem]
      exact hmis.1

/-- C13, on the sample session of alice with doc1 open for writing as descriptor 0: the
request write_resource(doc1, 0, 5, two bytes) is answered with status false, while the
guard accepts the same buffer with n = 2. -/
theorem write_resource_length_mismatch_fails_witness :
    (∃ r, service_request sample_codec queue_channel.ops (spec_guard sample_env)
        (sample_spec_server
          (channel_guard.open_resource sample_session_alice "doc1" "write").guard [15]) =
          some r ∧
      r.writes.map (fun w => w.message) =
        [{ opt_function_name := some "write_resource", opt_status := some false }]) ∧
    (channel_guard.write_resource sample_env
      (channel_guard.open_resource sample_session_alice "doc1" "write").guard
      "doc1" 0 2 [104, 105]).ret = true := by
  refine ⟨?_, by decide⟩
  obtain ⟨r, hr, -, -, hst, hlen⟩ :=
    write_resource_length_mismatch_fails sample_env sample_codec queue_channel.ops
      (sample_spec_server
        (channel_guard.open_resource sample_session_alice "doc1" "write").guard [15])
      { opt_function_name := some "write_resource", str_inputs := ["doc1"],
        buf_inputs := [[104, 105]], int_inputs := [0, 5] }
      "doc1" 0 5 [104, 105]
      (by decide) (by decide) (by decide) (by decide) (by decide) (by decide) (by decide)
      (by decide) (by decide)
  refine ⟨r, hr, ?_⟩
  have h2 : (service_request sample_codec queue_channel.ops (spec_guard sample_env)
      (sample_spec_server
        (channel_guard.open_resource sample_session_alice "doc1" "write").guard [15])).map
        (fun r => r.writes.map (fun w => w.message)) =
      some [{ opt_function_name := some "write_resource", opt_status := some false }] := by
    decide
  rw [hr] at h2
  simpa using h2

end guard_claims
/-! ## The simulated channel: client and guard agree -/

section simulated_claims
variable {γ : Type}

theorem int32_t_of_small (x : Int) (h0 : 0 ≤ x) (h1 : x ≤ 4096) : int32_t x = x := by
  unfold int32_t
  omega

theorem simulated_write_small (s : simulated_channel) (b : Bytes) (h : b.length ≤ 4096) :
    simulated_buf_write s (int32_t b.length) b =
      { bytes_written := b.length,
        channel :=
          { size_buf := b.length, simulated_buf := b ++ s.simulated_buf.drop b.length,
            memory_safe := s.memory_safe } } := by
  have hb : int32_t (b.length : Int) = b.length :=
    int32_t_of_small _ (Int.natCast_nonneg _) (by exact_mod_cast h)
  have hle : ¬ ((b.length : Int) > max_size_buf) := by
    unfold max_size_buf
    have : (b.length : Int) ≤ 4096 := by exact_mod_cast h
    omega
  rw [hb]
  unfold simulated_buf_write
  rw [if_neg hle]
  simp

theorem simulated_read_written (b rest : Bytes) (safe : Bool) (h : b.length ≤ 4096) :
    simulated_sized_buf_read
        { size_buf := b.length, simulated_buf := b ++ rest, memory_safe := safe } =
      { bytes_read := b.length, out := b,
        channel := { size_buf := 0, simulated_buf := b ++ rest, memory_safe := safe } } := by
  have hle : (b.length : Int) ≤ max_size_buf := by
    unfold max_size_buf
    exact_mod_cast h
  unfold simulated_sized_buf_read
  simp [hle]

theorem simulated_ops_write_small (s : simulated_channel) (b : Bytes)
    (h : b.length ≤ 4096) :
    simulated_channel.ops.channel_write s (int32_t b.length) b =
      { bytes_written := b.length,
        channel :=
          { size_buf := b.length, simulated_buf := b ++ s.simulated_buf.drop b.length,
            memory_safe := s.memory_safe } } := by
  rw [show simulated_channel.ops.channel_write = simulated_buf_write from rfl]
  exact simulated_write_small s b h

theorem inline_service_request_answers (P : codec) (G : guard_ops γ)
    (s : acl_server_dispatch simulated_channel γ) (E R : rpc_call) (g1 : γ)
    (calls : List guard_call) (encE encR rest : Bytes) (safe : Bool)
    (hinit : s.initialized_ = true)
    (hch : s.channel_descriptor_ =
      { size_buf := encE.length, simulated_buf := encE ++ rest, memory_safe := safe })
    (hpE : P.parse_call encE = some E) (hlE : encE.length ≤ 4096)
    (hsR : P.serialize_call R = some encR) (hlR : encR.length ≤ 4096)
    (hdisp : ∀ ch, dispatch P simulated_channel.ops G ch s.guard_ E =
      some (write_reply P simulated_channel.ops ch g1 calls R)) :
    inline_service_request P G s =
      { s with
        channel_descriptor_ :=
          { size_buf := encR.length,
            simulated_buf := encR ++ (encE ++ rest).drop encR.length, memory_safe := safe },
        guard_ := g1 } := by
  have hrd : simulated_channel.ops.channel_read s.channel_descriptor_ =
      { bytes_read := encE.length, out := encE,
        channel := { size_buf := 0, simulated_buf := encE ++ rest, memory_safe := safe } } := by
    rw [hch, show simulated_channel.ops.channel_read = simulated_sized_buf_read from rfl]
    exact simulated_read_written encE rest safe hlE
  have hsr : service_request P simulated_channel.ops G s =
      some (write_reply P simulated_channel.ops
        { size_buf := 0, simulated_buf := encE ++ rest, memory_safe := safe } g1 calls R) := by
    rw [service_request_parsed P simulated_channel.ops G s E hinit
      (by rw [hrd]; exact Int.natCast_nonneg _) (by rw [hrd]; exact hpE)]
    rw [hrd]
    exact hdisp _
  unfold inline_service_request
  rw [hsr]
  have hwr := simulated_ops_write_small
    { size_buf := 0, simulated_buf := encE ++ rest, memory_safe := safe } encR hlR
  simp only [write_reply, hsR, hwr]
  split_ifs <;> rfl

theorem simulated_exchange (P : codec) (G : guard_ops γ)
    (w : acl_server_dispatch simulated_channel γ) (E R : rpc_call) (g1 : γ)
    (calls : List guard_call) (hinit : w.initialized_ = true)
    (hE : transmits P E) (hR : transmits P R)
    (hdisp : ∀ ch, dispatch P simulated_channel.ops G ch w.guard_ E =
      some (write_reply P simulated_channel.ops ch g1 calls R)) :
    (client_exchange P simulated_client_channel (inline_service_request P G) w
      E).output_call_struct = some R ∧
    (client_exchange P simulated_client_channel (inline_service_request P G) w
      E).world.guard_ = g1 := by
  obtain ⟨encE, hsE, hpE, hlE⟩ := hE
  obtain ⟨encR, hsR, hpR, hlR⟩ := hR
  have hwr := simulated_write_small w.channel_descriptor_ encE hlE
  have hsrv := inline_service_request_answers P G
    { w with channel_descriptor_ :=
        { size_buf := encE.length,
          simulated_buf := encE ++ w.channel_descriptor_.simulated_buf.drop encE.length,
          memory_safe := w.channel_descriptor_.memory_safe } }
    E R g1 calls encE encR
    (w.channel_descriptor_.simulated_buf.drop encE.length) w.channel_descriptor_.memory_safe
    hinit rfl hpE hlE hsR hlR hdisp
  have hrd := simulated_read_written encR
    ((encE ++ w.channel_descriptor_.simulated_buf.drop encE.length).drop encR.length)
    w.channel_descriptor_.memory_safe hlR
  have h0 : ¬ ((encE.length : Int) < 0) := not_lt.mpr (Int.natCast_nonneg _)
  have h1 : ¬ ((encR.length : Int) < 0) := not_lt.mpr (Int.natCast_nonneg _)
  unfold client_exchange
  simp only [hsE, simulated_client_channel, hwr, hsrv, hrd, if_neg h0, if_neg h1]
  exact ⟨hpR, trivial⟩

theorem dispatch_authenticate_me_closed {χ : Type} (P : codec) (C : channel χ) (G : guard_ops γ)
    (ch : χ) (g : γ) (name : String) (creds : Bytes) :
    dispatch P C G ch g
        { opt_function_name := some authenticate_me_tag, str_inputs := [name],
          buf_inputs := [creds] } =
      some (write_reply P C ch (G.authenticate_me g name creds).guard [guard_call.authenticate_me name creds]
        (layout_reply authenticate_me_tag (G.authenticate_me g name creds).ret [(G.authenticate_me g name creds).out] [])) := by
  simp [dispatch, service_authenticate_me, rpc_call.function_name, layout_reply]
  cases (G.authenticate_me g name creds).ret <;> simp

theorem dispatch_verify_me_closed {χ : Type} (P : codec) (C : channel χ) (G : guard_ops γ)
    (ch : χ) (g : γ) (name : String) (sig : Bytes) :
    dispatch P C G ch g
        { opt_function_name := some verify_me_tag, str_inputs := [name], buf_inputs := [sig] } =
      some (write_reply P C ch (G.verify_me g name sig).guard [guard_call.verify_me name sig]
        (layout_reply verify_me_tag (G.verify_me g name sig).ret [] [])) := by
  simp [dispatch, service_verify_me, rpc_call.function_name, layout_reply]
  cases (G.verify_me g name sig).ret <;> simp

theorem dispatch_open_resource_closed {χ : Type} (P : codec) (C : channel χ) (G : guard_ops γ)
    (ch : χ) (g : γ) (name mode : String) :
    dispatch P C G ch g
        { opt_function_name := some open_resource_tag, str_inputs := [name, mode] } =
      some (write_reply P C ch (G.open_resource g name mode).guard [guard_call.open_resource name mode]
        (layout_reply open_resource_tag (G.open_resource g name mode).ret [] [(G.open_resource g name mode).out])) := by
  simp [dispatch, service_open_resource, rpc_call.function_name, layout_reply]
  cases (G.open_resource g name mode).ret <;> simp

theorem dispatch_read_resource_closed {χ : Type} (P : codec) (C : channel χ) (G : guard_ops γ)
    (ch : χ) (g : γ) (name : String) (d n : Int) :
    dispatch P C G ch g
        { opt_function_name := some read_resource_tag, str_inputs := [name],
          int_inputs := [d, n] } =
      some (write_reply P C ch (G.read_resource g name d n).guard [guard_call.read_resource name d n]
        (layout_reply read_resource_tag (G.read_resource g name d n).ret [(G.read_resource g name d n).out] [])) := by
  simp [dispatch, service_read_resource, rpc_call.function_name, layout_reply]
  cases (G.read_resource g name d n).ret <;> simp

theorem dispatch_write_resource_closed {χ : Type} (P : codec) (C : channel χ) (G : guard_ops γ)
    (ch : χ) (g : γ) (name : String) (d n : Int) (bytes : Bytes) :
    dispatch P C G ch g
        { opt_function_name := some write_resource_tag, str_inputs := [name],
          buf_inputs := [bytes], int_inputs := [d, n] } =
      some (write_reply P C ch (G.write_resource g name d n bytes).guard [guard_call.write_resource name d n bytes]
        (layout_reply write_resource_tag (G.write_resource g name d n bytes).ret [] [])) := by
  simp [dispatch, service_write_resource, rpc_call.function_name, layout_reply]
  cases (G.write_resource g name d n bytes).ret <;> simp

theorem dispatch_close_resource_closed {χ : Type} (P : codec) (C : channel χ) (G : guard_ops γ)
    (ch : χ) (g : γ) (name : String) (d : Int) :
    dispatch P C G ch g
        { opt_function_name := some close_resource_tag, str_inputs := [name],
          int_inputs := [d] } =
      some (write_reply P C ch (G.close_resource g name d).guard [guard_call.close_resource name d]
        (layout_reply close_resource_tag (G.close_resource g name d).ret [] [])) := by
  simp [dispatch, service_close_resource, rpc_call.function_name, layout_reply]
  cases (G.close_resource g name d).ret <;> simp

theorem dispatch_add_access_right_closed {χ : Type} (P : codec) (C : channel χ) (G : guard_ops γ)
    (ch : χ) (g : γ) (name right prin : String) :
    dispatch P C G ch g
        { opt_function_name := some add_access_right_tag,
          str_inputs := [name, right, prin] } =
      some (write_reply P C ch (G.add_access_rights g name right prin).guard [guard_call.add_access_rights name right prin]
        (layout_reply add_access_right_tag (G.add_access_rights g name right prin).ret [] [])) := by
  simp [dispatch, service_add_access_right, rpc_call.function_name, layout_reply]
  cases (G.add_access_rights g name right prin).ret <;> simp

theorem dispatch_delete_resource_closed {χ : Type} (P : codec) (C : channel χ) (G : guard_ops γ)
    (ch : χ) (g : γ) (name type : String) :
    dispatch P C G ch g
        { opt_function_name := some delete_resource_tag, str_inputs := [name, type] } =
      some (write_reply P C ch (G.delete_resource g name type).guard [guard_call.delete_resource name type]
        (layout_reply delete_resource_tag (G.delete_resource g name type).ret [] [])) := by
  simp [dispatch, service_delete_resource, rpc_call.function_name, layout_reply]
  cases (G.delete_resource g name type).ret <;> simp

theorem dispatch_create_resource_closed {χ : Type} (P : codec) (C : channel χ) (G : guard_ops γ)
    (ch : χ) (g : γ) (m : resource_message) (serialized : Bytes)
    (hp : P.parse_resource serialized = some m) :
    dispatch P C G ch g
        { opt_function_name := some create_resource_tag, buf_inputs := [serialized] } =
      some (write_reply P C ch (G.create_resource g m).guard [guard_call.create_resource m]
        (layout_reply create_resource_tag (G.create_resource g m).ret [] [])) := by
  simp [dispatch, service_create_resource, rpc_call.function_name, layout_reply, hp]
  cases (G.create_resource g m).ret <;> simp

theorem dispatch_add_principal_closed {χ : Type} (P : codec) (C : channel χ) (G : guard_ops γ)
    (ch : χ) (g : γ) (m : principal_message) (serialized : Bytes)
    (hp : P.parse_principal serialized = some m) :
    dispatch P C G ch g
        { opt_function_name := some add_principal_tag, buf_inputs := [serialized] } =
      some (write_reply P C ch (G.add_principal g m).guard [guard_call.add_principal m]
        (layout_reply add_principal_tag (G.add_principal g m).ret [] [])) := by
  simp [dispatch, service_add_principal, rpc_call.function_name, layout_reply, hp]
  cases (G.add_principal g m).ret <;> simp

/-- C12: in a process built with the simulated channel, with an initialized server, for
each of the ten wired client methods: when the codec carries the request envelope and
the reply envelope without loss in at most 4096 bytes each (`transmits`), the client
method returns exactly the boolean the corresponding guard method returns on the same
arguments (for `rpc_write_resource` with `n` the 32-bit value of the buffer's length),
the server's guard is left in the state that guard method produced, and on success the
client's output (nonce, descriptor, bytes) is the guard's output. -/
theorem simulated_client_agrees_with_guard (P : codec) (G : guard_ops γ)
    (w : acl_server_dispatch simulated_channel γ) (hinit : w.initialized_ = true) :
    (∀ name creds out,
      transmits P
        { opt_function_name := some authenticate_me_tag, str_inputs := [name],
          buf_inputs := [creds] } →
      transmits P (layout_reply authenticate_me_tag (G.authenticate_me w.guard_ name creds).ret [(G.authenticate_me w.guard_ name creds).out] []) →
      agrees_with_guard
        (rpc_authenticate_me P simulated_client_channel (inline_service_request P G) w name creds out)
        (G.authenticate_me w.guard_ name creds).ret (G.authenticate_me w.guard_ name creds).guard ∧
      ((G.authenticate_me w.guard_ name creds).ret = true →
        (rpc_authenticate_me P simulated_client_channel (inline_service_request P G) w name creds out).out =
          (G.authenticate_me w.guard_ name creds).out)) ∧
    (∀ name signed_nonce,
      transmits P
        { opt_function_name := some verify_me_tag, str_inputs := [name],
          buf_inputs := [signed_nonce] } →
      transmits P (layout_reply verify_me_tag (G.verify_me w.guard_ name signed_nonce).ret [] []) →
      agrees_with_guard
        (rpc_verify_me P simulated_client_channel (inline_service_request P G) w name signed_nonce)
        (G.verify_me w.guard_ name signed_nonce).ret (G.verify_me w.guard_ name signed_nonce).guard) ∧
    (∀ name mode d,
      transmits P
        { opt_function_name := some open_resource_tag, str_inputs := [name, mode] } →
      transmits P (layout_reply open_resource_tag (G.open_resource w.guard_ name mode).ret [] [(G.open_resource w.guard_ name mode).out]) →
      agrees_with_guard
        (rpc_open_resource P simulated_client_channel (inline_service_request P G) w name mode d)
        (G.open_resource w.guard_ name mode).ret (G.open_resource w.guard_ name mode).guard ∧
      ((G.open_resource w.guard_ name mode).ret = true →
        (rpc_open_resource P simulated_client_channel (inline_service_request P G) w name mode d).out =
          (G.open_resource w.guard_ name mode).out)) ∧
    (∀ name d n out,
      transmits P
        { opt_function_name := some read_resource_tag, str_inputs := [name],
          int_inputs := [d, n] } →
      transmits P (layout_reply read_resource_tag (G.read_resource w.guard_ name d n).ret [(G.read_resource w.guard_ name d n).out] []) →
      agrees_with_guard
        (rpc_read_resource P simulated_client_channel (inline_service_request P G) w name d n out)
        (G.read_resource w.guard_ name d n).ret (G.read_resource w.guard_ name d n).guard ∧
      ((G.read_resource w.guard_ name d n).ret = true →
        (rpc_read_resource P simulated_client_channel (inline_service_request P G) w name d n out).out =
          (G.read_resource w.guard_ name d n).out)) ∧
    (∀ name d bytes,
      transmits P
        { opt_function_name := some write_resource_tag, str_inputs := [name],
          buf_inputs := [bytes], int_inputs := [d, int32_t bytes.length] } →
      transmits P (layout_reply write_resource_tag (G.write_resource w.guard_ name d (int32_t bytes.length) bytes).ret [] []) →
      agrees_with_guard
        (rpc_write_resource P simulated_client_channel (inline_service_request P G) w name d bytes)
        (G.write_resource w.guard_ name d (int32_t bytes.length) bytes).ret (G.write_resource w.guard_ name d (int32_t bytes.length) bytes).guard) ∧
    (∀ name d,
      transmits P
        { opt_function_name := some close_resource_tag, str_inputs := [name],
          int_inputs := [d] } →
      transmits P (layout_reply close_resource_tag (G.close_resource w.guard_ name d).ret [] []) →
      agrees_with_guard
        (rpc_close_resource P simulated_client_channel (inline_service_request P G) w name d)
        (G.close_resource w.guard_ name d).ret (G.close_resource w.guard_ name d).guard) ∧
    (∀ name new_principal right,
      transmits P
        { opt_function_name := some add_access_right_tag,
          str_inputs := [name, right, new_principal] } →
      transmits P (layout_reply add_access_right_tag (G.add_access_rights w.guard_ name right new_principal).ret [] []) →
      agrees_with_guard
        (rpc_add_access_right P simulated_client_channel (inline_service_request P G) w name new_principal right)
        (G.add_access_rights w.guard_ name right new_principal).ret (G.add_access_rights w.guard_ name right new_principal).guard) ∧
    (∀ rm serialized, P.serialize_resource rm = some serialized →
      P.parse_resource serialized = some rm →
      transmits P
        { opt_function_name := some create_resource_tag, buf_inputs := [serialized] } →
      transmits P (layout_reply create_resource_tag (G.create_resource w.guard_ rm).ret [] []) →
      agrees_with_guard
        (rpc_create_resource P simulated_client_channel (inline_service_request P G) w rm)
        (G.create_resource w.guard_ rm).ret (G.create_resource w.guard_ rm).guard) ∧
    (∀ name type,
      transmits P
        { opt_function_name := some delete_resource_tag, str_inputs := [name, type] } →
      transmits P (layout_reply delete_resource_tag (G.delete_resource w.guard_ name type).ret [] []) →
      agrees_with_guard
        (rpc_delete_resource P simulated_client_channel (inline_service_request P G) w name type)
        (G.delete_resource w.guard_ name type).ret (G.delete_resource w.guard_ name type).guard) ∧
    (∀ pm serialized, P.serialize_principal pm = some serialized →
      P.parse_principal serialized = some pm →
      transmits P
        { opt_function_name := some add_principal_tag, buf_inputs := [serialized] } →
      transmits P (layout_reply add_principal_tag (G.add_principal w.guard_ pm).ret [] []) →
      agrees_with_guard
        (rpc_add_principal P simulated_client_channel (inline_service_request P G) w pm)
        (G.add_principal w.guard_ pm).ret (G.add_principal w.guard_ pm).guard) := by
  refine ⟨?_, ?_, ?_, ?_, ?_, ?_, ?_, ?_, ?_, ?_⟩
  · intro name creds out hE hR
    obtain ⟨ho, hg⟩ := simulated_exchange P G w _ _ _ _ hinit hE hR
      (fun ch => dispatch_authenticate_me_closed P simulated_channel.ops G ch w.guard_ name creds)
    simp only [agrees_with_guard, rpc_authenticate_me, rpc_call.fresh, rpc_call.set_function_name,
      rpc_call.add_str_inputs, rpc_call.add_buf_inputs, rpc_call.add_int_inputs,
      List.nil_append, List.cons_append]
    generalize client_exchange P simulated_client_channel (inline_service_request P G) w _ = x
      at ho hg
    simp only [ho]
    cases hret : (G.authenticate_me w.guard_ name creds).ret <;>
      simp [layout_reply, hret, rpc_call.function_name, hg, exchange_result.returning]
  · intro name signed_nonce hE hR
    obtain ⟨ho, hg⟩ := simulated_exchange P G w _ _ _ _ hinit hE hR
      (fun ch => dispatch_verify_me_closed P simulated_channel.ops G ch w.guard_ name signed_nonce)
    simp only [agrees_with_guard, rpc_verify_me, rpc_call.fresh, rpc_call.set_function_name,
      rpc_call.add_str_inputs, rpc_call.add_buf_inputs, rpc_call.add_int_inputs,
      List.nil_append, List.cons_append]
    generalize client_exchange P simulated_client_channel (inline_service_request P G) w _ = x
      at ho hg
    simp only [ho]
    cases hret : (G.verify_me w.guard_ name signed_nonce).ret <;>
      simp [layout_reply, hret, rpc_call.function_name, hg, exchange_result.returning]
  · intro name mode d hE hR
    obtain ⟨ho, hg⟩ := simulated_exchange P G w _ _ _ _ hinit hE hR
      (fun ch => dispatch_open_resource_closed P simulated_channel.ops G ch w.guard_ name mode)
    simp only [agrees_with_guard, rpc_open_resource, rpc_call.fresh, rpc_call.set_function_name,
      rpc_call.add_str_inputs, rpc_call.add_buf_inputs, rpc_call.add_int_inputs,
      List.nil_append, List.cons_append]
    generalize client_exchange P simulated_client_channel (inline_service_request P G) w _ = x
      at ho hg
    simp only [ho]
    cases hret : (G.open_resource w.guard_ name mode).ret <;>
      simp [layout_reply, hret, rpc_call.function_name, hg, exchange_result.returning]
  · intro name d n out hE hR
    obtain ⟨ho, hg⟩ := simulated_exchange P G w _ _ _ _ hinit hE hR
      (fun ch => dispatch_read_resource_closed P simulated_channel.ops G ch w.guard_ name d n)
    simp only [agrees_with_guard, rpc_read_resource, rpc_call.fresh, rpc_call.set_function_name,
      rpc_call.add_str_inputs, rpc_call.add_buf_inputs, rpc_call.add_int_inputs,
      List.nil_append, List.cons_append]
    generalize client_exchange P simulated_client_channel (inline_service_request P G) w _ = x
      at ho hg
    simp only [ho]
    cases hret : (G.read_resource w.guard_ name d n).ret <;>
      simp [layout_reply, hret, rpc_call.function_name, hg, exchange_result.returning]
  · intro name d bytes hE hR
    obtain ⟨ho, hg⟩ := simulated_exchange P G w _ _ _ _ hinit hE hR
      (fun ch => dispatch_write_resource_closed P simulated_channel.ops G ch w.guard_ name d (int32_t bytes.length) bytes)
    simp only [agrees_with_guard, rpc_write_resource, rpc_call.fresh, rpc_call.set_function_name,
      rpc_call.add_str_inputs, rpc_call.add_buf_inputs, rpc_call.add_int_inputs,
      List.nil_append, List.cons_append]
    generalize client_exchange P simulated_client_channel (inline_service_request P G) w _ = x
      at ho hg
    simp only [ho]
    cases hret : (G.write_resource w.guard_ name d (int32_t bytes.length) bytes).ret <;>
      simp [layout_reply, hret, rpc_call.function_name, hg, exchange_result.returning]
  · intro name d hE hR
    obtain ⟨ho, hg⟩ := simulated_exchange P G w _ _ _ _ hinit hE hR
      (fun ch => dispatch_close_resource_closed P simulated_channel.ops G ch w.guard_ name d)
    simp only [agrees_with_guard, rpc_close_resource, rpc_call.fresh, rpc_call.set_function_name,
      rpc_call.add_str_inputs, rpc_call.add_buf_inputs, rpc_call.add_int_inputs,
      List.nil_append, List.cons_append]
    generalize client_exchange P simulated_client_channel (inline_service_request P G) w _ = x
      at ho hg
    simp only [ho]
    cases hret : (G.close_resource w.guard_ name d).ret <;>
      simp [layout_reply, hret, rpc_call.function_name, hg, exchange_result.returning]
  · intro name new_principal right hE hR
    obtain ⟨ho, hg⟩ := simulated_exchange P G w _ _ _ _ hinit hE hR
      (fun ch => dispatch_add_access_right_closed P simulated_channel.ops G ch w.guard_ name right new_principal)
    simp only [agrees_with_guard, rpc_add_access_right, rpc_call.fresh, rpc_call.set_function_name,
      rpc_call.add_str_inputs, rpc_call.add_buf_inputs, rpc_call.add_int_inputs,
      List.nil_append, List.cons_append]
    generalize client_exchange P simulated_client_channel (inline_service_request P G) w _ = x
      at ho hg
    simp only [ho]
    cases hret : (G.add_access_rights w.guard_ name right new_principal).ret <;>
      simp [layout_reply, hret, rpc_call.function_name, hg, exchange_result.returning]
  · intro rm serialized hser hpar hE hR
    obtain ⟨ho, hg⟩ := simulated_exchange P G w _ _ _ _ hinit hE hR
      (fun ch => dispatch_create_resource_closed P simulated_channel.ops G ch w.guard_ rm serialized hpar)
    simp only [agrees_with_guard, rpc_create_resource, hser, rpc_call.fresh, rpc_call.set_function_name,
      rpc_call.add_str_inputs, rpc_call.add_buf_inputs, rpc_call.add_int_inputs,
      List.nil_append, List.cons_append]
    generalize client_exchange P simulated_client_channel (inline_service_request P G) w _ = x
      at ho hg
    simp only [ho]
    cases hret : (G.create_resource w.guard_ rm).ret <;>
      simp [layout_reply, hret, rpc_call.function_name, hg, exchange_result.returning]
  · intro name type hE hR
    obtain ⟨ho, hg⟩ := simulated_exchange P G w _ _ _ _ hinit hE hR
      (fun ch => dispatch_delete_resource_closed P simulated_channel.ops G ch w.guard_ name type)
    simp only [agrees_with_guard, rpc_delete_resource, rpc_call.fresh, rpc_call.set_function_name,
      rpc_call.add_str_inputs, rpc_call.add_buf_inputs, rpc_call.add_int_inputs,
      List.nil_append, List.cons_append]
    generalize client_exchange P simulated_client_channel (inline_service_request P G) w _ = x
      at ho hg
    simp only [ho]
    cases hret : (G.delete_resource w.guard_ name type).ret <;>
      simp [layout_reply, hret, rpc_call.function_name, hg, exchange_result.returning]
  · intro pm serialized hser hpar hE hR
    obtain ⟨ho, hg⟩ := simulated_exchange P G w _ _ _ _ hinit hE hR
      (fun ch => dispatch_add_principal_closed P simulated_channel.ops G ch w.guard_ pm serialized hpar)
    simp only [agrees_with_guard, rpc_add_principal, hser, rpc_call.fresh, rpc_call.set_function_name,
      rpc_call.add_str_inputs, rpc_call.add_buf_inputs, rpc_call.add_int_inputs,
      List.nil_append, List.cons_append]
    generalize client_exchange P simulated_client_channel (inline_service_request P G) w _ = x
      at ho hg
    simp only [ho]
    cases hret : (G.add_principal w.guard_ pm).ret <;>
      simp [layout_reply, hret, rpc_call.function_name, hg, exchange_result.returning]

/-- C12, in the sample simulated process: `rpc_open_resource(doc1, read)` returns true
with the descriptor 3 the sample guard hands out, and `rpc_verify_me(mallory)` returns
false as the sample guard does. -/
theorem simulated_client_agrees_with_guard_witness :
    ((rpc_open_resource sample_codec simulated_client_channel
        (inline_service_request sample_codec sample_guard) (sample_simulated_world 0)
        "doc1" "read" (-1)).ret = some true ∧
      (rpc_open_resource sample_codec simulated_client_channel
        (inline_service_request sample_codec sample_guard) (sample_simulated_world 0)
        "doc1" "read" (-1)).out = 3) ∧
    (rpc_verify_me sample_codec simulated_client_channel
      (inline_service_request sample_codec sample_guard) (sample_simulated_world 0)
      "mallory" [6]).ret = some false :=
  ⟨⟨((simulated_client_agrees_with_guard sample_codec sample_guard (sample_simulated_world 0)
        rfl).2.2.1 "doc1" "read" (-1) ⟨[8], by decide, by decide, by decide⟩
        ⟨[9], by decide, by decide, by decide⟩).1.1,
     ((simulated_client_agrees_with_guard sample_codec sample_guard (sample_simulated_world 0)
        rfl).2.2.1 "doc1" "read" (-1) ⟨[8], by decide, by decide, by decide⟩
        ⟨[9], by decide, by decide, by decide⟩).2 (by decide)⟩,
   ((simulated_client_agrees_with_guard sample_codec sample_guard (sample_simulated_world 0)
      rfl).2.1 "mallory" [6] ⟨[11], by decide, by decide, by decide⟩
      ⟨[12], by decide, by decide, by decide⟩).1⟩

end simulated_claims
/-! ## Client outputs, the length sent by `rpc_write_resource`, and the simulated buffer -/

section last_claims
variable {ω γ : Type}

theorem rpc_open_resource_out_of_range (P : codec) (C : channel ω) (srv : ω → ω) (w : ω)
    (name mode : String) (d : Int) (reply : rpc_call)
    (hx : (client_exchange P C srv w
      { opt_function_name := some open_resource_tag,
        str_inputs := [name, mode] }).output_call_struct = some reply)
    (htag : reply.function_name = open_resource_tag) (hst : reply.status = true)
    (hout : reply.int_outputs = []) :
    (rpc_open_resource P C srv w name mode d).ret = none := by
  simp only [rpc_open_resource, rpc_call.fresh, rpc_call.set_function_name,
    rpc_call.add_str_inputs, rpc_call.add_buf_inputs, rpc_call.add_int_inputs,
    List.nil_append, List.cons_append]
  generalize client_exchange P C srv w _ = x at hx
  simp only [rpc_call.status] at hst
  simp [hx, htag, hst, hout, exchange_result.out_of_range]

/-- C21, at the failing input: the sample client reads the open_resource reply with
status true and no descriptor (message 19), and `rpc_open_resource` reads
`int_outputs(0)` past the end of the vector instead of returning false; on the
corresponding replies without a nonce and without bytes (messages 20 and 22)
`rpc_authenticate_me` and `rpc_read_resource` return false and leave their output as it
was. -/
theorem rpc_open_resource_reads_past_end :
    sample_codec.parse_call [19] =
      some { opt_function_name := some "open_resource", opt_status := some true } ∧
    (rpc_open_resource sample_codec queue_channel.ops id (sample_client [19]) "doc1" "read"
      (-1)).ret = none ∧
    (rpc_authenticate_me sample_codec queue_channel.ops id (sample_client [20]) "alice" [80]
      [7]).ret = some false ∧
    (rpc_authenticate_me sample_codec queue_channel.ops id (sample_client [20]) "alice" [80]
      [7]).out = [7] ∧
    (rpc_read_resource sample_codec queue_channel.ops id (sample_client [22]) "doc1" 0 2
      [7]).ret = some false ∧
    (rpc_read_resource sample_codec queue_channel.ops id (sample_client [22]) "doc1" 0 2
      [7]).out = [7] := by
  decide

theorem int32_t_of_length (n : Nat) (h : n < 2147483648) : int32_t (n : Int) = n := by
  unfold int32_t
  omega

/-- C22: for every resource name, descriptor and byte string shorter than 2^31 bytes,
every request `rpc_write_resource` writes carries the byte string as `buf_inputs[0]`
and its length as `int_inputs[1]`; it writes one whenever the envelope serializes. -/
theorem rpc_write_resource_n_is_length (P : codec) (C : channel ω) (srv : ω → ω) (w : ω)
    (name : String) (d : Int) (bytes : Bytes) (h : bytes.length < 2147483648) :
    (∀ wr ∈ (rpc_write_resource P C srv w name d bytes).writes,
      wr.message.buf_inputs[0]? = some bytes ∧
      wr.message.int_inputs[1]? = some (bytes.length : Int)) ∧
    ((P.serialize_call
        { opt_function_name := some write_resource_tag, str_inputs := [name],
          buf_inputs := [bytes], int_inputs := [d, (bytes.length : Int)] }).isSome = true →
      (rpc_write_resource P C srv w name d bytes).writes.length = 1) := by
  have hs := sends_of_client_post P C srv w _ _ _ (rpc_write_resource_post P C srv w name d bytes)
  rw [int32_t_of_length bytes.length h] at hs
  refine ⟨?_, hs.2.2⟩
  intro wr hwr
  rw [(hs.1 wr hwr).1]
  exact ⟨rfl, rfl⟩

/-- C22, on the sample client: the request written for a buffer of two bytes carries
n = 2. -/
theorem rpc_write_resource_n_is_length_witness :
    (rpc_write_resource sample_codec queue_channel.ops id (sample_client [18]) "doc1" 0
      [104, 105]).writes.length = 1 ∧
    ∀ wr ∈ (rpc_write_resource sample_codec queue_channel.ops id (sample_client [18]) "doc1" 0
        [104, 105]).writes,
      wr.message.buf_inputs[0]? = some [104, 105] ∧ wr.message.int_inputs[1]? = some 2 :=
  ⟨(rpc_write_resource_n_is_length sample_codec queue_channel.ops id (sample_client [18])
      "doc1" 0 [104, 105] (by decide)).2 (by decide),
   (rpc_write_resource_n_is_length sample_codec queue_channel.ops id (sample_client [18])
      "doc1" 0 [104, 105] (by decide)).1⟩

/-- C23: for every `n` with 0 ≤ n ≤ 4096 and every buffer `b` of at least `n` bytes,
`simulated_buf_write(n, b)` returns `n`, and the `simulated_sized_buf_read` that follows
returns `n` and yields exactly the first `n` bytes of `b`; the read empties the buffer,
so a second read returns 0 and the empty string; none of this leaves the domain of the
copies. For `n` above 4096 the write returns -1 and leaves the buffer as it was. -/
theorem simulated_write_then_read (s : simulated_channel) (n : Int) (b : Bytes) :
    (0 ≤ n → n ≤ 4096 → n ≤ b.length →
      (simulated_buf_write s n b).bytes_written = n ∧
      (simulated_sized_buf_read (simulated_buf_write s n b).channel).bytes_read = n ∧
      (simulated_sized_buf_read (simulated_buf_write s n b).channel).out = b.take n.toNat ∧
      (simulated_sized_buf_read
        (simulated_sized_buf_read (simulated_buf_write s n b).channel).channel).bytes_read = 0 ∧
      (simulated_sized_buf_read
        (simulated_sized_buf_read (simulated_buf_write s n b).channel).channel).out = [] ∧
      (simulated_sized_buf_read
        (simulated_sized_buf_read (simulated_buf_write s n b).channel).channel).channel.memory_safe =
        s.memory_safe) ∧
    (4096 < n →
      (simulated_buf_write s n b).bytes_written = -1 ∧
      (simulated_buf_write s n b).channel = s) := by
  constructor
  · intro h0 h1 h2
    have hle : ¬ (n > max_size_buf) := by
      unfold max_size_buf
      omega
    have hlen : (b.take n.toNat).length = n.toNat := by
      rw [List.length_take]
      omega
    unfold simulated_buf_write
    rw [if_neg hle]
    refine ⟨rfl, rfl, ?_, rfl, rfl, ?_⟩
    · show (b.take n.toNat ++ s.simulated_buf.drop n.toNat).take n.toNat = b.take n.toNat
      rw [List.take_append_of_le_length (by omega)]
      rw [List.take_of_length_le (by omega)]
    · simp [simulated_sized_buf_read, max_size_buf, h0, h1, h2]
  · intro h
    have hgt : n > max_size_buf := by
      unfold max_size_buf
      omega
    unfold simulated_buf_write
    rw [if_pos hgt]
    exact ⟨rfl, rfl⟩

/-- C23, on three bytes: writing the first two of 1 2 3 and reading gives 2 and the
bytes 1 2, a second read gives 0 and nothing; a write of 4097 bytes is refused. -/
theorem simulated_write_then_read_witness :
    ((simulated_buf_write { size_buf := 0, simulated_buf := [9, 9, 9, 9], memory_safe := true }
        2 [1, 2, 3]).bytes_written = 2 ∧
      (simulated_sized_buf_read
        (simulated_buf_write { size_buf := 0, simulated_buf := [9, 9, 9, 9], memory_safe := true }
          2 [1, 2, 3]).channel).out = [1, 2]) ∧
    (simulated_buf_write { size_buf := 0, simulated_buf := [9, 9, 9, 9], memory_safe := true }
      4097 [1, 2, 3]).bytes_written = -1 := by
  have h := simulated_write_then_read
    { size_buf := 0, simulated_buf := [9, 9, 9, 9], memory_safe := true } 2 [1, 2, 3]
  have h2 := simulated_write_then_read
    { size_buf := 0, simulated_buf := [9, 9, 9, 9], memory_safe := true } 4097 [1, 2, 3]
  obtain ⟨ha, -, hb, -⟩ := h.1 (by decide) (by decide) (by decide)
  exact ⟨⟨ha, hb⟩, (h2.2 (by decide)).1⟩

end last_claims
/-! ## The simulated buffer across a client call -/

section buffer_claims
variable {γ : Type}

theorem sample_codec_small (m : rpc_call) (enc : Bytes)
    (h : sample_codec.serialize_call m = some enc) : enc.length < 2147483648 := by
  simp only [sample_codec] at h
  split_ifs at h
  cases h
  simp

theorem simulated_exchange_leaves_buffer_empty (P : codec)
    (srv : acl_server_dispatch simulated_channel γ → acl_server_dispatch simulated_channel γ)
    (w : acl_server_dispatch simulated_channel γ) (E : rpc_call)
    (hempty : w.channel_descriptor_.size_buf = 0) :
    leaves_buffer_empty P (client_exchange P simulated_client_channel srv w E).world := by
  unfold client_exchange
  cases hs : P.serialize_call E with
  | none => exact ⟨fun _ => hempty, fun _ => hempty⟩
  | some enc =>
    dsimp only
    by_cases hbig : int32_t enc.length > max_size_buf
    · have hw : simulated_buf_write w.channel_descriptor_ (int32_t enc.length) enc =
          { bytes_written := -1, channel := w.channel_descriptor_ } := by
        unfold simulated_buf_write
        rw [if_pos hbig]
      simp only [simulated_client_channel, hw]
      rw [if_pos (by decide)]
      exact ⟨fun _ => hempty, fun _ => hempty⟩
    · have hw : simulated_buf_write w.channel_descriptor_ (int32_t enc.length) enc =
          { bytes_written := int32_t enc.length,
            channel :=
              { size_buf := int32_t enc.length,
                simulated_buf := enc.take (int32_t enc.length).toNat ++
                  w.channel_descriptor_.simulated_buf.drop (int32_t enc.length).toNat,
                memory_safe := w.channel_descriptor_.memory_safe &&
                  decide (0 ≤ int32_t enc.length ∧ int32_t enc.length ≤ enc.length) } } := by
        unfold simulated_buf_write
        rw [if_neg hbig]
      simp only [simulated_client_channel, hw]
      by_cases hneg : int32_t enc.length < 0
      · rw [if_pos hneg]
        constructor
        · intro hsafe
          have hno : ¬ (0 ≤ int32_t enc.length ∧ int32_t (enc.length : Int) ≤ enc.length) :=
            fun h => absurd h.1 (not_le.mpr hneg)
          simp [hno] at hsafe
        · intro hsize
          have hlt := hsize E enc hs
          rw [int32_t_of_length enc.length hlt] at hneg
          omega
      · rw [if_neg hneg]
        split_ifs <;> exact ⟨fun _ => rfl, fun _ => rfl⟩

theorem leaves_buffer_empty_of_client_post {α : Type} (P : codec) (tag : String)
    (x : exchange_result (acl_server_dispatch simulated_channel γ))
    (r : rpc_return (acl_server_dispatch simulated_channel γ) α)
    (hp : client_post tag x r) (hx : leaves_buffer_empty P x.world) :
    leaves_buffer_empty P r.world := by
  rw [hp.2.2.1]
  exact hx

/-- C24: under the simulated channel, with the server run in line, a client method
called while the shared buffer is empty (`size_buf = 0`) returns with the buffer empty
again, whatever its outcome, for each of the eleven methods. The length of a request is
narrowed to a 32-bit `n`: the buffer is empty afterwards whenever no copy left its
domain, and with no proviso when the codec never produces 2^31 bytes or more. -/
theorem simulated_client_leaves_buffer_empty (P : codec) (G : guard_ops γ)
    (w : acl_server_dispatch simulated_channel γ)
    (hempty : w.channel_descriptor_.size_buf = 0) :
    (∀ name creds out, leaves_buffer_empty P
      (rpc_authenticate_me P simulated_client_channel (inline_service_request P G) w
        name creds out).world) ∧
    (∀ name sig, leaves_buffer_empty P
      (rpc_verify_me P simulated_client_channel (inline_service_request P G) w
        name sig).world) ∧
    (∀ name mode d, leaves_buffer_empty P
      (rpc_open_resource P simulated_client_channel (inline_service_request P G) w
        name mode d).world) ∧
    (∀ name d n out, leaves_buffer_empty P
      (rpc_read_resource P simulated_client_channel (inline_service_request P G) w
        name d n out).world) ∧
    (∀ name d bytes, leaves_buffer_empty P
      (rpc_write_resource P simulated_client_channel (inline_service_request P G) w
        name d bytes).world) ∧
    (∀ name d, leaves_buffer_empty P
      (rpc_close_resource P simulated_client_channel (inline_service_request P G) w
        name d).world) ∧
    (∀ name prin right, leaves_buffer_empty P
      (rpc_add_access_right P simulated_client_channel (inline_service_request P G) w
        name prin right).world) ∧
    (∀ name type, leaves_buffer_empty P
      (rpc_delete_resource P simulated_client_channel (inline_service_request P G) w
        name type).world) ∧
    (∀ rm, leaves_buffer_empty P
      (rpc_create_resource P simulated_client_channel (inline_service_request P G) w
        rm).world) ∧
    (∀ name, leaves_buffer_empty P (rpc_delete_principal w name).world) ∧
    (∀ pm, leaves_buffer_empty P
      (rpc_add_principal P simulated_client_channel (inline_service_request P G) w
        pm).world) := by
  have hx := fun E =>
    simulated_exchange_leaves_buffer_empty P (inline_service_request P G) w E hempty
  refine ⟨?_, ?_, ?_, ?_, ?_, ?_, ?_, ?_, ?_, ?_, ?_⟩
  · intro name creds out
    exact leaves_buffer_empty_of_client_post P _ _ _
      (rpc_authenticate_me_post P _ _ w name creds out) (hx _)
  · intro name sig
    exact leaves_buffer_empty_of_client_post P _ _ _
      (rpc_verify_me_post P _ _ w name sig) (hx _)
  · intro name mode d
    exact leaves_buffer_empty_of_client_post P _ _ _
      (rpc_open_resource_post P _ _ w name mode d) (hx _)
  · intro name d n out
    exact leaves_buffer_empty_of_client_post P _ _ _
      (rpc_read_resource_post P _ _ w name d n out) (hx _)
  · intro name d bytes
    exact leaves_buffer_empty_of_client_post P _ _ _
      (rpc_write_resource_post P _ _ w name d bytes) (hx _)
  · intro name d
    exact leaves_buffer_empty_of_client_post P _ _ _
      (rpc_close_resource_post P _ _ w name d) (hx _)
  · intro name prin right
    exact leaves_buffer_empty_of_client_post P _ _ _
      (rpc_add_access_right_post P _ _ w name prin right) (hx _)
  · intro name type
    exact leaves_buffer_empty_of_client_post P _ _ _
      (rpc_delete_resource_post P _ _ w name type) (hx _)
  · intro rm
    have hp := rpc_create_resource_post P simulated_client_channel
      (inline_service_request P G) w rm
    cases hs : P.serialize_resource rm with
    | none =>
      have hw : (rpc_create_resource P simulated_client_channel
          (inline_service_request P G) w rm).world = w := by
        simp [rpc_create_resource, hs]
      rw [hw]
      exact ⟨fun _ => hempty, fun _ => hempty⟩
    | some s =>
      rw [hs] at hp
      exact leaves_buffer_empty_of_client_post P _ _ _ hp (hx _)
  · intro name
    exact ⟨fun _ => hempty, fun _ => hempty⟩
  · intro pm
    have hp := rpc_add_principal_post P simulated_client_channel
      (inline_service_request P G) w pm
    cases hs : P.serialize_principal pm with
    | none =>
      have hw : (rpc_add_principal P simulated_client_channel
          (inline_service_request P G) w pm).world = w := by
        simp [rpc_add_principal, hs]
      rw [hw]
      exact ⟨fun _ => hempty, fun _ => hempty⟩
    | some s =>
      rw [hs] at hp
      exact leaves_buffer_empty_of_client_post P _ _ _ hp (hx _)

/-- C24, on the sample process: starting from the empty buffer, a successful verify_me
and an open_resource the sample codec cannot even serialize both leave `size_buf` at
0. -/
theorem simulated_client_leaves_buffer_empty_witness :
    (sample_simulated_world 0).channel_descriptor_.size_buf = 0 ∧
    (rpc_verify_me sample_codec simulated_client_channel
      (inline_service_request sample_codec sample_guard) (sample_simulated_world 0)
      "alice" [1, 2]).world.channel_descriptor_.size_buf = 0 ∧
    (rpc_open_resource sample_codec simulated_client_channel
      (inline_service_request sample_codec sample_guard) (sample_simulated_world 0)
      "nothing" "read" (-1)).world.channel_descriptor_.size_buf = 0 :=
  ⟨rfl,
   ((simulated_client_leaves_buffer_empty sample_codec sample_guard (sample_simulated_world 0)
      rfl).2.1 "alice" [1, 2]).2 sample_codec_small,
   ((simulated_client_leaves_buffer_empty sample_codec sample_guard (sample_simulated_world 0)
      rfl).2.2.1 "nothing" "read" (-1)).2 sample_codec_small⟩

end buffer_claims
end certifier.acl_lib
